import Mathlib

/-!
# HR-System client: messaging, forms and assessments

A shallow embedding of the two React components that show a message thread,
`src/Messages.js` (the `Messages` page) and `src/messaging/Messaging.js` (the
embedded `Messaging` panel), of the conversation filter and the new chat modal
of the `Messages` page, and of the modal `src/messaging/StartConversation.js`;
then of the validation of `src/SubmitProposal.js`, the code cells of
`src/auth/Verification.js`, the page `src/SkillAssessment.js`, the assessment
builder of `src/AdminDashboard.js` and the rating filter and distribution of
`src/common/ReviewsList.js`.

A component is a state record and a step function over the events the
browser can deliver to it: a user action, a timer tick, or the settling of a
promise returned by the API client.  An `async` handler is cut at its `await`:
the part before the `await` runs in the event that calls the handler, the part
after it runs in the event that settles the promise.  Network calls are
recorded in the `calls` log of the state, promises that have not settled yet
in `pendingGets` and `pendingSends`, and live `setInterval` timers in
`intervals`.
-/

namespace HRSystem

/-! ## JavaScript values -/

/-- A JavaScript value as it arrives in `response.data`: what `JSON.parse`
can produce, plus `undefined`.  Numbers are integers here; only whether a
number is zero is ever inspected.  An object is the association list of its
own properties. -/
inductive JSValue where
  | undefined
  | null
  | bool (b : Bool)
  | number (n : Int)
  | string (s : String)
  | array (items : List JSValue)
  | object (props : List (String × JSValue))

namespace JSValue

/-- JavaScript truthiness: `undefined`, `null`, `false`, `0` and `""` are
falsy, every other value (every array and object included) is truthy. -/
def truthy : JSValue → Bool
  | undefined => false
  | null => false
  | bool b => b
  | number n => n != 0
  | string s => !s.data.isEmpty
  | array _ => true
  | object _ => true

/-- The expression `v.k` for a property name `k` that is not a built-in one:
`none` stands for the TypeError thrown on `undefined` and `null`; an object
gives its property or `undefined`; every other value gives `undefined`. -/
def getProp : JSValue → String → Option JSValue
  | undefined, _ => none
  | null, _ => none
  | object props, k => some ((props.lookup k).getD undefined)
  | _, _ => some undefined

/-- The expression `a || b`. -/
def or (a b : JSValue) : JSValue :=
  if a.truthy then a else b

/-- The test `Array.isArray(v)`. -/
def isArray : JSValue → Bool
  | array _ => true
  | _ => false

end JSValue

/-- White space and line terminators as `String.prototype.trim` removes
them. -/
def isJSWhitespace (c : Char) : Bool :=
  c.toNat ∈ [0x9, 0xA, 0xB, 0xC, 0xD, 0x20, 0xA0, 0x1680, 0x2028, 0x2029,
    0x202F, 0x205F, 0x3000, 0xFEFF] || (0x2000 ≤ c.toNat && c.toNat ≤ 0x200A)

/-- The method `s.trim()`: white space removed from both ends. -/
def jsTrim (s : String) : String :=
  ⟨((s.data.dropWhile isJSWhitespace).reverse.dropWhile isJSWhitespace).reverse⟩

/-- The test `!s` on a string: true exactly for the empty string. -/
def jsNot (s : String) : Bool :=
  s.data.isEmpty

/-- A string that is empty or holds only white space. -/
def isBlank (s : String) : Prop :=
  ∀ c ∈ s.data, isJSWhitespace c = true

instance (s : String) : Decidable (isBlank s) :=
  inferInstanceAs (Decidable (∀ c ∈ s.data, isJSWhitespace c = true))

/-! ## The API client, seen from the views -/

/-- A call of the messaging API made by a view. -/
inductive ApiCall where
  | getMessages (convId : JSValue)
  | sendMessage (conversation : JSValue) (content : String) (messageType : String)
  | getConversations
  | createConversation (data : JSValue)
  | searchUsers (q : String) (limit : Nat)
  | getProviderProfile (id : JSValue)

/-- A live `setInterval` timer of the refresh effect: its handle, its delay
in milliseconds and the `selectedConversation` its callback closes over. -/
structure Interval where
  handle : Nat
  delay : Nat
  conv : JSValue

/-- The list handed to `setMessages` when `getMessages` resolves with
`response.data = data` (the same two lines in both views):
`const msgs = response.data.results || response.data || [];`
`setMessages(Array.isArray(msgs) ? msgs : []);`
Reading `.results` of `null` or `undefined` throws inside the `try`, and the
`catch` calls `setMessages([])`. -/
def loadMessagesList (data : JSValue) : List JSValue :=
  match data.getProp "results" with
  | none => []
  | some results =>
    match (results.or data).or (JSValue.array []) with
    | JSValue.array items => items
    | _ => []

/-! ## `src/Messages.js` -/

namespace Messages

/-- The state of the `Messages` component that the thread logic reads and
writes, with the pending promises, live timers and call log around it. -/
structure State where
  messages : List JSValue
  selectedConversation : JSValue
  newMessage : String
  sendingMessage : Bool
  intervals : List Interval
  nextHandle : Nat
  cleanup : Option Nat
  pendingGets : List JSValue
  pendingSends : List JSValue
  calls : List ApiCall

/-- The state after the first render: the `useState` defaults, nothing
pending, no timer. -/
def init : State :=
  { messages := [], selectedConversation := JSValue.null, newMessage := "",
    sendingMessage := false, intervals := [], nextHandle := 0, cleanup := none,
    pendingGets := [], pendingSends := [], calls := [] }

/-- The function `loadMessages(convId)` up to its `await`: the call
`messagingAPI.getMessages(convId)` is made and its promise is pending. -/
def loadMessages (s : State) (convId : JSValue) : State :=
  { s with calls := s.calls ++ [ApiCall.getMessages convId],
           pendingGets := s.pendingGets ++ [convId] }

/-- The rest of `loadMessages` when `getMessages` resolved with
`response.data = data`. -/
def loadMessagesResolved (s : State) (data : JSValue) : State :=
  { s with messages := loadMessagesList data }

/-- The rest of `loadMessages` when `getMessages` rejected: the `catch`
branch, `setMessages([])`. -/
def loadMessagesRejected (s : State) : State :=
  { s with messages := [] }

/-- The function `handleSendMessage(e)` up to its `await`.  The guard is
`if (!newMessage.trim() || !selectedConversation) return;`, then
`setSendingMessage(true)` and the `sendMessage` call, whose continuation keeps
the `selectedConversation` of this render.  (Reading `.id` cannot throw once
the guard has passed; if it did, `catch` and `finally` would run at once.) -/
def handleSendMessage (s : State) : State :=
  if jsNot (jsTrim s.newMessage) || !s.selectedConversation.truthy then s
  else
    match s.selectedConversation.getProp "id" with
    | some id =>
      { s with sendingMessage := true,
               calls := s.calls ++ [ApiCall.sendMessage id s.newMessage "text"],
               pendingSends := s.pendingSends ++ [s.selectedConversation] }
    | none => { s with sendingMessage := false }

/-- The rest of `handleSendMessage` when `sendMessage` resolved, for the
conversation `conv` the handler closed over: `setNewMessage("")`,
`loadMessages(selectedConversation.id)`, and in `finally`
`setSendingMessage(false)`. -/
def handleSendMessageResolved (s : State) (conv : JSValue) : State :=
  let s1 := { s with newMessage := "" }
  let s2 := match conv.getProp "id" with
    | some id => loadMessages s1 id
    | none => s1
  { s2 with sendingMessage := false }

/-- The rest of `handleSendMessage` when `sendMessage` rejected: the `catch`
only logs, `finally` runs `setSendingMessage(false)`. -/
def handleSendMessageRejected (s : State) : State :=
  { s with sendingMessage := false }

/-- The cleanup `() => clearInterval(interval)` returned by the last run of
the `[selectedConversation]` effect, if that run returned one. -/
def effectCleanup (s : State) : State :=
  match s.cleanup with
  | some h =>
    { s with intervals := s.intervals.filter (fun iv => iv.handle != h), cleanup := none }
  | none => s

/-- The body of the `[selectedConversation]` effect:
`if (selectedConversation) { loadMessages(selectedConversation.id);`
`const interval = setInterval(() => { loadMessages(selectedConversation.id); }, 5000);`
`return () => clearInterval(interval); }`. -/
def selectedConversationEffect (s : State) : State :=
  if s.selectedConversation.truthy then
    match s.selectedConversation.getProp "id" with
    | some id =>
      let s1 := loadMessages s id
      { s1 with intervals := s1.intervals ++ [⟨s1.nextHandle, 5000, s.selectedConversation⟩],
                nextHandle := s1.nextHandle + 1,
                cleanup := some s1.nextHandle }
    | none => s
  else s

/-- A call `setSelectedConversation(conv)` with a new value, and the render
that follows it: React runs the cleanup of the previous effect, then the
effect again. -/
def setSelectedConversation (s : State) (conv : JSValue) : State :=
  selectedConversationEffect (effectCleanup { s with selectedConversation := conv })

/-- The callback of the interval with handle `h` fires.  A handle that was
cleared, or never set, fires nothing. -/
def intervalTick (s : State) (h : Nat) : State :=
  match s.intervals.find? (fun iv => iv.handle == h) with
  | some iv =>
    match iv.conv.getProp "id" with
    | some id => loadMessages s id
    | none => s
  | none => s

/-- The attribute `disabled={!newMessage.trim() || sendingMessage}` of the
submit button. -/
def sendDisabled (s : State) : Bool :=
  jsNot (jsTrim s.newMessage) || s.sendingMessage

/-- What can happen to the component. -/
inductive Event where
  | change (text : String)
  | selectConversation (conv : JSValue)
  | clickSend
  | enterKey
  | tick (handle : Nat)
  | getResolved (i : Nat) (data : JSValue)
  | getRejected (i : Nat)
  | sendResolved (i : Nat)
  | sendRejected (i : Nat)

/-- One event.  `change` is the `onChange` of the message input;
`selectConversation` is `handleSelectConversation` (and every other
`setSelectedConversation` call); `clickSend` is a click on the submit button,
which submits the form unless the button is disabled; `enterKey` is the
`onKeyDown` handler at Enter without Shift, which calls `handleSendMessage`
itself; the last four settle the `i`-th pending promise. -/
def step (s : State) : Event → State
  | Event.change text => { s with newMessage := text }
  | Event.selectConversation conv => setSelectedConversation s conv
  | Event.clickSend => if sendDisabled s then s else handleSendMessage s
  | Event.enterKey => handleSendMessage s
  | Event.tick h => intervalTick s h
  | Event.getResolved i data =>
    match s.pendingGets[i]? with
    | some _ => loadMessagesResolved { s with pendingGets := s.pendingGets.eraseIdx i } data
    | none => s
  | Event.getRejected i =>
    match s.pendingGets[i]? with
    | some _ => loadMessagesRejected { s with pendingGets := s.pendingGets.eraseIdx i }
    | none => s
  | Event.sendResolved i =>
    match s.pendingSends[i]? with
    | some conv => handleSendMessageResolved { s with pendingSends := s.pendingSends.eraseIdx i } conv
    | none => s
  | Event.sendRejected i =>
    match s.pendingSends[i]? with
    | some _ => handleSendMessageRejected { s with pendingSends := s.pendingSends.eraseIdx i }
    | none => s

/-- The state after a sequence of events, oldest first. -/
def run (s : State) (es : List Event) : State :=
  es.foldl step s

end Messages

/-! ## `src/messaging/Messaging.js` -/

namespace Messaging

/-- The state of the `Messaging` component that the thread logic reads and
writes.  This view has no sending flag. -/
structure State where
  messages : List JSValue
  selectedConversation : JSValue
  newMessage : String
  intervals : List Interval
  nextHandle : Nat
  cleanup : Option Nat
  pendingGets : List JSValue
  pendingSends : List JSValue
  calls : List ApiCall

/-- The state after the first render. -/
def init : State :=
  { messages := [], selectedConversation := JSValue.null, newMessage := "",
    intervals := [], nextHandle := 0, cleanup := none,
    pendingGets := [], pendingSends := [], calls := [] }

/-- The function `loadMessages(convId)` up to its `await`. -/
def loadMessages (s : State) (convId : JSValue) : State :=
  { s with calls := s.calls ++ [ApiCall.getMessages convId],
           pendingGets := s.pendingGets ++ [convId] }

/-- The rest of `loadMessages` when `getMessages` resolved. -/
def loadMessagesResolved (s : State) (data : JSValue) : State :=
  { s with messages := loadMessagesList data }

/-- The rest of `loadMessages` when `getMessages` rejected: `setMessages([])`. -/
def loadMessagesRejected (s : State) : State :=
  { s with messages := [] }

/-- The function `handleSendMessage(e)` up to its `await`: the same guard as
in `Messages`, then the `sendMessage` call. -/
def handleSendMessage (s : State) : State :=
  if jsNot (jsTrim s.newMessage) || !s.selectedConversation.truthy then s
  else
    match s.selectedConversation.getProp "id" with
    | some id =>
      { s with calls := s.calls ++ [ApiCall.sendMessage id s.newMessage "text"],
               pendingSends := s.pendingSends ++ [s.selectedConversation] }
    | none => s

/-- The rest of `handleSendMessage` when `sendMessage` resolved:
`setNewMessage('')` and `loadMessages(selectedConversation.id)`. -/
def handleSendMessageResolved (s : State) (conv : JSValue) : State :=
  let s1 := { s with newMessage := "" }
  match conv.getProp "id" with
  | some id => loadMessages s1 id
  | none => s1

/-- The rest of `handleSendMessage` when `sendMessage` rejected: the `catch`
only logs. -/
def handleSendMessageRejected (s : State) : State :=
  s

/-- The cleanup returned by the last run of the `[selectedConversation]`
effect, if that run returned one. -/
def effectCleanup (s : State) : State :=
  match s.cleanup with
  | some h =>
    { s with intervals := s.intervals.filter (fun iv => iv.handle != h), cleanup := none }
  | none => s

/-- The body of the `[selectedConversation]` effect, the same as in
`Messages`. -/
def selectedConversationEffect (s : State) : State :=
  if s.selectedConversation.truthy then
    match s.selectedConversation.getProp "id" with
    | some id =>
      let s1 := loadMessages s id
      { s1 with intervals := s1.intervals ++ [⟨s1.nextHandle, 5000, s.selectedConversation⟩],
                nextHandle := s1.nextHandle + 1,
                cleanup := some s1.nextHandle }
    | none => s
  else s

/-- A call `setSelectedConversation(conv)` with a new value, and the render
that follows it. -/
def setSelectedConversation (s : State) (conv : JSValue) : State :=
  selectedConversationEffect (effectCleanup { s with selectedConversation := conv })

/-- The callback of the interval with handle `h` fires. -/
def intervalTick (s : State) (h : Nat) : State :=
  match s.intervals.find? (fun iv => iv.handle == h) with
  | some iv =>
    match iv.conv.getProp "id" with
    | some id => loadMessages s id
    | none => s
  | none => s

/-- What can happen to the component. -/
inductive Event where
  | change (text : String)
  | selectConversation (conv : JSValue)
  | submit
  | tick (handle : Nat)
  | getResolved (i : Nat) (data : JSValue)
  | getRejected (i : Nat)
  | sendResolved (i : Nat)
  | sendRejected (i : Nat)

/-- One event.  `submit` is the `onSubmit` of the form (the Send button, which
is never disabled here, or Enter in the text input). -/
def step (s : State) : Event → State
  | Event.change text => { s with newMessage := text }
  | Event.selectConversation conv => setSelectedConversation s conv
  | Event.submit => handleSendMessage s
  | Event.tick h => intervalTick s h
  | Event.getResolved i data =>
    match s.pendingGets[i]? with
    | some _ => loadMessagesResolved { s with pendingGets := s.pendingGets.eraseIdx i } data
    | none => s
  | Event.getRejected i =>
    match s.pendingGets[i]? with
    | some _ => loadMessagesRejected { s with pendingGets := s.pendingGets.eraseIdx i }
    | none => s
  | Event.sendResolved i =>
    match s.pendingSends[i]? with
    | some conv => handleSendMessageResolved { s with pendingSends := s.pendingSends.eraseIdx i } conv
    | none => s
  | Event.sendRejected i =>
    match s.pendingSends[i]? with
    | some _ => handleSendMessageRejected { s with pendingSends := s.pendingSends.eraseIdx i }
    | none => s

/-- The state after a sequence of events, oldest first. -/
def run (s : State) (es : List Event) : State :=
  es.foldl step s

end Messaging


/-! ## The rendered thread -/

/-- What the thread shows for one message: the React `key` (`message.id`),
the text (`message.content`) and the time (`message.created_at`, handed to
`formatMessageTime`). -/
structure Bubble where
  key : JSValue
  content : JSValue
  createdAt : JSValue

/-- The bubble of one message in `messages.map((message, index) => ...)`;
`none` when reading a property of the message throws. -/
def messageBubble (m : JSValue) : Option Bubble :=
  match m.getProp "id", m.getProp "content", m.getProp "created_at" with
  | some k, some c, some t => some ⟨k, c, t⟩
  | _, _, _ => none

/-- The bubbles of the thread, `messages.map(...)`, top to bottom; `none`
when rendering one of them throws. -/
def renderThread : List JSValue → Option (List Bubble)
  | [] => some []
  | m :: ms =>
    match messageBubble m, renderThread ms with
    | some b, some bs => some (b :: bs)
    | _, _ => none

/-- Lexicographic order on code points. -/
def lexLe : List Nat → List Nat → Bool
  | [], _ => true
  | _ :: _, [] => false
  | a :: as, b :: bs => a < b || (a == b && lexLe as bs)

/-- Whether timestamp `a` is not later than timestamp `b`, for `created_at`
strings in the ISO 8601 form the server sends (same layout, same zone), where
the order of the instants is the lexicographic order of the strings. -/
def createdAtLe (a b : JSValue) : Bool :=
  match a, b with
  | JSValue.string x, JSValue.string y => lexLe (x.data.map Char.toNat) (y.data.map Char.toNat)
  | _, _ => false

/-- The spec's display order: bubbles sorted by `created_at` ascending. -/
def SortedByCreatedAt (bs : List Bubble) : Prop :=
  List.Pairwise (fun a b => createdAtLe a.createdAt b.createdAt = true) bs

/-! ## Sample data -/

/-- The conversation of the spec's scenario, `{id: 1, subject: "Logo design",
participants: [{id: 2, username: "alice"}]}`. -/
def convA : JSValue :=
  JSValue.object [("id", JSValue.number 1), ("subject", JSValue.string "Logo design"),
    ("participants", JSValue.array [JSValue.object [("id", JSValue.number 2),
      ("username", JSValue.string "alice")]])]

/-- A second conversation. -/
def convB : JSValue :=
  JSValue.object [("id", JSValue.number 2), ("subject", JSValue.string "Invoice")]

/-- A message of conversation 1, created on 1 January. -/
def msgA : JSValue :=
  JSValue.object [("id", JSValue.number 10), ("conversation", JSValue.number 1),
    ("content", JSValue.string "hello"), ("created_at", JSValue.string "2024-01-01T09:00:00Z")]

/-- A message of conversation 2. -/
def msgB : JSValue :=
  JSValue.object [("id", JSValue.number 20), ("conversation", JSValue.number 2),
    ("content", JSValue.string "invoice attached"),
    ("created_at", JSValue.string "2024-01-03T09:00:00Z")]

/-- A later message of conversation 1, created on 2 January. -/
def msgA2 : JSValue :=
  JSValue.object [("id", JSValue.number 11), ("conversation", JSValue.number 1),
    ("content", JSValue.string "any news?"), ("created_at", JSValue.string "2024-01-02T09:00:00Z")]

/-- The Messages view with conversation 1 selected, the text "hi" typed and
Enter pressed once: the first `sendMessage` call is pending. -/
def sendingState : Messages.State :=
  Messages.run Messages.init
    [Messages.Event.selectConversation convA, Messages.Event.change "hi", Messages.Event.enterKey]

/-- The Messages view after conversation 1 was selected, then conversation 2,
whose messages have arrived; the request for conversation 1 is still pending. -/
def switchedState : Messages.State :=
  Messages.run Messages.init
    [Messages.Event.selectConversation convA, Messages.Event.selectConversation convB,
     Messages.Event.getResolved 1 (JSValue.array [msgB])]

/-- The Messages view with conversation 1 selected and its first fetch still
pending. -/
def selectedState : Messages.State :=
  Messages.run Messages.init [Messages.Event.selectConversation convA]

/-- The Messages view showing one message of conversation 1 while the fetch
of the first timer tick is pending. -/
def shownState : Messages.State :=
  Messages.run Messages.init
    [Messages.Event.selectConversation convA, Messages.Event.getResolved 0 (JSValue.array [msgA]),
     Messages.Event.tick 0]

/-- The Messages view with only white space typed and a conversation
selected. -/
def blankState : Messages.State :=
  Messages.run Messages.init
    [Messages.Event.selectConversation convA, Messages.Event.change "  \t\n"]

/-- The Messaging view with only white space typed and a conversation
selected. -/
def blankPanel : Messaging.State :=
  Messaging.run Messaging.init
    [Messaging.Event.selectConversation convA, Messaging.Event.change "  \t\n"]

/-- The Messaging view with conversation 1 selected and its first fetch
pending. -/
def selectedPanel : Messaging.State :=
  Messaging.run Messaging.init [Messaging.Event.selectConversation convA]

/-! ## The refresh timer invariant -/

/-- The refresh timer of the Messages view is in order: either there is no
timer and no cleanup to run, or there is exactly one timer, it is the one the
cleanup will clear, and its callback closes over the selected conversation. -/
def Messages.TimerInv (s : Messages.State) : Prop :=
  (s.cleanup = none ∧ s.intervals = []) ∨
  (∃ h, s.cleanup = some h ∧ s.intervals = [⟨h, 5000, s.selectedConversation⟩] ∧
    s.selectedConversation.truthy = true)

/-- The refresh timer of the Messaging view is in order. -/
def Messaging.TimerInv (s : Messaging.State) : Prop :=
  (s.cleanup = none ∧ s.intervals = []) ∨
  (∃ h, s.cleanup = some h ∧ s.intervals = [⟨h, 5000, s.selectedConversation⟩] ∧
    s.selectedConversation.truthy = true)

/-- The Messages view with conversation 1 selected, the text "hi" typed and
Enter pressed once, after the first fetch has brought one message. -/
def sentState : Messages.State :=
  Messages.run Messages.init
    [Messages.Event.selectConversation convA, Messages.Event.getResolved 0 (JSValue.array [msgA]),
     Messages.Event.change "hi", Messages.Event.enterKey]

/-- The `created_at` of a message as the thread reads it. -/
def createdAtOf (m : JSValue) : JSValue :=
  (m.getProp "created_at").getD JSValue.undefined

/-! ## More of JavaScript -/

mutual
/-- The string a value becomes inside a template literal. -/
def jsToString : JSValue → String
  | JSValue.undefined => "undefined"
  | JSValue.null => "null"
  | JSValue.bool b => if b then "true" else "false"
  | JSValue.number n => toString n
  | JSValue.string s => s
  | JSValue.array items => jsJoin items
  | JSValue.object _ => "[object Object]"
termination_by structural v => v
/-- The method `items.join(",")`, where `null` and `undefined` give the empty
string. -/
def jsJoin : List JSValue → String
  | [] => ""
  | x :: rest =>
    (match x with
      | JSValue.undefined => ""
      | JSValue.null => ""
      | v => jsToString v) ++
    (match rest with
      | [] => ""
      | _ :: _ => "," ++ jsJoin rest)
termination_by structural l => l
end

/-- The test `a === b`.  Primitive values are compared by value; two objects
or arrays compared here never are the same object (they come from different
responses or literals), so they are never equal. -/
def strictEq : JSValue → JSValue → Bool
  | JSValue.undefined, JSValue.undefined => true
  | JSValue.null, JSValue.null => true
  | JSValue.bool a, JSValue.bool b => a == b
  | JSValue.number a, JSValue.number b => a == b
  | JSValue.string a, JSValue.string b => a == b
  | _, _ => false

/-- The expression `v?.k`: `undefined` when `v` is `null` or `undefined`. -/
def optProp : JSValue → String → JSValue
  | JSValue.object props, k => (props.lookup k).getD JSValue.undefined
  | _, _ => JSValue.undefined

/-- The property `s.length`: the number of UTF-16 code units. -/
def jsLength (s : String) : Nat :=
  (s.data.map (fun c => if c.toNat < 0x10000 then 1 else 2)).sum

/-- Whether the characters `hay` begin with the characters `needle`. -/
def startsWith : List Char → List Char → Bool
  | _, [] => true
  | [], _ :: _ => false
  | h :: hs, n :: ns => h == n && startsWith hs ns

/-- Whether `needle` occurs in `hay` as a contiguous run. -/
def includesChars : List Char → List Char → Bool
  | [], needle => needle.isEmpty
  | h :: hs, needle => startsWith (h :: hs) needle || includesChars hs needle

/-- The method `s.includes(q)`. -/
def jsIncludes (s q : String) : Bool :=
  includesChars s.data q.data

/-- The lowercasing of ASCII letters, which is what `toLowerCase` does on
ASCII text; used for the examples only. -/
def asciiLower (s : String) : String :=
  ⟨s.data.map Char.toLower⟩

/-! ## The conversation filter of `src/Messages.js`

`String.prototype.toLowerCase` is a parameter `lower` of the definitions
below. -/

/-- The expression `v?.toLowerCase().includes(query)`: `undefined` for a
missing `v`, a TypeError (`none`) when `v` is not a string. -/
def lowerIncludes (lower : String → String) (v : JSValue) (query : String) : Option JSValue :=
  match v with
  | JSValue.undefined => some JSValue.undefined
  | JSValue.null => some JSValue.undefined
  | JSValue.string s => some (JSValue.bool (jsIncludes (lower s) query))
  | _ => none

/-- The call `ps.some((p) => p.username?.toLowerCase().includes(query))` on
the elements of an array, left to right, stopping at the first hit. -/
def someParticipant (lower : String → String) (query : String) : List JSValue → Option Bool
  | [] => some false
  | p :: ps =>
    match p.getProp "username" with
    | none => none
    | some u =>
      match lowerIncludes lower u query with
      | none => none
      | some r => if r.truthy then some true else someParticipant lower query ps

/-- The expression `conv.participants?.some(...)` for the value `v` of
`conv.participants`. -/
def participantsSome (lower : String → String) (v : JSValue) (query : String) :
    Option JSValue :=
  match v with
  | JSValue.undefined => some JSValue.undefined
  | JSValue.null => some JSValue.undefined
  | JSValue.array ps => (someParticipant lower query ps).map JSValue.bool
  | _ => none

/-- The callback of `conversations.filter(...)`, as the truthiness of what it
returns:
`if (!searchQuery) return true; const query = searchQuery.toLowerCase();`
`return conv.subject?.toLowerCase().includes(query) ||`
`conv.participants?.some((p) => p.username?.toLowerCase().includes(query));` -/
def conversationMatches (lower : String → String) (searchQuery : String) (conv : JSValue) :
    Option Bool :=
  if jsNot searchQuery then some true
  else
    match conv.getProp "subject" with
    | none => none
    | some subj =>
      match lowerIncludes lower subj (lower searchQuery) with
      | none => none
      | some a =>
        if a.truthy then some true
        else
          match participantsSome lower (optProp conv "participants") (lower searchQuery) with
          | none => none
          | some b => some b.truthy

/-- The constant `filteredConversations`: `conversations.filter(...)`; `none`
when the callback throws on one of the conversations. -/
def filteredConversations (lower : String → String) (searchQuery : String) :
    List JSValue → Option (List JSValue)
  | [] => some []
  | c :: cs =>
    match conversationMatches lower searchQuery c,
        filteredConversations lower searchQuery cs with
    | some keep, some rest => some (if keep then c :: rest else rest)
    | _, _ => none

/-- A participant summary as the server sends it: an object whose `username`
is a string or is missing. -/
def wellFormedParticipant (p : JSValue) : Bool :=
  match p with
  | JSValue.object props =>
    match (props.lookup "username").getD JSValue.undefined with
    | JSValue.string _ => true
    | JSValue.undefined => true
    | JSValue.null => true
    | _ => false
  | _ => false

/-- A conversation as the server sends it: an object whose `subject` is a
string or is missing, and whose `participants` is an array of participant
summaries or is missing. -/
def wellFormedConversation (c : JSValue) : Bool :=
  match c with
  | JSValue.object props =>
    (match (props.lookup "subject").getD JSValue.undefined with
      | JSValue.string _ => true
      | JSValue.undefined => true
      | JSValue.null => true
      | _ => false) &&
    (match (props.lookup "participants").getD JSValue.undefined with
      | JSValue.array ps => ps.all wellFormedParticipant
      | JSValue.undefined => true
      | JSValue.null => true
      | _ => false)
  | _ => false

/-- The spec's words: the subject of the conversation contains the query,
both lowercased. -/
def subjectContains (lower : String → String) (q : String) (c : JSValue) : Bool :=
  match optProp c "subject" with
  | JSValue.string s => jsIncludes (lower s) (lower q)
  | _ => false

/-- The spec's words: the username of participant `p` contains the query,
both lowercased. -/
def usernameContains (lower : String → String) (q : String) (p : JSValue) : Bool :=
  match optProp p "username" with
  | JSValue.string u => jsIncludes (lower u) (lower q)
  | _ => false

/-- The spec's words: one of the participants in the value `v` of
`conv.participants` has a username containing the query; none when there are
no participants. -/
def participantsContain (lower : String → String) (q : String) (v : JSValue) : Bool :=
  match v with
  | JSValue.array ps => ps.any (usernameContains lower q)
  | _ => false

/-- The spec's words: a conversation matches a query when its subject
contains the query or the username of one of its participants does. -/
def specMatches (lower : String → String) (q : String) (c : JSValue) : Bool :=
  subjectContains lower q c || participantsContain lower q (optProp c "participants")

/-- A conversation with neither subject nor participants. -/
def convBare : JSValue :=
  JSValue.object [("id", JSValue.number 3)]

/-! ## The user search and the new chat of `src/Messages.js` -/

/-- The call `users.filter((u) => u.id !== user?.id)` on the elements of an
array (the same callback in both components); `none` when reading `u.id`
throws. -/
def filterOutUser (user : JSValue) : List JSValue → Option (List JSValue)
  | [] => some []
  | u :: us =>
    match u.getProp "id", filterOutUser user us with
    | some id, some rest => some (if strictEq id (optProp user "id") then rest else u :: rest)
    | _, _ => none

namespace Messages

/-- The `Messages` page around the thread: the thread state (which holds the
call log), the logged-in `user`, the conversation list and the state of the
new chat modal, with its pending `searchUsers` and `createConversation`
promises. -/
structure Page where
  thread : State
  user : JSValue
  conversations : List JSValue
  showNewChatModal : Bool
  newChatUsername : String
  newChatSubject : String
  searchResults : List JSValue
  searchingUsers : Bool
  mobileShowChat : Bool
  pendingSearches : List String
  pendingCreates : List JSValue

/-- The page after the first render, for a logged-in user and before
`loadConversations` has answered. -/
def initPage (user : JSValue) : Page :=
  { thread := init, user := user, conversations := [], showNewChatModal := false,
    newChatUsername := "", newChatSubject := "", searchResults := [],
    searchingUsers := false, mobileShowChat := false, pendingSearches := [],
    pendingCreates := [] }

/-- A network call of the page is appended to the call log. -/
def Page.log (p : Page) (c : ApiCall) : Page :=
  { p with thread := { p.thread with calls := p.thread.calls ++ [c] } }

/-- The function `handleSearchUsers(query)` up to its `await`:
`if (!query.trim()) { setSearchResults([]); return; }`, then
`setSearchingUsers(true)` and `userAPI.searchUsers({ q: query, limit: 10 })`. -/
def handleSearchUsers (p : Page) (query : String) : Page :=
  if jsNot (jsTrim query) then { p with searchResults := [] }
  else
    { p.log (ApiCall.searchUsers query 10) with
      searchingUsers := true, pendingSearches := p.pendingSearches ++ [query] }

/-- The list handed to `setSearchResults` when `searchUsers` resolved with
`response.data = data`:
`const users = response.data.results || response.data || [];`
`setSearchResults(users.filter((u) => u.id !== user?.id));`
Every TypeError on the way (no `results` to read, `users` without a `filter`
method, an element without an `id` to read) lands in the `catch`, which calls
`setSearchResults([])`. -/
def searchResultsList (user data : JSValue) : List JSValue :=
  match data.getProp "results" with
  | none => []
  | some r =>
    match (r.or data).or (JSValue.array []) with
    | JSValue.array users => (filterOutUser user users).getD []
    | _ => []

/-- The rest of `handleSearchUsers` when `searchUsers` resolved; `finally`
runs `setSearchingUsers(false)`. -/
def handleSearchUsersResolved (p : Page) (data : JSValue) : Page :=
  { p with searchResults := searchResultsList p.user data, searchingUsers := false }

/-- The rest of `handleSearchUsers` when `searchUsers` rejected. -/
def handleSearchUsersRejected (p : Page) : Page :=
  { p with searchResults := [], searchingUsers := false }

/-- The `onChange` of the user search input:
`setNewChatUsername(e.target.value); handleSearchUsers(e.target.value);`. -/
def userSearchChange (p : Page) (text : String) : Page :=
  handleSearchUsers { p with newChatUsername := text } text

/-- The function `handleStartNewChat(selectedUser)` up to its `await`: the
call `createConversation({ participants: [selectedUser.id], subject:`
`newChatSubject || "Chat with " + selectedUser.username })`.  Nothing is
checked before the call; a TypeError on a missing `selectedUser` is caught and
logged. -/
def handleStartNewChat (p : Page) (selectedUser : JSValue) : Page :=
  match selectedUser.getProp "id", selectedUser.getProp "username" with
  | some id, some username =>
    let subject :=
      if jsNot p.newChatSubject then "Chat with " ++ jsToString username else p.newChatSubject
    let data := JSValue.object
      [("participants", JSValue.array [id]), ("subject", JSValue.string subject)]
    { p.log (ApiCall.createConversation data) with
      pendingCreates := p.pendingCreates ++ [data] }
  | _, _ => p

/-- The rest of `handleStartNewChat` when `createConversation` resolved with
`response.data = newConv`: `setConversations((prev) => [newConv, ...prev])`,
`setSelectedConversation(newConv)` (with the render and the thread effect that
follow), the modal is closed and its fields are reset. -/
def handleStartNewChatResolved (p : Page) (newConv : JSValue) : Page :=
  { p with conversations := newConv :: p.conversations,
           thread := setSelectedConversation p.thread newConv,
           showNewChatModal := false, newChatUsername := "", newChatSubject := "",
           searchResults := [], mobileShowChat := true }

/-- What can happen to the new chat modal of the page. -/
inductive PageEvent where
  | openModal
  | changeUsername (text : String)
  | changeSubject (text : String)
  | clickResult (i : Nat)
  | searchResolved (i : Nat) (data : JSValue)
  | searchRejected (i : Nat)
  | createResolved (i : Nat) (newConv : JSValue)
  | createRejected (i : Nat)

/-- One event of the new chat modal.  `clickResult i` is a click on the
`i`-th search result, which calls `handleStartNewChat` with it; a rejected
`createConversation` is only logged. -/
def pageStep (p : Page) : PageEvent → Page
  | PageEvent.openModal => { p with showNewChatModal := true }
  | PageEvent.changeUsername text => userSearchChange p text
  | PageEvent.changeSubject text => { p with newChatSubject := text }
  | PageEvent.clickResult i =>
    match p.searchResults[i]? with
    | some u => handleStartNewChat p u
    | none => p
  | PageEvent.searchResolved i data =>
    match p.pendingSearches[i]? with
    | some _ =>
      handleSearchUsersResolved { p with pendingSearches := p.pendingSearches.eraseIdx i } data
    | none => p
  | PageEvent.searchRejected i =>
    match p.pendingSearches[i]? with
    | some _ => handleSearchUsersRejected { p with pendingSearches := p.pendingSearches.eraseIdx i }
    | none => p
  | PageEvent.createResolved i newConv =>
    match p.pendingCreates[i]? with
    | some _ =>
      handleStartNewChatResolved { p with pendingCreates := p.pendingCreates.eraseIdx i } newConv
    | none => p
  | PageEvent.createRejected i =>
    match p.pendingCreates[i]? with
    | some _ => { p with pendingCreates := p.pendingCreates.eraseIdx i }
    | none => p

/-- The page after a sequence of events of the new chat modal. -/
def runPage (p : Page) (es : List PageEvent) : Page :=
  es.foldl pageStep p

end Messages

/-! ## `src/messaging/StartConversation.js`

The project banner (`loadProject`) is left out, and the props do not change
while the modal is mounted.  `parseInt` is not modelled: the props carry its
value on `userId` and `projectId`, taken to be a number. -/

namespace StartConversation

/-- The props of the modal and what it reads from its surroundings:
`showModal` is the prop `show`, `parsedUserId` and `parsedProjectId` are the
values of `parseInt(userId, 10)` and `parseInt(projectId)`, `pathname` is
`window.location.pathname` and `user` the logged-in user of `useAuth()`. -/
structure Props where
  showModal : Bool
  projectId : JSValue
  parsedProjectId : Int
  userId : JSValue
  parsedUserId : Int
  initialUsername : JSValue
  pathname : String
  user : JSValue

/-- A pending `setTimeout` of the debounce effect: its handle, the time at
which it is due and the trimmed query its callback will search. -/
structure Timeout where
  handle : Nat
  due : Nat
  query : String

/-- The state of the modal, with a clock `now` in milliseconds, the time
`lastKeystroke` of the last change of the search input, the pending timeouts
and promises, the call log, and counters of the `onHide()` and
`window.location.reload()` calls made. -/
structure State where
  props : Props
  subject : String
  initialMessage : String
  loading : Bool
  error : JSValue
  project : JSValue
  searchQuery : String
  searchResults : List JSValue
  searching : Bool
  selectedUser : JSValue
  loadingUser : Bool
  now : Nat
  lastKeystroke : Nat
  timeouts : List Timeout
  nextHandle : Nat
  cleanup : Option Nat
  pendingSearches : List String
  pendingProviders : Nat
  pendingFallbacks : Nat
  pendingCreates : List String
  pendingSends : List String
  calls : List ApiCall
  hideCalls : Nat
  reloads : Nat

/-- The cleanup `() => clearTimeout(timeout)` returned by the last run of the
debounce effect, if that run returned one. -/
def searchEffectCleanup (s : State) : State :=
  match s.cleanup with
  | some h =>
    { s with timeouts := s.timeouts.filter (fun t => t.handle != h), cleanup := none }
  | none => s

/-- The body of the `[searchQuery, selectedUser, show]` effect:
`if (!show) return;`
`if (selectedUser) { setSearchResults([]); return; }`
`if (searchQuery.trim().length < 2) { setSearchResults([]); return; }`
`const timeout = setTimeout(() => { performUserSearch(searchQuery.trim()); }, 300);`
`return () => clearTimeout(timeout);` -/
def searchEffect (s : State) : State :=
  if !s.props.showModal then s
  else if s.selectedUser.truthy then { s with searchResults := [] }
  else if jsLength (jsTrim s.searchQuery) < 2 then { s with searchResults := [] }
  else
    { s with timeouts := s.timeouts ++ [⟨s.nextHandle, s.now + 300, jsTrim s.searchQuery⟩],
             nextHandle := s.nextHandle + 1,
             cleanup := some s.nextHandle }

/-- The render after `searchQuery` or `selectedUser` changed: the cleanup of
the previous run of the debounce effect, then the effect again. -/
def rerunSearchEffect (s : State) : State :=
  searchEffect (searchEffectCleanup s)

/-- The `onChange` of the search input, `setSearchQuery(e.target.value)`:
nothing happens when the value is the one already held; otherwise the
debounce effect runs again. -/
def setSearchQuery (s : State) (text : String) : State :=
  if text = s.searchQuery then s
  else rerunSearchEffect { s with searchQuery := text, lastKeystroke := s.now }

/-- The function `performUserSearch(query)` up to its `await`:
`setSearching(true)` and `userAPI.searchUsers({ q: query, limit: 10 })`. -/
def performUserSearch (s : State) (query : String) : State :=
  { s with searching := true, calls := s.calls ++ [ApiCall.searchUsers query 10],
           pendingSearches := s.pendingSearches ++ [query] }

/-- The list handed to `setSearchResults` when `searchUsers` resolved with
`response.data = data`:
`const data = response.data.results || response.data || [];`
`const filteredResults = Array.isArray(data) ? data.filter((u) => u.id !== user?.id) : [];`
A TypeError lands in the `catch`, which calls `setSearchResults([])`. -/
def searchResultsList (user data : JSValue) : List JSValue :=
  match data.getProp "results" with
  | none => []
  | some r =>
    match (r.or data).or (JSValue.array []) with
    | JSValue.array users => (filterOutUser user users).getD []
    | _ => []

/-- The rest of `performUserSearch` when `searchUsers` resolved; `finally`
runs `setSearching(false)`. -/
def performUserSearchResolved (s : State) (data : JSValue) : State :=
  { s with searchResults := searchResultsList s.props.user data, searching := false }

/-- The rest of `performUserSearch` when `searchUsers` rejected. -/
def performUserSearchRejected (s : State) : State :=
  { s with searchResults := [], searching := false }

/-- The callback of the timeout with handle `h` runs, if that timeout is
pending and due; it is then no longer pending. -/
def timeoutFires (s : State) (h : Nat) : State :=
  match s.timeouts.find? (fun t => t.handle == h) with
  | some t =>
    if t.due ≤ s.now then
      performUserSearch { s with timeouts := s.timeouts.filter (fun t => t.handle != h) } t.query
    else s
  | none => s

/-- A click on a search result: `setSelectedUser(result); setSearchQuery("");`
`setSearchResults([]);` and the render that follows. -/
def selectResult (s : State) (result : JSValue) : State :=
  rerunSearchEffect { s with selectedUser := result, searchQuery := "", searchResults := [] }

/-- The function `handleClearSelection()` and the render that follows. -/
def handleClearSelection (s : State) : State :=
  rerunSearchEffect
    { s with selectedUser := JSValue.null, searchQuery := "", searchResults := [] }

/-- The user object `{ id: parseInt(id), username: usernameHint || "User #" + id,`
`email: "" }` that `loadUserById` falls back to. -/
def fallbackUser (pr : Props) : JSValue :=
  JSValue.object
    [("id", JSValue.number pr.parsedUserId),
     ("username", pr.initialUsername.or (JSValue.string ("User #" ++ jsToString pr.userId))),
     ("email", JSValue.string "")]

/-- The user object `loadUserById` builds from a record `r` of the server:
`{ id: r.id, username: r.username || usernameHint || "User #" + id,`
`email: r.email || "", profile: r.profile }`. -/
def userFrom (pr : Props) (r : JSValue) : JSValue :=
  JSValue.object
    [("id", optProp r "id"),
     ("username", ((optProp r "username").or pr.initialUsername).or
        (JSValue.string ("User #" ++ jsToString pr.userId))),
     ("email", (optProp r "email").or (JSValue.string "")),
     ("profile", optProp r "profile")]

/-- The function `loadUserById(userId, initialUsername)` up to its first
`await`: `setLoadingUser(true); setError("")`, the user of the hint is
selected at once when there is a hint, and `getProviderProfile(id)` is
called. -/
def loadUserById (s : State) : State :=
  let s1 := { s with loadingUser := true, error := JSValue.string "" }
  let s2 := if s.props.initialUsername.truthy then
      rerunSearchEffect { s1 with selectedUser := fallbackUser s.props }
    else s1
  { s2 with calls := s2.calls ++ [ApiCall.getProviderProfile s.props.userId],
            pendingProviders := s2.pendingProviders + 1 }

/-- The fallback of `loadUserById`, up to its `await`:
`userAPI.searchUsers({ q: "", limit: 50 })`. -/
def loadUserFallback (s : State) : State :=
  { s with calls := s.calls ++ [ApiCall.searchUsers "" 50],
           pendingFallbacks := s.pendingFallbacks + 1 }

/-- The rest of `loadUserById` when `getProviderProfile` resolved with
`response.data = data`: with truthy data that user is selected and the
function returns through `finally`; otherwise the fallback search starts. -/
def loadUserProviderResolved (s : State) (data : JSValue) : State :=
  if data.truthy then
    { rerunSearchEffect { s with selectedUser := userFrom s.props data } with
      loadingUser := false }
  else loadUserFallback s

/-- The call `users.find((u) => u.id === parseInt(id))` on the elements of an
array: the first hit, `undefined` without a hit, `none` when reading `u.id`
throws. -/
def findUser (parsedId : Int) : List JSValue → Option JSValue
  | [] => some JSValue.undefined
  | u :: us =>
    match u.getProp "id" with
    | none => none
    | some id => if strictEq id (JSValue.number parsedId) then some u else findUser parsedId us

/-- The user `loadUserById` selects when the fallback search resolved with
`searchResponse.data = data`: the user found in the list, or the fallback
user when none is found or a TypeError lands in the outer `catch`. -/
def fallbackSelection (pr : Props) (data : JSValue) : JSValue :=
  match data.getProp "results" with
  | none => fallbackUser pr
  | some r =>
    match (r.or data).or (JSValue.array []) with
    | JSValue.array users =>
      match findUser pr.parsedUserId users with
      | some found => if found.truthy then userFrom pr found else fallbackUser pr
      | none => fallbackUser pr
    | _ => fallbackUser pr

/-- The rest of `loadUserById` when the fallback search resolved. -/
def loadUserFallbackResolved (s : State) (data : JSValue) : State :=
  { rerunSearchEffect { s with selectedUser := fallbackSelection s.props data } with
    loadingUser := false }

/-- The rest of `loadUserById` when the fallback search rejected: the outer
`catch` selects the fallback user. -/
def loadUserFallbackRejected (s : State) : State :=
  { rerunSearchEffect { s with selectedUser := fallbackUser s.props } with
    loadingUser := false }

/-- The state after the first render and its effects: the `useState`
defaults, and `loadUserById(userId, initialUsername)` started when
`show && userId && !selectedUser`. -/
def init (pr : Props) : State :=
  let s : State :=
    { props := pr, subject := "", initialMessage := "", loading := false,
      error := JSValue.string "", project := JSValue.null, searchQuery := "",
      searchResults := [], searching := false, selectedUser := JSValue.null,
      loadingUser := false, now := 0, lastKeystroke := 0, timeouts := [], nextHandle := 0,
      cleanup := none, pendingSearches := [], pendingProviders := 0, pendingFallbacks := 0,
      pendingCreates := [], pendingSends := [], calls := [], hideCalls := 0, reloads := 0 }
  if pr.showModal && pr.userId.truthy then loadUserById s else s

/-- The constant `targetUserId` of `handleSubmit`:
`selectedUser?.id || (userId ? parseInt(userId, 10) : null)`. -/
def targetUserId (s : State) : JSValue :=
  (optProp s.selectedUser "id").or
    (if s.props.userId.truthy then JSValue.number s.props.parsedUserId else JSValue.null)

/-- The argument `conversationData` of `createConversation` in
`handleSubmit`. -/
def conversationData (s : State) : JSValue :=
  JSValue.object
    [("subject", JSValue.string (jsTrim s.subject)),
     ("project_id",
        if s.props.projectId.truthy then JSValue.number s.props.parsedProjectId
        else JSValue.null),
     ("participant_ids", JSValue.array [targetUserId s])]

/-- The function `handleSubmit(e)` up to its first `await`: the three checks,
each of which sets its error and returns, then `setLoading(true)`,
`setError("")` and the `createConversation` call, whose continuation keeps the
`initialMessage` of this render. -/
def handleSubmit (s : State) : State :=
  if !(targetUserId s).truthy then
    { s with error := JSValue.string "Please select who you want to message." }
  else if jsNot (jsTrim s.subject) then
    { s with error := JSValue.string "Please enter a subject for the conversation." }
  else if jsNot (jsTrim s.initialMessage) then
    { s with error := JSValue.string "Please enter your message." }
  else
    { s with loading := true, error := JSValue.string "",
             calls := s.calls ++ [ApiCall.createConversation (conversationData s)],
             pendingCreates := s.pendingCreates ++ [s.initialMessage] }

/-- The message the `catch` of `handleSubmit` hands to `setError`, for the
value `response` of `error.response`: `error.response?.data?.error` if truthy,
else `error.response?.data?.detail` if truthy, else the fixed text. -/
def submitError (response : JSValue) : JSValue :=
  if (optProp (optProp response "data") "error").truthy then
    optProp (optProp response "data") "error"
  else if (optProp (optProp response "data") "detail").truthy then
    optProp (optProp response "data") "detail"
  else JSValue.string "Failed to start conversation. Please try again."

/-- The `catch` and `finally` of `handleSubmit` for a failure whose
`error.response` is `response`. -/
def handleSubmitFailed (s : State) (response : JSValue) : State :=
  { s with error := submitError response, loading := false }

/-- The rest of `handleSubmit` when `createConversation` resolved with
`convResponse.data = conversation`, for the `initialMessage` the handler
closed over: `sendMessage({ conversation: conversation.id, content:`
`initialMessage.trim(), message_type: "text" })`.  Reading `.id` of a missing
conversation throws a TypeError, which has no `response`. -/
def handleSubmitCreated (s : State) (message : String) (conversation : JSValue) : State :=
  match conversation.getProp "id" with
  | some id =>
    { s with calls := s.calls ++ [ApiCall.sendMessage id (jsTrim message) "text"],
             pendingSends := s.pendingSends ++ [message] }
  | none => handleSubmitFailed s JSValue.undefined

/-- The rest of `handleSubmit` when `sendMessage` resolved: the form is reset
(with the render that follows), `onHide()` is called, the page is reloaded
when `window.location.pathname === "/messages"`, and `finally` runs
`setLoading(false)`. -/
def handleSubmitSent (s : State) : State :=
  let s1 := rerunSearchEffect
    { s with subject := "", initialMessage := "", selectedUser := JSValue.null,
             searchResults := [], searchQuery := "", project := JSValue.null }
  { s1 with hideCalls := s1.hideCalls + 1,
            reloads := if s.props.pathname = "/messages" then s1.reloads + 1 else s1.reloads,
            loading := false }

/-- What can happen to the modal. -/
inductive Event where
  | changeQuery (text : String)
  | changeSubject (text : String)
  | changeMessage (text : String)
  | wait (ms : Nat)
  | timeoutFires (handle : Nat)
  | searchResolved (i : Nat) (data : JSValue)
  | searchRejected (i : Nat)
  | clickResult (i : Nat)
  | clearSelection
  | providerResolved (data : JSValue)
  | providerRejected
  | fallbackResolved (data : JSValue)
  | fallbackRejected
  | submit
  | createResolved (i : Nat) (conversation : JSValue)
  | createRejected (i : Nat) (response : JSValue)
  | sendResolved (i : Nat)
  | sendRejected (i : Nat) (response : JSValue)

/-- One event.  `wait ms` lets `ms` milliseconds pass; `clickResult i` is a
click on the `i`-th search result; `submit` is the `onSubmit` of the form; the
events named `Resolved` and `Rejected` settle a pending promise, a rejection
of `createConversation` or `sendMessage` carrying its `error.response`. -/
def step (s : State) : Event → State
  | Event.changeQuery text => setSearchQuery s text
  | Event.changeSubject text => { s with subject := text }
  | Event.changeMessage text => { s with initialMessage := text }
  | Event.wait ms => { s with now := s.now + ms }
  | Event.timeoutFires h => timeoutFires s h
  | Event.searchResolved i data =>
    match s.pendingSearches[i]? with
    | some _ =>
      performUserSearchResolved { s with pendingSearches := s.pendingSearches.eraseIdx i } data
    | none => s
  | Event.searchRejected i =>
    match s.pendingSearches[i]? with
    | some _ => performUserSearchRejected { s with pendingSearches := s.pendingSearches.eraseIdx i }
    | none => s
  | Event.clickResult i =>
    match s.searchResults[i]? with
    | some u => selectResult s u
    | none => s
  | Event.clearSelection => handleClearSelection s
  | Event.providerResolved data =>
    if s.pendingProviders = 0 then s
    else loadUserProviderResolved { s with pendingProviders := s.pendingProviders - 1 } data
  | Event.providerRejected =>
    if s.pendingProviders = 0 then s
    else loadUserFallback { s with pendingProviders := s.pendingProviders - 1 }
  | Event.fallbackResolved data =>
    if s.pendingFallbacks = 0 then s
    else loadUserFallbackResolved { s with pendingFallbacks := s.pendingFallbacks - 1 } data
  | Event.fallbackRejected =>
    if s.pendingFallbacks = 0 then s
    else loadUserFallbackRejected { s with pendingFallbacks := s.pendingFallbacks - 1 }
  | Event.submit => handleSubmit s
  | Event.createResolved i conversation =>
    match s.pendingCreates[i]? with
    | some message =>
      handleSubmitCreated { s with pendingCreates := s.pendingCreates.eraseIdx i }
        message conversation
    | none => s
  | Event.createRejected i response =>
    match s.pendingCreates[i]? with
    | some _ => handleSubmitFailed { s with pendingCreates := s.pendingCreates.eraseIdx i } response
    | none => s
  | Event.sendResolved i =>
    match s.pendingSends[i]? with
    | some _ => handleSubmitSent { s with pendingSends := s.pendingSends.eraseIdx i }
    | none => s
  | Event.sendRejected i response =>
    match s.pendingSends[i]? with
    | some _ => handleSubmitFailed { s with pendingSends := s.pendingSends.eraseIdx i } response
    | none => s

/-- The state after a sequence of events, oldest first. -/
def run (s : State) (es : List Event) : State :=
  es.foldl step s

/-- The pending timeouts are what the next cleanup clears: there is none, or
exactly one and the cleanup holds its handle. -/
def Clearable (s : State) : Prop :=
  s.timeouts = [] ∨ ∃ h d q, s.cleanup = some h ∧ s.timeouts = [⟨h, d, q⟩]

/-- The debounce timer is in order: no timeout is pending, or exactly one is,
it is the one the cleanup will clear, it was set at the last keystroke and so
is due 300 ms after it, and it carries the trimmed search query, which has at
least two code units. -/
def DebounceInv (s : State) : Prop :=
  s.lastKeystroke ≤ s.now ∧
  (s.timeouts = [] ∨
    ∃ h, s.cleanup = some h ∧
      s.timeouts = [⟨h, s.lastKeystroke + 300, jsTrim s.searchQuery⟩] ∧
      2 ≤ jsLength (jsTrim s.searchQuery))

end StartConversation

/-! ## Sample data for the new conversation flows -/

/-- The logged-in user. -/
def me : JSValue :=
  JSValue.object [("id", JSValue.number 1), ("username", JSValue.string "me")]

/-- A user the search can return. -/
def alice : JSValue :=
  JSValue.object [("id", JSValue.number 2), ("username", JSValue.string "alice"),
    ("user_type", JSValue.string "service_provider")]

/-- The props of a modal opened on the messages page without a target user. -/
def modalProps : StartConversation.Props :=
  { showModal := true, projectId := JSValue.undefined, parsedProjectId := 0,
    userId := JSValue.undefined, parsedUserId := 0, initialUsername := JSValue.undefined,
    pathname := "/messages", user := me }

/-- The props of a modal opened from a profile page for the user with id 7. -/
def profileProps : StartConversation.Props :=
  { showModal := true, projectId := JSValue.undefined, parsedProjectId := 0,
    userId := JSValue.string "7", parsedUserId := 7, initialUsername := JSValue.undefined,
    pathname := "/providers/7", user := me }

/-- The modal after "a" and then, 100 ms later, "al" were typed. -/
def typedModal : StartConversation.State :=
  StartConversation.run (StartConversation.init modalProps)
    [StartConversation.Event.changeQuery "a", StartConversation.Event.wait 100,
     StartConversation.Event.changeQuery "al"]

/-- The modal 300 ms after "al" was typed, when the timeout has fired: the
search for "al" is pending. -/
def searchingModal : StartConversation.State :=
  StartConversation.run typedModal
    [StartConversation.Event.wait 300, StartConversation.Event.timeoutFires 0]

/-- The modal after the query was changed to "bo" while the search for "al"
was still pending. -/
def retypedModal : StartConversation.State :=
  StartConversation.step searchingModal (StartConversation.Event.changeQuery "bo")

/-- The modal with alice found and selected, a subject and a message typed. -/
def readyModal : StartConversation.State :=
  StartConversation.run searchingModal
    [StartConversation.Event.searchResolved 0 (JSValue.array [me, alice]),
     StartConversation.Event.clickResult 0, StartConversation.Event.changeSubject "Logo",
     StartConversation.Event.changeMessage "Hello"]

/-- The modal after Send was pressed: `createConversation` is pending. -/
def submittedModal : StartConversation.State :=
  StartConversation.step readyModal StartConversation.Event.submit

/-- The modal after the conversation was created: the `sendMessage` of the
initial message is pending. -/
def createdModal : StartConversation.State :=
  StartConversation.step submittedModal (StartConversation.Event.createResolved 0 convB)

/-- The Messages page with the new chat modal open. -/
def openPage : Messages.Page :=
  Messages.pageStep (Messages.initPage me) Messages.PageEvent.openModal

/-- The Messages page with "al" typed in the user search and alice found. -/
def foundPage : Messages.Page :=
  Messages.runPage openPage
    [Messages.PageEvent.changeUsername "al",
     Messages.PageEvent.searchResolved 0 (JSValue.array [me, alice])]

/-- The Messages page with alice found and three spaces typed as subject. -/
def blankSubjectPage : Messages.Page :=
  Messages.pageStep foundPage (Messages.PageEvent.changeSubject "   ")

/-- The Messages page after alice was clicked: `createConversation` is
pending. -/
def startedPage : Messages.Page :=
  Messages.pageStep foundPage (Messages.PageEvent.clickResult 0)

/-! ## Numbers that are not integers

A price, a budget or a rating is a JavaScript number that need not be an
integer.  It is modelled exactly, as a fraction; arithmetic on it is exact.
`NaN` is the `none` of `Option Num`, and a comparison with `NaN` is false. -/

/-- A finite number, `num / den` with `den` positive. -/
structure Num where
  num : Int
  den : Nat

namespace Num

/-- The number of an integer. -/
def ofInt (n : Int) : Num :=
  ⟨n, 1⟩

/-- The test `a <= b` on two numbers. -/
def le (a b : Num) : Bool :=
  decide (a.num * b.den ≤ b.num * a.den)

/-- The test `a < b` on two numbers. -/
def lt (a b : Num) : Bool :=
  decide (a.num * b.den < b.num * a.den)

/-- The product `a * b`. -/
def mul (a b : Num) : Num :=
  ⟨a.num * b.num, a.den * b.den⟩

/-- The call `Math.floor(a)`. -/
def floor (a : Num) : Int :=
  a.num / a.den

/-- The call `Math.round(a)`, which is `Math.floor(a + 0.5)`. -/
def round (a : Num) : Int :=
  (2 * a.num + a.den) / (2 * a.den)

end Num

/-- The test `a <= b` when either side may be `NaN`. -/
def nanLe (a b : Option Num) : Bool :=
  match a, b with
  | some x, some y => x.le y
  | _, _ => false

/-- The test `a < b` when either side may be `NaN`. -/
def nanLt (a b : Option Num) : Bool :=
  match a, b with
  | some x, some y => x.lt y
  | _, _ => false

/-- The value of a run of decimal digits; `none` when the run is empty or
holds another character. -/
def digitsValue (cs : List Char) : Option Nat :=
  if cs.isEmpty || !cs.all Char.isDigit then none
  else some (cs.foldl (fun n c => 10 * n + (c.toNat - 48)) 0)

/-- What `parseInt` gives on an integer number and on a string that is a run
of decimal digits with an optional minus sign in front, and `NaN` on the
other values used in the examples below; used for the examples only. -/
def sampleParseInt : JSValue → Option Int
  | JSValue.number n => some n
  | JSValue.string s =>
    match s.data with
    | '-' :: ds => (digitsValue ds).map (fun n => -(n : Int))
    | ds => (digitsValue ds).map (fun n => (n : Int))
  | _ => none

/-- What `parseFloat` gives on the same values; used for the examples only. -/
def sampleParseFloat (v : JSValue) : Option Num :=
  (sampleParseInt v).map Num.ofInt

/-! ## `src/SubmitProposal.js`

`parseFloat` and `parseInt` are parameters of the definitions below. -/

namespace SubmitProposal

/-- The state `formData`.  The two text areas hold strings; the other fields
hold whatever the inputs, the URL or an applied suggestion put there. -/
structure FormData where
  project_id : JSValue
  cover_letter : String
  proposed_price : JSValue
  proposed_timeline : JSValue
  currency : JSValue
  milestones : JSValue
  terms_and_conditions : String

/-- The object `newErrors` of `validateForm`: for each of its four keys the
message set, if one was set. -/
structure Errors where
  project_id : Option String
  cover_letter : Option String
  proposed_price : Option String
  proposed_timeline : Option String

/-- The object `{}`. -/
def noErrors : Errors :=
  ⟨none, none, none, none⟩

/-- The test `Object.keys(newErrors).length === 0`. -/
def Errors.isEmpty (e : Errors) : Bool :=
  e.project_id.isNone && e.cover_letter.isNone && e.proposed_price.isNone &&
    e.proposed_timeline.isNone

/-- The argument `data` of `createProposal`. -/
structure ProposalData where
  project_id : Option Int
  cover_letter : String
  proposed_price : Option Num
  proposed_timeline : Option Int
  currency : JSValue
  terms_and_conditions : String
  milestones : JSValue

/-- The state of the page that `validateForm` and `handleSubmit` read and
write, with the log of the `createProposal` calls made. -/
structure State where
  formData : FormData
  project : JSValue
  errors : Errors
  loading : Bool
  successMessage : String
  calls : List ProposalData

/-- The check of the project in `validateForm`:
`if (!formData.project_id) newErrors.project_id = "Please select a project";` -/
def checkProject (f : FormData) (e : Errors) : Errors :=
  if !f.project_id.truthy then { e with project_id := some "Please select a project" } else e

/-- The check of the cover letter in `validateForm`:
`if (!formData.cover_letter.trim()) newErrors.cover_letter = "Cover letter is required";`
`else if (formData.cover_letter.length < 50) newErrors.cover_letter = "Cover letter`
`must be at least 50 characters";` -/
def checkCoverLetter (f : FormData) (e : Errors) : Errors :=
  if jsNot (jsTrim f.cover_letter) then
    { e with cover_letter := some "Cover letter is required" }
  else if jsLength f.cover_letter < 50 then
    { e with cover_letter := some "Cover letter must be at least 50 characters" }
  else e

/-- The check of the price in `validateForm`:
`if (!formData.proposed_price || parseFloat(formData.proposed_price) <= 0)`
`newErrors.proposed_price = "Please enter a valid price";` -/
def checkPrice (parseFloat : JSValue → Option Num) (f : FormData) (e : Errors) : Errors :=
  if !f.proposed_price.truthy || nanLe (parseFloat f.proposed_price) (some (Num.ofInt 0)) then
    { e with proposed_price := some "Please enter a valid price" }
  else e

/-- The check of the price against the budget of the loaded project in
`validateForm`: `if (project) { const price = parseFloat(formData.proposed_price);`
`if (price < parseFloat(project.budget_min)) newErrors.proposed_price = ...;`
`if (price > parseFloat(project.budget_max) * 1.5) newErrors.proposed_price = ...; }` -/
def checkBudget (parseFloat : JSValue → Option Num) (f : FormData) (project : JSValue)
    (e : Errors) : Errors :=
  if project.truthy then
    let price := parseFloat f.proposed_price
    let e1 :=
      if nanLt price (parseFloat (optProp project "budget_min")) then
        { e with proposed_price := some ("Price is below minimum budget ($" ++
            jsToString (optProp project "budget_min") ++ ")") }
      else e
    if nanLt ((parseFloat (optProp project "budget_max")).map (fun m => m.mul ⟨3, 2⟩)) price then
      { e1 with proposed_price := some ("Price is too far above maximum budget ($" ++
          jsToString (optProp project "budget_max") ++ ")") }
    else e1
  else e

/-- The check of the timeline in `validateForm`:
`if (!formData.proposed_timeline || parseInt(formData.proposed_timeline) <= 0)`
`newErrors.proposed_timeline = "Please enter a valid timeline (days)";` -/
def checkTimeline (parseInt : JSValue → Option Int) (f : FormData) (e : Errors) : Errors :=
  if !f.proposed_timeline.truthy ||
      (match parseInt f.proposed_timeline with
        | some n => decide (n ≤ 0)
        | none => false) then
    { e with proposed_timeline := some "Please enter a valid timeline (days)" }
  else e

/-- The object `newErrors` at the end of `validateForm`, the five checks in
the order of the source. -/
def newErrors (parseFloat : JSValue → Option Num) (parseInt : JSValue → Option Int)
    (f : FormData) (project : JSValue) : Errors :=
  checkTimeline parseInt f
    (checkBudget parseFloat f project
      (checkPrice parseFloat f (checkCoverLetter f (checkProject f noErrors))))

/-- The value `validateForm()` returns. -/
def validateForm (parseFloat : JSValue → Option Num) (parseInt : JSValue → Option Int)
    (s : State) : Bool :=
  (newErrors parseFloat parseInt s.formData s.project).isEmpty

/-- The argument `data` that `handleSubmit` builds from the form. -/
def proposalData (parseFloat : JSValue → Option Num) (parseInt : JSValue → Option Int)
    (f : FormData) : ProposalData :=
  { project_id := parseInt f.project_id,
    cover_letter := jsTrim f.cover_letter,
    proposed_price := parseFloat f.proposed_price,
    proposed_timeline := parseInt f.proposed_timeline,
    currency := f.currency,
    terms_and_conditions := jsTrim f.terms_and_conditions,
    milestones := f.milestones }

/-- The function `handleSubmit(e)` up to its `await`: `setErrors({})`,
`setSuccessMessage("")`, then `if (!validateForm()) return;` (which has set
the errors), then `setLoading(true)` and the `createProposal(data)` call.
What follows the call is not modelled. -/
def handleSubmit (parseFloat : JSValue → Option Num) (parseInt : JSValue → Option Int)
    (s : State) : State :=
  if !validateForm parseFloat parseInt s then
    { s with errors := newErrors parseFloat parseInt s.formData s.project,
             successMessage := "" }
  else
    { s with errors := newErrors parseFloat parseInt s.formData s.project,
             successMessage := "", loading := true,
             calls := s.calls ++ [proposalData parseFloat parseInt s.formData] }

/-- A filled form for project 12: a price, a timeline of 7 days and a cover
letter. -/
def sampleForm (price : JSValue) (coverLetter : String) : FormData :=
  { project_id := JSValue.string "12", cover_letter := coverLetter, proposed_price := price,
    proposed_timeline := JSValue.string "7", currency := JSValue.string "USD",
    milestones := JSValue.array [], terms_and_conditions := "" }

/-- The page with a form and a project (or `null`), before any submit. -/
def sampleState (f : FormData) (project : JSValue) : State :=
  { formData := f, project := project, errors := noErrors, loading := false,
    successMessage := "", calls := [] }

/-- A cover letter of 60 characters. -/
def longLetter : String :=
  "I have built three marketplaces like this one and can start."

/-- A cover letter of 45 characters followed by 5 spaces. -/
def paddedLetter : String :=
  "I can do this job well and quickly, trust me.     "

/-- A project with a budget of 100 to 200. -/
def sampleProject : JSValue :=
  JSValue.object [("id", JSValue.number 12), ("budget_min", JSValue.string "100"),
    ("budget_max", JSValue.string "200")]

end SubmitProposal

/-! ## `src/auth/Verification.js` -/

/-- One of the characters `0` to `9`, what `\d` matches. -/
def isDecimalDigit (c : Char) : Bool :=
  48 ≤ c.toNat && c.toNat ≤ 57

/-- The test `/^\d*$/.test(value)`: the value holds decimal digits only. -/
def allDigits (value : String) : Bool :=
  value.data.all isDecimalDigit

/-- The call `cells.join("")` on an array of strings. -/
def joinCells : List String → String
  | [] => ""
  | c :: cs => c ++ joinCells cs

namespace Verification

/-- The state of the form that the code handlers read and write, with the log
of the `verifyCode` calls made (email, code, verification type). -/
structure State where
  code : List String
  email : JSValue
  error : String
  loading : Bool
  calls : List (JSValue × String × String)

/-- The form after the first render: six empty cells. -/
def init (email : JSValue) : State :=
  { code := ["", "", "", "", "", ""], email := email, error := "", loading := false,
    calls := [] }

/-- The function `handleCodeChange(index, value)` for an index within the
array: `if (value.length <= 1 && /^\d*$/.test(value)) { const newCode = [...code];`
`newCode[index] = value; setCode(newCode); }`. -/
def handleCodeChange (s : State) (index : Nat) (value : String) : State :=
  if jsLength value ≤ 1 && allDigits value then { s with code := s.code.set index value }
  else s

/-- The function `handleVerify(e)` up to its `await`: `setError("")`, then
`const verificationCode = code.join("");` and, unless its length is 6 (the
error is set and the function returns), `setLoading(true)` and the call
`verifyCode({ email, code: verificationCode, verification_type: "email" })`. -/
def handleVerify (s : State) : State :=
  if jsLength (joinCells s.code) ≠ 6 then
    { s with error := "Please enter the 6-digit verification code" }
  else
    { s with error := "", loading := true,
             calls := s.calls ++ [(s.email, joinCells s.code, "email")] }

/-- The form after a sequence of `handleCodeChange` calls, each on one of the
six cells. -/
def run (s : State) (evs : List (Fin 6 × String)) : State :=
  evs.foldl (fun t ev => handleCodeChange t ev.1.val ev.2) s

/-- A cell is empty or holds exactly one decimal digit. -/
def cellOk (c : String) : Prop :=
  c.data = [] ∨ ∃ d, isDecimalDigit d = true ∧ c.data = [d]

end Verification

/-! ## `src/SkillAssessment.js`

The value of `assessmentData.time_limit * 60` comes with the response that
starts an assessment and is taken to be an integer or `NaN`; each
`window.confirm` answer comes with the event that opens the dialog. -/

/-- The properties of `{ ...props, [k]: v }`: the property `k` is replaced
where it is, or added at the end. -/
def setProp : List (String × JSValue) → String → JSValue → List (String × JSValue)
  | [], k, v => [(k, v)]
  | (k1, v1) :: rest, k, v => if k1 == k then (k, v) :: rest else (k1, v1) :: setProp rest k v

/-- The own enumerable properties that `{ ...v }` copies: those of an object,
the indexed elements of an array or characters of a string, none otherwise. -/
def spreadProps : JSValue → List (String × JSValue)
  | JSValue.object props => props
  | JSValue.array items => items.enum.map (fun p => (toString p.1, p.2))
  | JSValue.string s =>
    s.data.enum.map (fun p => (toString p.1, JSValue.string (String.singleton p.2)))
  | _ => []

/-- The answers object `{ ...prev, [qId]: answerIndex }`. -/
def setAnswer : List (String × Int) → String → Int → List (String × Int)
  | [], k, v => [(k, v)]
  | (k1, v1) :: rest, k, v => if k1 == k then (k, v) :: rest else (k1, v1) :: setAnswer rest k v

namespace SkillAssessment

/-- The state `assessment` when it is not `null`: the response data and the
questions with their ids, `{ ...assessmentData, questions: questionsWithIds }`. -/
structure Assessment where
  data : JSValue
  questions : List JSValue

/-- The state of the page, with the number of pending `submitAssessment`
promises and the log of the `submitAssessment(selectedSkill, formattedAnswers)`
calls made. -/
structure State where
  assessment : Option Assessment
  selectedSkill : JSValue
  currentQuestion : Int
  answers : List (String × Int)
  timeLeft : Option Int
  loading : Bool
  submitted : Bool
  score : JSValue
  pendingSubmits : Nat
  submitCalls : List (JSValue × List (String × Int))

/-- The page after the first render. -/
def init : State :=
  { assessment := none, selectedSkill := JSValue.null, currentQuestion := 0, answers := [],
    timeLeft := some 0, loading := false, submitted := false, score := JSValue.null,
    pendingSubmits := 0, submitCalls := [] }

/-- The array `questionsWithIds`, for questions that start at position
`index`: `questions.map((q, index) => ({ ...q, id: q.id || index + 1 }))`;
`none` when reading `q.id` throws. -/
def questionsWithIds : List JSValue → Nat → Option (List JSValue)
  | [], _ => some []
  | q :: qs, index =>
    match q.getProp "id", questionsWithIds qs (index + 1) with
    | some id, some rest =>
      some (JSValue.object
        (setProp (spreadProps q) "id" (id.or (JSValue.number (index + 1)))) :: rest)
    | _, _ => none

/-- The object `formattedAnswers` of `handleSubmit`, for questions that start
at position `index`: for each question the key `String(q.id || index + 1)`,
with the answer stored under that key if there is one; `none` when reading
`q.id` throws. -/
def formattedAnswers (answers : List (String × Int)) :
    List JSValue → Nat → List (String × Int) → Option (List (String × Int))
  | [], _, acc => some acc
  | q :: qs, index, acc =>
    match q.getProp "id" with
    | none => none
    | some id =>
      match answers.lookup (jsToString (id.or (JSValue.number (index + 1)))) with
      | some a =>
        formattedAnswers answers qs (index + 1)
          (setAnswer acc (jsToString (id.or (JSValue.number (index + 1)))) a)
      | none => formattedAnswers answers qs (index + 1) acc

/-- The function `handleSubmit()` up to its `await`, with the answer
`confirm` the user gives if a `window.confirm` dialog opens: nothing happens
without an assessment or a selected skill, or when the user declines to submit
an incomplete assessment; otherwise `setLoading(true)`, `setSubmitted(true)`
and the `submitAssessment` call.  There is no test of `submitted`. -/
def handleSubmit (s : State) (confirm : Bool) : State :=
  match s.assessment with
  | none => s
  | some a =>
    if !s.selectedSkill.truthy then s
    else if s.answers.length = 0 && !confirm then s
    else if s.answers.length ≠ 0 && s.answers.length < a.questions.length && !confirm then s
    else
      match formattedAnswers s.answers a.questions 0 [] with
      | some fa =>
        { s with loading := true, submitted := true,
                 submitCalls := s.submitCalls ++ [(s.selectedSkill, fa)],
                 pendingSubmits := s.pendingSubmits + 1 }
      | none => { s with submitted := false, loading := false }

/-- The rest of `startAssessment(assessmentId)` when `getAssessmentQuestions`
resolved with `response.data = data`.  Without a non-empty `questions` array,
or on a TypeError, only `setLoading(false)` remains.  Otherwise the assessment
is stored with `questionsWithIds`, and `currentQuestion`, `answers`,
`timeLeft`, `submitted` and `score` are reset; when that changes `timeLeft`
to 0 the `[timeLeft]` effect calls `handleSubmit()` at once. -/
def startAssessmentResolved (s : State) (assessmentId data : JSValue) (seconds : Option Int)
    (confirm : Bool) : State :=
  match data.getProp "questions" with
  | some (JSValue.array (q :: qs)) =>
    match questionsWithIds (q :: qs) 0 with
    | some questions =>
      let s1 : State :=
        { s with assessment := some ⟨data, questions⟩, selectedSkill := assessmentId,
                 currentQuestion := 0, answers := [], timeLeft := seconds,
                 submitted := false, score := JSValue.null, loading := false }
      if seconds ≠ s.timeLeft && seconds = some 0 then handleSubmit s1 confirm else s1
    | none => { s with loading := false }
  | _ => { s with loading := false }

/-- The function `handleAnswer(questionId, answerIndex)`:
`const qId = String(questionId);` and
`setAnswers((prev) => ({ ...prev, [qId]: answerIndex }))`. -/
def handleAnswer (s : State) (questionId : JSValue) (answerIndex : Int) : State :=
  { s with answers := setAnswer s.answers (jsToString questionId) answerIndex }

/-- The function `handleNext()`:
`if (currentQuestion < assessment.questions.length - 1) setCurrentQuestion(currentQuestion + 1);` -/
def handleNext (s : State) : State :=
  match s.assessment with
  | some a =>
    if s.currentQuestion < (a.questions.length : Int) - 1 then
      { s with currentQuestion := s.currentQuestion + 1 }
    else s
  | none => s

/-- The function `handlePrevious()`:
`if (currentQuestion > 0) setCurrentQuestion(currentQuestion - 1);` -/
def handlePrevious (s : State) : State :=
  if s.currentQuestion > 0 then { s with currentQuestion := s.currentQuestion - 1 } else s

/-- One second passes with `timeLeft > 0`: the timeout runs
`setTimeLeft(timeLeft - 1)` and the `[timeLeft]` effect runs again, which
calls `handleSubmit()` when
`timeLeft === 0 && assessment && !submitted`. -/
def second (s : State) (confirm : Bool) : State :=
  match s.timeLeft with
  | some t =>
    if t > 0 then
      let s1 := { s with timeLeft := some (t - 1) }
      if t - 1 = 0 && s1.assessment.isSome && !s1.submitted then handleSubmit s1 confirm else s1
    else s
  | none => s

/-- Whether the button "Submit Assessment" is on the page: the result view
(`submitted && score !== null`) is not shown, there is an assessment and the
current question is its last one. -/
def submitShown (s : State) : Bool :=
  match s.assessment with
  | some a =>
    !(s.submitted && !strictEq s.score JSValue.null) &&
      (a.questions[s.currentQuestion.toNat]?).isSome &&
      decide (s.currentQuestion = (a.questions.length : Int) - 1)
  | none => false

/-- The rest of `handleSubmit` when `submitAssessment` resolved with
`response.data = result`: `setScore(result.score)`, and `finally`
`setLoading(false)`; a TypeError on a missing result lands in the `catch`. -/
def handleSubmitResolved (s : State) (result : JSValue) : State :=
  match result.getProp "score" with
  | some sc => { s with score := sc, loading := false }
  | none => { s with submitted := false, loading := false }

/-- The rest of `handleSubmit` when `submitAssessment` rejected:
`setSubmitted(false)` to allow a retry, and `setLoading(false)`. -/
def handleSubmitRejected (s : State) : State :=
  { s with submitted := false, loading := false }

/-- What can happen to the page. -/
inductive Event where
  | startResolved (assessmentId data : JSValue) (seconds : Option Int) (confirm : Bool)
  | answer (questionId : JSValue) (answerIndex : Int)
  | next
  | previous
  | second (confirm : Bool)
  | clickSubmit (confirm : Bool)
  | submitResolved (result : JSValue)
  | submitRejected
  | takeAnother

/-- One event.  `clickSubmit` is a click on "Submit Assessment" where that
button is on the page; `takeAnother` is the button "Take Another Assessment"
of the result view. -/
def step (s : State) : Event → State
  | Event.startResolved assessmentId data seconds confirm =>
    startAssessmentResolved s assessmentId data seconds confirm
  | Event.answer questionId answerIndex => handleAnswer s questionId answerIndex
  | Event.next => handleNext s
  | Event.previous => handlePrevious s
  | Event.second confirm => second s confirm
  | Event.clickSubmit confirm => if submitShown s then handleSubmit s confirm else s
  | Event.submitResolved result =>
    if s.pendingSubmits = 0 then s
    else handleSubmitResolved { s with pendingSubmits := s.pendingSubmits - 1 } result
  | Event.submitRejected =>
    if s.pendingSubmits = 0 then s
    else handleSubmitRejected { s with pendingSubmits := s.pendingSubmits - 1 }
  | Event.takeAnother =>
    { s with assessment := none, selectedSkill := JSValue.null, submitted := false,
             score := JSValue.null }

/-- The page after a sequence of events, oldest first. -/
def run (s : State) (es : List Event) : State :=
  es.foldl step s

/-- The current question is one of the questions of the assessment, if there
is an assessment. -/
def NavInv (s : State) : Prop :=
  ∀ a, s.assessment = some a →
    0 ≤ s.currentQuestion ∧ s.currentQuestion < (a.questions.length : Int)

/-- A response with one question, which has an id of its own. -/
def oneQuestion : JSValue :=
  JSValue.object [("title", JSValue.string "React"), ("time_limit", JSValue.number 10),
    ("questions", JSValue.array [JSValue.object [("id", JSValue.number 5),
      ("question", JSValue.string "What is JSX?"),
      ("options", JSValue.array [JSValue.string "A syntax", JSValue.string "A server"])]])]

/-- A response with two questions: the first has the id 2, the second has
none. -/
def mixedQuestions : JSValue :=
  JSValue.object [("title", JSValue.string "CSS"), ("time_limit", JSValue.number 10),
    ("questions", JSValue.array
      [JSValue.object [("id", JSValue.number 2), ("question", JSValue.string "First?")],
       JSValue.object [("question", JSValue.string "Second?")]])]

/-- The page with the one-question assessment started and its question
answered. -/
def answeredState : State :=
  run init [Event.startResolved (JSValue.number 3) oneQuestion (some 600) false,
    Event.answer (JSValue.number 5) 0]

/-- The page after "Submit Assessment" was clicked once: the call is
pending. -/
def submittingState : State :=
  step answeredState (Event.clickSubmit true)

/-- The page with the two-question assessment started. -/
def mixedState : State :=
  step init (Event.startResolved (JSValue.number 4) mixedQuestions (some 600) false)

end SkillAssessment

/-! ## The assessment builder of `src/AdminDashboard.js` -/

namespace AdminDashboard

/-- An answer option of the question being written. -/
structure AnswerOption where
  option_text : String
  is_correct : Bool

/-- A question: the state `currentQuestion`, and with its `order` an element
of `assessmentForm.questions`. -/
structure Question where
  question_text : String
  question_type : String
  points : Int
  explanation : String
  options : List AnswerOption
  order : Option Nat

/-- The builder: `assessmentForm.questions`, `currentQuestion` and the
feedback shown (type and message). -/
structure Builder where
  questions : List Question
  currentQuestion : Question
  feedback : String × String

/-- The question that `useState` and `resetCurrentQuestion` set: single
choice, four empty options, none correct. -/
def blankQuestion : Question :=
  { question_text := "", question_type := "single", points := 1, explanation := "",
    options := [⟨"", false⟩, ⟨"", false⟩, ⟨"", false⟩, ⟨"", false⟩], order := none }

/-- The builder when the modal opens. -/
def init : Builder :=
  { questions := [], currentQuestion := blankQuestion, feedback := ("", "") }

/-- The call `handleOptionChange(index, "option_text", value)`, the only use
of `handleOptionChange`: `options.map((opt, i) => i === index ?`
`{ ...opt, option_text: value } : opt)`. -/
def handleOptionChange (b : Builder) (index : Nat) (value : String) : Builder :=
  let options := b.currentQuestion.options.enum.map
    (fun p => if p.1 = index then { p.2 with option_text := value } else p.2)
  { b with currentQuestion := { b.currentQuestion with options := options } }

/-- The function `handleCorrectOptionChange(index)`: for a single choice
question `is_correct: i === index` on every option ("only one can be
correct"), otherwise the option at `index` is toggled. -/
def handleCorrectOptionChange (b : Builder) (index : Nat) : Builder :=
  if b.currentQuestion.question_type = "single" then
    let options := b.currentQuestion.options.enum.map
      (fun p => { p.2 with is_correct := decide (p.1 = index) })
    { b with currentQuestion := { b.currentQuestion with options := options } }
  else
    let options := b.currentQuestion.options.enum.map
      (fun p => if p.1 = index then { p.2 with is_correct := !p.2.is_correct } else p.2)
    { b with currentQuestion := { b.currentQuestion with options := options } }

/-- The `onChange` of the question type select:
`setCurrentQuestion({ ...currentQuestion, question_type: e.target.value })`. -/
def setQuestionType (b : Builder) (value : String) : Builder :=
  { b with currentQuestion := { b.currentQuestion with question_type := value } }

/-- The `onChange` of the question text. -/
def setQuestionText (b : Builder) (value : String) : Builder :=
  { b with currentQuestion := { b.currentQuestion with question_text := value } }

/-- The function `handleAddQuestion()`: the question needs a text, at least
two options with a text, and at least one of those marked correct; it is then
appended with the filled options and its order, and `currentQuestion` is
reset. -/
def handleAddQuestion (b : Builder) : Builder :=
  if jsNot (jsTrim b.currentQuestion.question_text) then
    { b with feedback := ("danger", "Please enter a question") }
  else if (b.currentQuestion.options.filter
      (fun o => !jsNot (jsTrim o.option_text))).length < 2 then
    { b with feedback := ("danger", "Please add at least 2 options") }
  else if !(b.currentQuestion.options.filter
      (fun o => !jsNot (jsTrim o.option_text))).any (fun o => o.is_correct) then
    { b with feedback := ("danger", "Please mark at least one correct answer") }
  else
    let filledOptions := b.currentQuestion.options.filter
      (fun o => !jsNot (jsTrim o.option_text))
    let newQuestion : Question :=
      { b.currentQuestion with options := filledOptions,
                               order := some (b.questions.length + 1) }
    { questions := b.questions ++ [newQuestion], currentQuestion := blankQuestion,
      feedback := ("success", "Question added!") }

/-- What the admin can do in the builder. -/
inductive Event where
  | changeText (value : String)
  | changeType (value : String)
  | changeOption (index : Nat) (value : String)
  | markCorrect (index : Nat)
  | addQuestion

/-- One action of the admin. -/
def step (b : Builder) : Event → Builder
  | Event.changeText value => setQuestionText b value
  | Event.changeType value => setQuestionType b value
  | Event.changeOption index value => handleOptionChange b index value
  | Event.markCorrect index => handleCorrectOptionChange b index
  | Event.addQuestion => handleAddQuestion b

/-- The builder after a sequence of actions. -/
def run (b : Builder) (es : List Event) : Builder :=
  es.foldl step b

/-- For each question added: its type and the number of its options marked
correct. -/
def correctCounts (b : Builder) : List (String × Nat) :=
  b.questions.map (fun q => (q.question_type, (q.options.filter (fun o => o.is_correct)).length))

end AdminDashboard

/-! ## `src/common/ReviewsList.js` -/

namespace ReviewsList

/-- A review, as far as the list reads it: its `overall_rating`, the time of
`new Date(created_at)` in milliseconds, and `helpful_count || 0`. -/
structure Review where
  overall_rating : Num
  created : Int
  helpful_count : Int

/-- The state `filterRating`: "all", or the value of one of the star
options, given by its `parseInt`. -/
inductive Filter where
  | all
  | stars (k : Int)

/-- The callback of `reviews.filter(...)`: `if (filterRating === "all") return true;`
`return Math.floor(review.overall_rating) === parseInt(filterRating);` -/
def keeps (f : Filter) (r : Review) : Bool :=
  match f with
  | Filter.all => true
  | Filter.stars k => decide (r.overall_rating.floor = k)

/-- Whether the comparator of `.sort(...)` gives a value that is not
positive for `(a, b)`, so that `a` need not move behind `b`. -/
def notAfter (sortBy : String) (a b : Review) : Bool :=
  if sortBy = "newest" then decide (b.created - a.created ≤ 0)
  else if sortBy = "oldest" then decide (a.created - b.created ≤ 0)
  else if sortBy = "highest" then b.overall_rating.le a.overall_rating
  else if sortBy = "lowest" then a.overall_rating.le b.overall_rating
  else if sortBy = "helpful" then decide (b.helpful_count - a.helpful_count ≤ 0)
  else true

/-- One review put in its place in a sorted list, before the first review it
need not come after. -/
def insertReview (sortBy : String) (x : Review) : List Review → List Review
  | [] => [x]
  | y :: ys => if notAfter sortBy x y then x :: y :: ys else y :: insertReview sortBy x ys

/-- The method `.sort(comparator)`, a stable sort. -/
def sortReviews (sortBy : String) : List Review → List Review
  | [] => []
  | x :: xs => insertReview sortBy x (sortReviews sortBy xs)

/-- The constant `filteredReviews`: the reviews the filter keeps, sorted. -/
def filteredReviews (f : Filter) (sortBy : String) (reviews : List Review) : List Review :=
  sortReviews sortBy (reviews.filter (keeps f))

/-- The object `distribution` of `getRatingDistribution`. -/
structure Distribution where
  five : Nat
  four : Nat
  three : Nat
  two : Nat
  one : Nat

/-- The body of the `forEach` in `getRatingDistribution`:
`const rating = Math.round(review.overall_rating);`
`if (rating >= 1 && rating <= 5) distribution[rating]++;` -/
def countReview (d : Distribution) (r : Review) : Distribution :=
  if r.overall_rating.round = 5 then { d with five := d.five + 1 }
  else if r.overall_rating.round = 4 then { d with four := d.four + 1 }
  else if r.overall_rating.round = 3 then { d with three := d.three + 1 }
  else if r.overall_rating.round = 2 then { d with two := d.two + 1 }
  else if r.overall_rating.round = 1 then { d with one := d.one + 1 }
  else d

/-- The function `getRatingDistribution()`. -/
def getRatingDistribution (reviews : List Review) : Distribution :=
  reviews.foldl countReview ⟨0, 0, 0, 0, 0⟩

/-- The count shown next to `k` stars, `ratingDistribution[k]`. -/
def shownCount (d : Distribution) (k : Int) : Nat :=
  if k = 5 then d.five else if k = 4 then d.four else if k = 3 then d.three
  else if k = 2 then d.two else if k = 1 then d.one else 0

/-- A review rated 4.5. -/
def halfStarReview : Review :=
  { overall_rating := ⟨9, 2⟩, created := 1700000000000, helpful_count := 0 }

end ReviewsList

/-! ## Blank input -/

theorem jsTrim_of_isBlank (s : String) (h : isBlank s) : jsNot (jsTrim s) = true := by
  have h1 : s.data.dropWhile isJSWhitespace = [] := by
    rw [List.dropWhile_eq_nil_iff]
    exact h
  simp [jsNot, jsTrim, h1]

/-- C1: in every state of the Messages view, and of the Messaging view, whose
newMessage is empty or only white space, handleSendMessage (reached by the
button, by the Enter key or by the form) returns the state as it was: no
sendMessage call is logged or left pending, and messages, newMessage, the
selected conversation and the sending flag keep their values. -/
theorem blank_message_not_sent :
    (∀ s : Messages.State, isBlank s.newMessage →
      Messages.handleSendMessage s = s ∧ Messages.step s Messages.Event.enterKey = s ∧
        Messages.step s Messages.Event.clickSend = s) ∧
    (∀ s : Messaging.State, isBlank s.newMessage →
      Messaging.handleSendMessage s = s ∧ Messaging.step s Messaging.Event.submit = s) := by
  refine ⟨fun s h => ?_, fun s h => ?_⟩
  · have hb := jsTrim_of_isBlank s.newMessage h
    simp [Messages.step, Messages.handleSendMessage, Messages.sendDisabled, hb]
  · have hb := jsTrim_of_isBlank s.newMessage h
    simp [Messaging.step, Messaging.handleSendMessage, hb]

/-- Witness of C1: with a conversation selected and the input holding two
spaces, a tab and a line feed, nothing is sent in either view. -/
theorem blank_message_not_sent_witness :
    isBlank blankState.newMessage ∧ Messages.handleSendMessage blankState = blankState ∧
      isBlank blankPanel.newMessage ∧ Messaging.handleSendMessage blankPanel = blankPanel :=
  ⟨by decide, (blank_message_not_sent.1 blankState (by decide)).1,
   by decide, (blank_message_not_sent.2 blankPanel (by decide)).1⟩

/-- C2 at its failing input: conversation 1 is selected, "hi" is typed and
Enter was pressed once, so sendingMessage is true and one sendMessage call is
pending.  The submit button is then disabled, a click changes nothing; but a
second Enter runs handleSendMessage again, which has no sendingMessage guard:
a second sendMessage call is made and two are outstanding. -/
theorem enter_key_sends_while_sending :
    sendingState.sendingMessage = true ∧
    sendingState.pendingSends = [convA] ∧
    Messages.step sendingState Messages.Event.clickSend = sendingState ∧
    (Messages.step sendingState Messages.Event.enterKey).pendingSends = [convA, convA] ∧
    (Messages.step sendingState Messages.Event.enterKey).calls =
      [ApiCall.getMessages (JSValue.number 1),
       ApiCall.sendMessage (JSValue.number 1) "hi" "text",
       ApiCall.sendMessage (JSValue.number 1) "hi" "text"] := by
  refine ⟨rfl, rfl, rfl, rfl, rfl⟩

/-- Counterexample to C3: conversation 2 is selected and shows its message;
the response of the request made for conversation 1 then resolves and the
messages list becomes the list of conversation 1. -/
theorem stale_response_overwrites :
    switchedState.selectedConversation = convB ∧
    switchedState.pendingGets = [JSValue.number 1] ∧
    switchedState.messages = [msgB] ∧
    (Messages.step switchedState (Messages.Event.getResolved 0 (JSValue.array [msgA]))).messages
      = [msgA] ∧
    (Messages.step switchedState (Messages.Event.getResolved 0 (JSValue.array [msgA]))).messages
      ≠ switchedState.messages := by
  refine ⟨rfl, rfl, rfl, rfl, ?_⟩
  show [msgA] ≠ [msgB]
  simp [msgA, msgB]

/-- C3 as amended: in both views a resolved getMessages response is applied
whatever conversation is selected when it resolves: the messages list becomes
the list the response carries, and the selection is left as it is. -/
theorem response_applied_whatever_selected :
    (∀ (s : Messages.State) (i : Nat) (data : JSValue), i < s.pendingGets.length →
      (Messages.step s (Messages.Event.getResolved i data)).messages = loadMessagesList data ∧
      (Messages.step s (Messages.Event.getResolved i data)).selectedConversation
        = s.selectedConversation) ∧
    (∀ (s : Messaging.State) (i : Nat) (data : JSValue), i < s.pendingGets.length →
      (Messaging.step s (Messaging.Event.getResolved i data)).messages = loadMessagesList data ∧
      (Messaging.step s (Messaging.Event.getResolved i data)).selectedConversation
        = s.selectedConversation) := by
  refine ⟨fun s i data h => ?_, fun s i data h => ?_⟩
  · simp [Messages.step, List.getElem?_eq_getElem h, Messages.loadMessagesResolved]
  · simp [Messaging.step, List.getElem?_eq_getElem h, Messaging.loadMessagesResolved]

/-- Witness of C3 as amended: the stale response for conversation 1 in the
Messages view, and a first response in the Messaging view. -/
theorem response_applied_whatever_selected_witness :
    (Messages.step switchedState (Messages.Event.getResolved 0 (JSValue.array [msgA]))).messages
      = loadMessagesList (JSValue.array [msgA]) ∧
    (Messaging.step selectedPanel (Messaging.Event.getResolved 0 (JSValue.array [msgA]))).messages
      = loadMessagesList (JSValue.array [msgA]) :=
  ⟨(response_applied_whatever_selected.1 switchedState 0 (JSValue.array [msgA]) (by decide)).1,
   (response_applied_whatever_selected.2 selectedPanel 0 (JSValue.array [msgA]) (by decide)).1⟩

/-! ## The refresh timer -/

theorem getProp_of_truthy (v : JSValue) (k : String) (h : v.truthy = true) :
    ∃ x, v.getProp k = some x := by
  cases v <;> simp [JSValue.truthy, JSValue.getProp] at h ⊢

theorem messages_cleanup_clears (s : Messages.State) (h : Messages.TimerInv s)
    (conv : JSValue) :
    (Messages.effectCleanup { s with selectedConversation := conv }).intervals = [] ∧
    (Messages.effectCleanup { s with selectedConversation := conv }).cleanup = none ∧
    (Messages.effectCleanup { s with selectedConversation := conv }).selectedConversation
      = conv := by
  rcases h with ⟨h1, h2⟩ | ⟨t, h1, h2, _⟩
  · simp [Messages.effectCleanup, h1, h2]
  · simp [Messages.effectCleanup, h1, h2]

theorem messages_effect_inv (s : Messages.State) (h1 : s.intervals = [])
    (h2 : s.cleanup = none) : Messages.TimerInv (Messages.selectedConversationEffect s) := by
  unfold Messages.selectedConversationEffect
  by_cases ht : s.selectedConversation.truthy = true
  · obtain ⟨x, hx⟩ := getProp_of_truthy s.selectedConversation "id" ht
    simp only [ht, hx, if_true]
    right
    exact ⟨s.nextHandle, rfl, by simp [Messages.loadMessages, h1], ht⟩
  · simp only [ht]
    left
    exact ⟨h2, h1⟩

theorem messages_step_frame (s : Messages.State) (ev : Messages.Event)
    (h : ∀ c, ev ≠ Messages.Event.selectConversation c) :
    (Messages.step s ev).cleanup = s.cleanup ∧ (Messages.step s ev).intervals = s.intervals ∧
      (Messages.step s ev).selectedConversation = s.selectedConversation := by
  cases ev with
  | selectConversation c => exact absurd rfl (h c)
  | change t => simp [Messages.step]
  | clickSend =>
    simp only [Messages.step, Messages.handleSendMessage]
    repeat' split
    all_goals simp
  | enterKey =>
    simp only [Messages.step, Messages.handleSendMessage]
    repeat' split
    all_goals simp
  | tick t =>
    simp only [Messages.step, Messages.intervalTick, Messages.loadMessages]
    repeat' split
    all_goals simp
  | getResolved i d =>
    simp only [Messages.step, Messages.loadMessagesResolved]
    repeat' split
    all_goals simp
  | getRejected i =>
    simp only [Messages.step, Messages.loadMessagesRejected]
    repeat' split
    all_goals simp
  | sendResolved i =>
    simp only [Messages.step, Messages.handleSendMessageResolved, Messages.loadMessages]
    repeat' split
    all_goals simp
  | sendRejected i =>
    simp only [Messages.step, Messages.handleSendMessageRejected]
    repeat' split
    all_goals simp

theorem messages_step_inv (s : Messages.State) (ev : Messages.Event)
    (h : Messages.TimerInv s) : Messages.TimerInv (Messages.step s ev) := by
  by_cases hs : ∃ c, ev = Messages.Event.selectConversation c
  · obtain ⟨c, rfl⟩ := hs
    obtain ⟨h1, h2, _⟩ := messages_cleanup_clears s h c
    exact messages_effect_inv _ h1 h2
  · have hf := messages_step_frame s ev (fun c hc => hs ⟨c, hc⟩)
    obtain ⟨f1, f2, f3⟩ := hf
    unfold Messages.TimerInv
    rw [f1, f2, f3]
    exact h

theorem messages_run_inv (es : List Messages.Event) (s : Messages.State)
    (h : Messages.TimerInv s) : Messages.TimerInv (Messages.run s es) := by
  induction es generalizing s with
  | nil => exact h
  | cons e es ih => exact ih (Messages.step s e) (messages_step_inv s e h)

theorem messages_init_inv : Messages.TimerInv Messages.init :=
  Or.inl ⟨rfl, rfl⟩

theorem messaging_cleanup_clears (s : Messaging.State) (h : Messaging.TimerInv s)
    (conv : JSValue) :
    (Messaging.effectCleanup { s with selectedConversation := conv }).intervals = [] ∧
    (Messaging.effectCleanup { s with selectedConversation := conv }).cleanup = none ∧
    (Messaging.effectCleanup { s with selectedConversation := conv }).selectedConversation
      = conv := by
  rcases h with ⟨h1, h2⟩ | ⟨t, h1, h2, _⟩
  · simp [Messaging.effectCleanup, h1, h2]
  · simp [Messaging.effectCleanup, h1, h2]

theorem messaging_effect_inv (s : Messaging.State) (h1 : s.intervals = [])
    (h2 : s.cleanup = none) : Messaging.TimerInv (Messaging.selectedConversationEffect s) := by
  unfold Messaging.selectedConversationEffect
  by_cases ht : s.selectedConversation.truthy = true
  · obtain ⟨x, hx⟩ := getProp_of_truthy s.selectedConversation "id" ht
    simp only [ht, hx, if_true]
    right
    exact ⟨s.nextHandle, rfl, by simp [Messaging.loadMessages, h1], ht⟩
  · simp only [ht]
    left
    exact ⟨h2, h1⟩

theorem messaging_step_frame (s : Messaging.State) (ev : Messaging.Event)
    (h : ∀ c, ev ≠ Messaging.Event.selectConversation c) :
    (Messaging.step s ev).cleanup = s.cleanup ∧ (Messaging.step s ev).intervals = s.intervals ∧
      (Messaging.step s ev).selectedConversation = s.selectedConversation := by
  cases ev with
  | selectConversation c => exact absurd rfl (h c)
  | change t => simp [Messaging.step]
  | submit =>
    simp only [Messaging.step, Messaging.handleSendMessage]
    repeat' split
    all_goals simp
  | tick t =>
    simp only [Messaging.step, Messaging.intervalTick, Messaging.loadMessages]
    repeat' split
    all_goals simp
  | getResolved i d =>
    simp only [Messaging.step, Messaging.loadMessagesResolved]
    repeat' split
    all_goals simp
  | getRejected i =>
    simp only [Messaging.step, Messaging.loadMessagesRejected]
    repeat' split
    all_goals simp
  | sendResolved i =>
    simp only [Messaging.step, Messaging.handleSendMessageResolved, Messaging.loadMessages]
    repeat' split
    all_goals simp
  | sendRejected i =>
    simp only [Messaging.step, Messaging.handleSendMessageRejected]
    repeat' split
    all_goals simp

theorem messaging_step_inv (s : Messaging.State) (ev : Messaging.Event)
    (h : Messaging.TimerInv s) : Messaging.TimerInv (Messaging.step s ev) := by
  by_cases hs : ∃ c, ev = Messaging.Event.selectConversation c
  · obtain ⟨c, rfl⟩ := hs
    obtain ⟨h1, h2, _⟩ := messaging_cleanup_clears s h c
    exact messaging_effect_inv _ h1 h2
  · have hf := messaging_step_frame s ev (fun c hc => hs ⟨c, hc⟩)
    obtain ⟨f1, f2, f3⟩ := hf
    unfold Messaging.TimerInv
    rw [f1, f2, f3]
    exact h

theorem messaging_run_inv (es : List Messaging.Event) (s : Messaging.State)
    (h : Messaging.TimerInv s) : Messaging.TimerInv (Messaging.run s es) := by
  induction es generalizing s with
  | nil => exact h
  | cons e es ih => exact ih (Messaging.step s e) (messaging_step_inv s e h)

theorem messaging_init_inv : Messaging.TimerInv Messaging.init :=
  Or.inl ⟨rfl, rfl⟩

theorem messages_select_interval (s : Messages.State) (h : Messages.TimerInv s)
    (conv : JSValue) (hc : conv.truthy = true) :
    ∃ t, (Messages.step s (Messages.Event.selectConversation conv)).intervals
      = [⟨t, 5000, conv⟩] := by
  obtain ⟨h1, _, h3⟩ := messages_cleanup_clears s h conv
  obtain ⟨x, hx⟩ := getProp_of_truthy conv "id" hc
  refine ⟨(Messages.effectCleanup { s with selectedConversation := conv }).nextHandle, ?_⟩
  show (Messages.selectedConversationEffect
    (Messages.effectCleanup { s with selectedConversation := conv })).intervals = _
  unfold Messages.selectedConversationEffect
  simp [h3, hc, hx, Messages.loadMessages, h1]

theorem messaging_select_interval (s : Messaging.State) (h : Messaging.TimerInv s)
    (conv : JSValue) (hc : conv.truthy = true) :
    ∃ t, (Messaging.step s (Messaging.Event.selectConversation conv)).intervals
      = [⟨t, 5000, conv⟩] := by
  obtain ⟨h1, _, h3⟩ := messaging_cleanup_clears s h conv
  obtain ⟨x, hx⟩ := getProp_of_truthy conv "id" hc
  refine ⟨(Messaging.effectCleanup { s with selectedConversation := conv }).nextHandle, ?_⟩
  show (Messaging.selectedConversationEffect
    (Messaging.effectCleanup { s with selectedConversation := conv })).intervals = _
  unfold Messaging.selectedConversationEffect
  simp [h3, hc, hx, Messaging.loadMessages, h1]

theorem messages_tick_calls (s : Messages.State) (h : Messages.TimerInv s) (t : Nat) :
    (Messages.step s (Messages.Event.tick t)).calls = s.calls ∨
    ∃ id, s.selectedConversation.getProp "id" = some id ∧
      (Messages.step s (Messages.Event.tick t)).calls = s.calls ++ [ApiCall.getMessages id] := by
  rcases h with ⟨_, h2⟩ | ⟨u, _, h2, h3⟩
  · left
    simp [Messages.step, Messages.intervalTick, h2]
  · obtain ⟨x, hx⟩ := getProp_of_truthy s.selectedConversation "id" h3
    by_cases hu : u = t
    · right
      exact ⟨x, hx, by simp [Messages.step, Messages.intervalTick, h2, hu, hx, Messages.loadMessages]⟩
    · left
      simp [Messages.step, Messages.intervalTick, h2, hu]

theorem messaging_tick_calls (s : Messaging.State) (h : Messaging.TimerInv s) (t : Nat) :
    (Messaging.step s (Messaging.Event.tick t)).calls = s.calls ∨
    ∃ id, s.selectedConversation.getProp "id" = some id ∧
      (Messaging.step s (Messaging.Event.tick t)).calls = s.calls ++ [ApiCall.getMessages id] := by
  rcases h with ⟨_, h2⟩ | ⟨u, _, h2, h3⟩
  · left
    simp [Messaging.step, Messaging.intervalTick, h2]
  · obtain ⟨x, hx⟩ := getProp_of_truthy s.selectedConversation "id" h3
    by_cases hu : u = t
    · right
      exact ⟨x, hx, by simp [Messaging.step, Messaging.intervalTick, h2, hu, hx, Messaging.loadMessages]⟩
    · left
      simp [Messaging.step, Messaging.intervalTick, h2, hu]

/-- C4: in every state either view can reach, at most one refresh interval is
live, it has the 5000 ms delay and its callback closes over the selected
conversation; when the selection changes, the cleanup of the previous effect
has cleared the old interval (none is left) before the effect creates the new
one, which is then the only one; and a timer
tick either calls nothing or calls getMessages with the id of the conversation
selected now, never with the id of a conversation selected before. -/
theorem at_most_one_refresh_interval :
    (∀ es : List Messages.Event,
      let s := Messages.run Messages.init es
      s.intervals.length ≤ 1 ∧
      (∀ iv ∈ s.intervals, iv.conv = s.selectedConversation ∧ iv.delay = 5000) ∧
      (∀ conv, (Messages.effectCleanup { s with selectedConversation := conv }).intervals = []) ∧
      (∀ conv, conv.truthy = true → ∃ h,
        (Messages.step s (Messages.Event.selectConversation conv)).intervals = [⟨h, 5000, conv⟩]) ∧
      (∀ t, (Messages.step s (Messages.Event.tick t)).calls = s.calls ∨
        ∃ id, s.selectedConversation.getProp "id" = some id ∧
          (Messages.step s (Messages.Event.tick t)).calls
            = s.calls ++ [ApiCall.getMessages id])) ∧
    (∀ es : List Messaging.Event,
      let s := Messaging.run Messaging.init es
      s.intervals.length ≤ 1 ∧
      (∀ iv ∈ s.intervals, iv.conv = s.selectedConversation ∧ iv.delay = 5000) ∧
      (∀ conv, (Messaging.effectCleanup { s with selectedConversation := conv }).intervals = []) ∧
      (∀ conv, conv.truthy = true → ∃ h,
        (Messaging.step s (Messaging.Event.selectConversation conv)).intervals = [⟨h, 5000, conv⟩]) ∧
      (∀ t, (Messaging.step s (Messaging.Event.tick t)).calls = s.calls ∨
        ∃ id, s.selectedConversation.getProp "id" = some id ∧
          (Messaging.step s (Messaging.Event.tick t)).calls
            = s.calls ++ [ApiCall.getMessages id])) := by
  constructor
  · intro es s
    have hinv : Messages.TimerInv s := messages_run_inv es _ messages_init_inv
    refine ⟨?_, ?_, fun conv => (messages_cleanup_clears s hinv conv).1,
      fun conv hc => messages_select_interval s hinv conv hc,
      fun t => messages_tick_calls s hinv t⟩
    · rcases hinv with ⟨_, h2⟩ | ⟨u, _, h2, _⟩ <;> simp [h2]
    · rcases hinv with ⟨_, h2⟩ | ⟨u, _, h2, _⟩ <;> simp [h2]
  · intro es s
    have hinv : Messaging.TimerInv s := messaging_run_inv es _ messaging_init_inv
    refine ⟨?_, ?_, fun conv => (messaging_cleanup_clears s hinv conv).1,
      fun conv hc => messaging_select_interval s hinv conv hc,
      fun t => messaging_tick_calls s hinv t⟩
    · rcases hinv with ⟨_, h2⟩ | ⟨u, _, h2, _⟩ <;> simp [h2]
    · rcases hinv with ⟨_, h2⟩ | ⟨u, _, h2, _⟩ <;> simp [h2]

/-! ## Refresh ticks and fetch results -/

/-- Counterexample to C5: conversation 1 was just selected and its first
getMessages call is still pending; the first tick of the interval starts a
second call for the same conversation, so two are in flight. -/
theorem tick_overlaps_pending_fetch :
    selectedState.pendingGets = [JSValue.number 1] ∧
    (Messages.step selectedState (Messages.Event.tick 0)).pendingGets
      = [JSValue.number 1, JSValue.number 1] ∧
    (Messages.step selectedState (Messages.Event.tick 0)).calls
      = [ApiCall.getMessages (JSValue.number 1), ApiCall.getMessages (JSValue.number 1)] ∧
    ¬ (Messages.step selectedState (Messages.Event.tick 0)).pendingGets.length ≤ 1 := by
  refine ⟨rfl, rfl, rfl, ?_⟩
  show ¬ (2 ≤ 1)
  decide

/-- C5 as amended: in every reachable state of the Messages view, a tick of
the live refresh interval starts one more getMessages call for the selected
conversation, whether or not earlier calls are still pending: the call is
appended to the pending ones and to the call log. -/
theorem tick_always_fetches (es : List Messages.Event) (t : Nat) :
    let s := Messages.run Messages.init es
    (∃ iv ∈ s.intervals, iv.handle = t) →
    ∃ id, s.selectedConversation.getProp "id" = some id ∧
      (Messages.step s (Messages.Event.tick t)).pendingGets = s.pendingGets ++ [id] ∧
      (Messages.step s (Messages.Event.tick t)).calls
        = s.calls ++ [ApiCall.getMessages id] := by
  intro s hlive
  have hinv : Messages.TimerInv s := messages_run_inv es _ messages_init_inv
  rcases hinv with ⟨_, h2⟩ | ⟨u, _, h2, h3⟩
  · simp [h2] at hlive
  · obtain ⟨x, hx⟩ := getProp_of_truthy s.selectedConversation "id" h3
    have hu : u = t := by simpa [h2] using hlive
    exact ⟨x, hx, by simp [Messages.step, Messages.intervalTick, h2, hu, hx, Messages.loadMessages],
      by simp [Messages.step, Messages.intervalTick, h2, hu, hx, Messages.loadMessages]⟩

/-- Witness of C5 as amended: the first tick after conversation 1 was
selected, with the first fetch still pending. -/
theorem tick_always_fetches_witness :
    (∃ iv ∈ selectedState.intervals, iv.handle = 0) ∧
    ∃ id, selectedState.selectedConversation.getProp "id" = some id ∧
      (Messages.step selectedState (Messages.Event.tick 0)).pendingGets
        = selectedState.pendingGets ++ [id] ∧
      (Messages.step selectedState (Messages.Event.tick 0)).calls
        = selectedState.calls ++ [ApiCall.getMessages id] :=
  ⟨⟨⟨0, 5000, convA⟩, List.mem_singleton.mpr rfl, rfl⟩,
   tick_always_fetches [Messages.Event.selectConversation convA] 0
     ⟨⟨0, 5000, convA⟩, List.mem_singleton.mpr rfl, rfl⟩⟩

/-- Counterexample to C6: the thread shows one message and a refresh is
pending; the refresh fails and the messages list is cleared. -/
theorem failed_fetch_clears_messages :
    shownState.messages = [msgA] ∧
    shownState.pendingGets = [JSValue.number 1] ∧
    (Messages.step shownState (Messages.Event.getRejected 0)).messages = [] ∧
    (Messages.step shownState (Messages.Event.getRejected 0)).messages ≠ shownState.messages := by
  refine ⟨rfl, rfl, rfl, ?_⟩
  show ([] : List JSValue) ≠ [msgA]
  simp

/-- C6 as amended: in both views, when getMessages fails inside loadMessages
the messages list after the call is the empty list, whatever it was before. -/
theorem failed_fetch_gives_empty :
    (∀ (s : Messages.State) (i : Nat), i < s.pendingGets.length →
      (Messages.step s (Messages.Event.getRejected i)).messages = []) ∧
    (∀ (s : Messaging.State) (i : Nat), i < s.pendingGets.length →
      (Messaging.step s (Messaging.Event.getRejected i)).messages = []) := by
  refine ⟨fun s i h => ?_, fun s i h => ?_⟩
  · simp [Messages.step, List.getElem?_eq_getElem h, Messages.loadMessagesRejected]
  · simp [Messaging.step, List.getElem?_eq_getElem h, Messaging.loadMessagesRejected]

/-- Witness of C6 as amended: a failed refresh in the Messages view and a
failed first fetch in the Messaging view. -/
theorem failed_fetch_gives_empty_witness :
    (Messages.step shownState (Messages.Event.getRejected 0)).messages = [] ∧
    (Messaging.step selectedPanel (Messaging.Event.getRejected 0)).messages = [] :=
  ⟨failed_fetch_gives_empty.1 shownState 0 (by decide),
   failed_fetch_gives_empty.2 selectedPanel 0 (by decide)⟩

/-- C7: when a pending getMessages call of the Messages view resolves with
response.data = data, the new messages list depends on data alone: it is
data.results when that is an array, data when that is an array, and the empty
list for every other shape. -/
theorem successful_fetch_replaces_list (s : Messages.State) (i : Nat) (data : JSValue)
    (h : i < s.pendingGets.length) :
    (∀ xs, data.getProp "results" = some (JSValue.array xs) →
      (Messages.step s (Messages.Event.getResolved i data)).messages = xs) ∧
    (∀ xs, data = JSValue.array xs →
      (Messages.step s (Messages.Event.getResolved i data)).messages = xs) ∧
    ((∀ xs, data.getProp "results" ≠ some (JSValue.array xs)) → (∀ xs, data ≠ JSValue.array xs) →
      (Messages.step s (Messages.Event.getResolved i data)).messages = []) := by
  have hm : (Messages.step s (Messages.Event.getResolved i data)).messages
      = loadMessagesList data := by
    simp [Messages.step, List.getElem?_eq_getElem h, Messages.loadMessagesResolved]
  rw [hm]
  refine ⟨fun xs hx => ?_, fun xs hx => ?_, fun h1 h2 => ?_⟩
  · simp [loadMessagesList, hx, JSValue.or, JSValue.truthy]
  · subst hx
    simp [loadMessagesList, JSValue.getProp, JSValue.or, JSValue.truthy]
  · unfold loadMessagesList
    cases hr : data.getProp "results" with
    | none => rfl
    | some r =>
      have hnr : ∀ xs, r ≠ JSValue.array xs := fun xs hx => h1 xs (by rw [hr, hx])
      have hsel : (r.or data).or (JSValue.array []) = r ∨
          (r.or data).or (JSValue.array []) = data ∨
          (r.or data).or (JSValue.array []) = JSValue.array [] := by
        unfold JSValue.or
        split_ifs <;> simp
      dsimp only
      generalize (r.or data).or (JSValue.array []) = v at hsel ⊢
      cases v with
      | array xs =>
        rcases hsel with hv | hv | hv
        · exact absurd hv.symm (hnr xs)
        · exact absurd hv.symm (h2 xs)
        · simpa using hv
      | _ => rfl

/-- Witness of C7: a first response of the paginated shape, an object whose
results property is an array of two messages. -/
theorem successful_fetch_replaces_list_witness :
    (Messages.step selectedState (Messages.Event.getResolved 0
      (JSValue.object [("count", JSValue.number 2),
        ("results", JSValue.array [msgA, msgA2])]))).messages = [msgA, msgA2] :=
  (successful_fetch_replaces_list selectedState 0
    (JSValue.object [("count", JSValue.number 2), ("results", JSValue.array [msgA, msgA2])])
    (by decide)).1 [msgA, msgA2] rfl

/-! ## Display order -/

theorem messageBubble_createdAt (m : JSValue) (b : Bubble) (h : messageBubble m = some b) :
    b.createdAt = createdAtOf m := by
  unfold messageBubble at h
  unfold createdAtOf
  split at h
  · rename_i k c t hk hc ht
    cases h
    simp [ht]
  · cases h

theorem renderThread_createdAt (ms : List JSValue) :
    ∀ bs, renderThread ms = some bs → bs.map Bubble.createdAt = ms.map createdAtOf := by
  induction ms with
  | nil =>
    intro bs h
    cases h
    rfl
  | cons m ms ih =>
    intro bs h
    unfold renderThread at h
    split at h
    · rename_i b bs1 hb hbs
      cases h
      simp [messageBubble_createdAt m b hb, ih bs1 hbs]
    · cases h

/-- Counterexample to C8: the server returns the message of 2 January before
the message of 1 January; the thread shows them in that order, which is not
ascending by created_at. -/
theorem thread_not_sorted :
    renderThread (Messages.step selectedState
        (Messages.Event.getResolved 0 (JSValue.array [msgA2, msgA]))).messages
      = some [⟨JSValue.number 11, JSValue.string "any news?",
                JSValue.string "2024-01-02T09:00:00Z"⟩,
              ⟨JSValue.number 10, JSValue.string "hello",
                JSValue.string "2024-01-01T09:00:00Z"⟩] ∧
    ¬ SortedByCreatedAt [⟨JSValue.number 11, JSValue.string "any news?",
                            JSValue.string "2024-01-02T09:00:00Z"⟩,
                          ⟨JSValue.number 10, JSValue.string "hello",
                            JSValue.string "2024-01-01T09:00:00Z"⟩] := by
  refine ⟨rfl, ?_⟩
  unfold SortedByCreatedAt
  rw [List.pairwise_cons]
  intro h
  have h1 := h.1 _ (List.mem_singleton.mpr rfl)
  revert h1
  decide

/-- C8 as amended: the thread of the Messages view shows the messages of the
resolved getMessages response in exactly the order the server returned them,
nothing is sorted on the client; so the bubbles are in ascending created_at
order exactly when the server's list was. -/
theorem thread_shows_server_order (s : Messages.State) (i : Nat) (data : JSValue)
    (bs : List Bubble) (h : i < s.pendingGets.length)
    (hr : renderThread (Messages.step s (Messages.Event.getResolved i data)).messages = some bs) :
    bs.map Bubble.createdAt = (loadMessagesList data).map createdAtOf ∧
    (SortedByCreatedAt bs ↔
      List.Pairwise (fun a b => createdAtLe a b = true)
        ((loadMessagesList data).map createdAtOf)) := by
  have hm : (Messages.step s (Messages.Event.getResolved i data)).messages
      = loadMessagesList data := by
    simp [Messages.step, List.getElem?_eq_getElem h, Messages.loadMessagesResolved]
  rw [hm] at hr
  have hc := renderThread_createdAt _ bs hr
  refine ⟨hc, ?_⟩
  rw [← hc, List.pairwise_map]
  rfl

/-- Witness of C8 as amended: a response listing the two messages of
conversation 1, oldest first. -/
theorem thread_shows_server_order_witness :
    [JSValue.string "2024-01-01T09:00:00Z", JSValue.string "2024-01-02T09:00:00Z"]
      = (loadMessagesList (JSValue.array [msgA, msgA2])).map createdAtOf :=
  (thread_shows_server_order selectedState 0 (JSValue.array [msgA, msgA2])
    [⟨JSValue.number 10, JSValue.string "hello", JSValue.string "2024-01-01T09:00:00Z"⟩,
     ⟨JSValue.number 11, JSValue.string "any news?", JSValue.string "2024-01-02T09:00:00Z"⟩]
    (by decide) rfl).1

/-! ## Sending -/

/-- C9: handleSendMessage, once past its guard, makes the sendMessage call and
keeps the conversation selected at that moment; when that call resolves, in the
same step newMessage becomes the empty string, a getMessages call for the id
of that conversation is made (no timer tick is involved), and sendingMessage
is false at the end. -/
theorem send_success_refreshes :
    (∀ s : Messages.State, jsNot (jsTrim s.newMessage) = false →
      s.selectedConversation.truthy = true →
      ∃ id, s.selectedConversation.getProp "id" = some id ∧
        (Messages.handleSendMessage s).pendingSends
          = s.pendingSends ++ [s.selectedConversation] ∧
        (Messages.handleSendMessage s).calls
          = s.calls ++ [ApiCall.sendMessage id s.newMessage "text"]) ∧
    (∀ (s : Messages.State) (i : Nat) (conv id : JSValue),
      s.pendingSends[i]? = some conv → conv.getProp "id" = some id →
      (Messages.step s (Messages.Event.sendResolved i)).newMessage = "" ∧
      (Messages.step s (Messages.Event.sendResolved i)).sendingMessage = false ∧
      (Messages.step s (Messages.Event.sendResolved i)).calls
        = s.calls ++ [ApiCall.getMessages id] ∧
      (Messages.step s (Messages.Event.sendResolved i)).pendingGets
        = s.pendingGets ++ [id]) := by
  refine ⟨fun s hb ht => ?_, fun s i conv id hc hid => ?_⟩
  · obtain ⟨x, hx⟩ := getProp_of_truthy s.selectedConversation "id" ht
    exact ⟨x, hx, by simp [Messages.handleSendMessage, hb, ht, hx],
      by simp [Messages.handleSendMessage, hb, ht, hx]⟩
  · simp [Messages.step, hc, Messages.handleSendMessageResolved, hid, Messages.loadMessages]

/-- Witness of C9: "hi" is sent in conversation 1 and the call resolves. -/
theorem send_success_refreshes_witness :
    (∃ id, sentState.selectedConversation.getProp "id" = some id ∧
      (Messages.handleSendMessage sentState).pendingSends
        = sentState.pendingSends ++ [sentState.selectedConversation] ∧
      (Messages.handleSendMessage sentState).calls
        = sentState.calls ++ [ApiCall.sendMessage id sentState.newMessage "text"]) ∧
    ((Messages.step sentState (Messages.Event.sendResolved 0)).newMessage = "" ∧
      (Messages.step sentState (Messages.Event.sendResolved 0)).sendingMessage = false ∧
      (Messages.step sentState (Messages.Event.sendResolved 0)).calls
        = sentState.calls ++ [ApiCall.getMessages (JSValue.number 1)] ∧
      (Messages.step sentState (Messages.Event.sendResolved 0)).pendingGets
        = sentState.pendingGets ++ [JSValue.number 1]) :=
  ⟨send_success_refreshes.1 sentState rfl rfl,
   send_success_refreshes.2 sentState 0 convA (JSValue.number 1) rfl rfl⟩

/-- C10: handleSendMessage itself never changes newMessage or messages, and
when its sendMessage call fails, newMessage and the messages list are what
they were, no call is made (so no loadMessages), and sendingMessage is false:
the submit button is enabled again as soon as the text is not blank. -/
theorem send_failure_keeps_input :
    (∀ s : Messages.State, (Messages.handleSendMessage s).newMessage = s.newMessage ∧
      (Messages.handleSendMessage s).messages = s.messages) ∧
    (∀ (s : Messages.State) (i : Nat), i < s.pendingSends.length →
      (Messages.step s (Messages.Event.sendRejected i)).newMessage = s.newMessage ∧
      (Messages.step s (Messages.Event.sendRejected i)).messages = s.messages ∧
      (Messages.step s (Messages.Event.sendRejected i)).calls = s.calls ∧
      (Messages.step s (Messages.Event.sendRejected i)).pendingGets = s.pendingGets ∧
      (Messages.step s (Messages.Event.sendRejected i)).sendingMessage = false ∧
      Messages.sendDisabled (Messages.step s (Messages.Event.sendRejected i))
        = jsNot (jsTrim s.newMessage)) := by
  refine ⟨fun s => ?_, fun s i h => ?_⟩
  · unfold Messages.handleSendMessage
    repeat' split
    all_goals simp
  · simp [Messages.step, List.getElem?_eq_getElem h, Messages.handleSendMessageRejected,
      Messages.sendDisabled]

/-- Witness of C10: "hi" is sent in conversation 1 and the call fails; the
input still holds "hi", the thread still shows its message and the button is
enabled. -/
theorem send_failure_keeps_input_witness :
    (Messages.step sentState (Messages.Event.sendRejected 0)).newMessage = "hi" ∧
    (Messages.step sentState (Messages.Event.sendRejected 0)).messages = [msgA] ∧
    (Messages.step sentState (Messages.Event.sendRejected 0)).calls = sentState.calls ∧
    (Messages.step sentState (Messages.Event.sendRejected 0)).pendingGets
      = sentState.pendingGets ∧
    (Messages.step sentState (Messages.Event.sendRejected 0)).sendingMessage = false ∧
    Messages.sendDisabled (Messages.step sentState (Messages.Event.sendRejected 0)) = false :=
  send_failure_keeps_input.2 sentState 0 (by decide)

/-! ## The conversation filter -/

/-- C11: for every conversation list (and whatever toLowerCase does), with the
empty searchQuery filteredConversations is the whole conversations list, the
same elements in the same order. -/
theorem empty_query_keeps_all (lower : String → String) (convs : List JSValue) :
    filteredConversations lower "" convs = some convs := by
  induction convs with
  | nil => rfl
  | cons c cs ih =>
    have hc : conversationMatches lower "" c = some true := by
      simp [conversationMatches, jsNot]
    simp [filteredConversations, hc, ih]

theorem someParticipant_wellFormed (lower : String → String) (q : String) (ps : List JSValue)
    (h : ∀ p ∈ ps, wellFormedParticipant p = true) :
    someParticipant lower (lower q) ps = some (ps.any (usernameContains lower q)) := by
  induction ps with
  | nil => rfl
  | cons p ps ih =>
    have hp := h p (List.mem_cons_self _ _)
    have ih1 := ih (fun x hx => h x (List.mem_cons_of_mem _ hx))
    cases p with
    | object props =>
      simp only [wellFormedParticipant] at hp
      simp only [someParticipant, JSValue.getProp, usernameContains, optProp, List.any_cons]
      generalize (List.lookup "username" props).getD JSValue.undefined = u at hp ⊢
      cases u <;> simp_all [lowerIncludes, JSValue.truthy]
      split <;> simp_all
    | _ => simp [wellFormedParticipant] at hp

theorem conversationMatches_wellFormed (lower : String → String) (q : String) (c : JSValue)
    (hq : jsNot q = false) (h : wellFormedConversation c = true) :
    conversationMatches lower q c = some (specMatches lower q c) := by
  cases c with
  | object props =>
    simp only [wellFormedConversation, Bool.and_eq_true] at h
    obtain ⟨h1, h2⟩ := h
    simp only [conversationMatches, hq, JSValue.getProp, specMatches, subjectContains, optProp]
    generalize (List.lookup "subject" props).getD JSValue.undefined = subj at h1 ⊢
    generalize (List.lookup "participants" props).getD JSValue.undefined = parts at h2 ⊢
    have hparts : participantsSome lower parts (lower q)
          = some (JSValue.bool (participantsContain lower q parts)) ∨
        (participantsSome lower parts (lower q) = some JSValue.undefined ∧
          participantsContain lower q parts = false) := by
      cases parts with
      | array ps =>
        left
        have hall : ∀ p ∈ ps, wellFormedParticipant p = true := by
          simpa [List.all_eq_true] using h2
        simp [participantsSome, participantsContain,
          someParticipant_wellFormed lower q ps hall]
      | undefined => right; simp [participantsSome, participantsContain]
      | null => right; simp [participantsSome, participantsContain]
      | _ => simp at h2
    cases subj with
    | string t =>
      by_cases ht : jsIncludes (lower t) (lower q) = true
      · simp [lowerIncludes, JSValue.truthy, ht]
      · rcases hparts with hp | ⟨hp, hf⟩
        · simp [lowerIncludes, JSValue.truthy, ht, hp]
        · simp [lowerIncludes, JSValue.truthy, ht, hp, hf]
    | undefined =>
      rcases hparts with hp | ⟨hp, hf⟩
      · simp [lowerIncludes, JSValue.truthy, hp]
      · simp [lowerIncludes, JSValue.truthy, hp, hf]
    | null =>
      rcases hparts with hp | ⟨hp, hf⟩
      · simp [lowerIncludes, JSValue.truthy, hp]
      · simp [lowerIncludes, JSValue.truthy, hp, hf]
    | _ => simp at h1
  | _ => simp [wellFormedConversation] at h

theorem filteredConversations_wellFormed (lower : String → String) (q : String)
    (convs : List JSValue) (hq : jsNot q = false)
    (h : ∀ c ∈ convs, wellFormedConversation c = true) :
    filteredConversations lower q convs = some (convs.filter (specMatches lower q)) := by
  induction convs with
  | nil => rfl
  | cons c cs ih =>
    have hc := conversationMatches_wellFormed lower q c hq (h c (List.mem_cons_self _ _))
    have ih1 := ih (fun x hx => h x (List.mem_cons_of_mem _ hx))
    simp only [filteredConversations, hc, ih1, List.filter_cons]

theorem filteredConversations_lower (lower : String → String) (q1 q2 : String)
    (convs : List JSValue) (h1 : jsNot q1 = false) (h2 : jsNot q2 = false)
    (h : lower q1 = lower q2) :
    filteredConversations lower q1 convs = filteredConversations lower q2 convs := by
  induction convs with
  | nil => rfl
  | cons c cs ih =>
    have hc : conversationMatches lower q1 c = conversationMatches lower q2 c := by
      simp [conversationMatches, h1, h2, h]
    simp [filteredConversations, hc, ih]

/-- C12: for every list of conversations as the server sends them and every
non-empty searchQuery q, filteredConversations is the sublist, in the original
order, of exactly the conversations whose subject contains q or one of whose
participants has a username containing q, both sides lowercased; so a query
that matches nothing gives the empty list, and two non-empty queries with the
same lowercase form give the same list. -/
theorem nonempty_query_filters (lower : String → String) (q : String) (convs : List JSValue)
    (hq : jsNot q = false) (h : ∀ c ∈ convs, wellFormedConversation c = true) :
    filteredConversations lower q convs = some (convs.filter (specMatches lower q)) ∧
    ((∀ c ∈ convs, specMatches lower q c = false) →
      filteredConversations lower q convs = some []) ∧
    (∀ q2, jsNot q2 = false → lower q2 = lower q →
      filteredConversations lower q2 convs = filteredConversations lower q convs) := by
  have hf := filteredConversations_wellFormed lower q convs hq h
  refine ⟨hf, fun hn => ?_, fun q2 h2 hl => filteredConversations_lower lower q2 q convs h2 hq hl⟩
  rw [hf]
  congr 1
  rw [List.filter_eq_nil_iff]
  intro c hc
  simp [hn c hc]

/-- Witness of C12: the query "ALI" on the conversation of the spec's
scenario, a second conversation and one with neither subject nor
participants keeps only the first, through its participant "alice". -/
theorem nonempty_query_filters_witness :
    filteredConversations asciiLower "ALI" [convA, convB, convBare] = some [convA] :=
  (nonempty_query_filters asciiLower "ALI" [convA, convB, convBare] rfl (by decide)).1.trans
    rfl

/-! ## The debounce timer of the user search -/

theorem debounce_clearable (s : StartConversation.State) (h : StartConversation.DebounceInv s) :
    StartConversation.Clearable s := by
  rcases h.2 with h0 | ⟨t, h1, h2, _⟩
  · exact Or.inl h0
  · exact Or.inr ⟨t, _, _, h1, h2⟩

theorem jsTrim_empty_short : jsLength (jsTrim "") < 2 := by decide

theorem searchEffectCleanup_clears (s : StartConversation.State)
    (h : StartConversation.Clearable s) :
    ∃ c, StartConversation.searchEffectCleanup s = { s with timeouts := [], cleanup := c } := by
  rcases h with h0 | ⟨t, d, q, h1, h2⟩
  · cases hc : s.cleanup with
    | none =>
      refine ⟨none, ?_⟩
      cases s
      simp_all [StartConversation.searchEffectCleanup]
    | some t =>
      refine ⟨none, ?_⟩
      cases s
      simp_all [StartConversation.searchEffectCleanup]
  · refine ⟨none, ?_⟩
    cases s
    simp_all [StartConversation.searchEffectCleanup]

theorem rerunSearchEffect_frame (s : StartConversation.State) :
    (StartConversation.rerunSearchEffect s).now = s.now ∧
    (StartConversation.rerunSearchEffect s).lastKeystroke = s.lastKeystroke ∧
    (StartConversation.rerunSearchEffect s).searchQuery = s.searchQuery ∧
    (StartConversation.rerunSearchEffect s).calls = s.calls ∧
    (StartConversation.rerunSearchEffect s).props = s.props ∧
    (StartConversation.rerunSearchEffect s).selectedUser = s.selectedUser ∧
    (StartConversation.rerunSearchEffect s).pendingSearches = s.pendingSearches := by
  unfold StartConversation.rerunSearchEffect StartConversation.searchEffect
    StartConversation.searchEffectCleanup
  cases s.cleanup <;> simp <;> (repeat' split) <;> simp

theorem rerunSearchEffect_inv (s : StartConversation.State)
    (hc : StartConversation.Clearable s) (hle : s.lastKeystroke ≤ s.now)
    (hq : s.lastKeystroke = s.now ∨ s.selectedUser.truthy = true ∨
      jsLength (jsTrim s.searchQuery) < 2) :
    StartConversation.DebounceInv (StartConversation.rerunSearchEffect s) := by
  obtain ⟨c, hcl⟩ := searchEffectCleanup_clears s hc
  unfold StartConversation.rerunSearchEffect
  rw [hcl]
  unfold StartConversation.searchEffect StartConversation.DebounceInv
  by_cases hs : s.props.showModal = true
  · by_cases hu : s.selectedUser.truthy = true
    · simp [hs, hu, hle]
    · by_cases hl : jsLength (jsTrim s.searchQuery) < 2
      · simp [hs, hu, hl, hle]
      · rcases hq with hk | hk | hk
        · simp [hs, hu, hl, hle, hk]
          omega
        · exact absurd hk hu
        · exact absurd hk hl
  · simp [hs, hle]

theorem debounce_of_fields (s t : StartConversation.State) (h : StartConversation.DebounceInv s)
    (h1 : t.now = s.now) (h2 : t.lastKeystroke = s.lastKeystroke)
    (h3 : t.timeouts = s.timeouts) (h4 : t.cleanup = s.cleanup)
    (h5 : t.searchQuery = s.searchQuery) : StartConversation.DebounceInv t := by
  unfold StartConversation.DebounceInv at h ⊢
  rw [h1, h2, h3, h4, h5]
  exact h

theorem fallbackSelection_truthy (pr : StartConversation.Props) (data : JSValue) :
    (StartConversation.fallbackSelection pr data).truthy = true := by
  unfold StartConversation.fallbackSelection
  repeat' split
  all_goals simp [StartConversation.fallbackUser, StartConversation.userFrom, JSValue.truthy]

theorem startConversation_timeoutFires_inv (s : StartConversation.State) (h : Nat)
    (hi : StartConversation.DebounceInv s) :
    StartConversation.DebounceInv (StartConversation.timeoutFires s h) := by
  obtain ⟨hle, hto⟩ := hi
  unfold StartConversation.timeoutFires
  rcases hto with h0 | ⟨t, h1, h2, h3⟩
  · simp only [h0, List.find?_nil]
    exact ⟨hle, Or.inl h0⟩
  · by_cases ht : t = h
    · subst ht
      by_cases hd : s.lastKeystroke + 300 ≤ s.now
      · simp only [h2, List.find?_cons, beq_self_eq_true, hd, if_true]
        refine ⟨hle, Or.inl ?_⟩
        simp [StartConversation.performUserSearch]
      · simp only [h2, List.find?_cons, beq_self_eq_true, hd, if_false]
        exact ⟨hle, Or.inr ⟨t, h1, h2, h3⟩⟩
    · have hb : (t == h) = false := by simpa using ht
      simp only [h2, List.find?_cons, hb, List.find?_nil]
      exact ⟨hle, Or.inr ⟨t, h1, h2, h3⟩⟩

theorem startConversation_step_inv (s : StartConversation.State) (ev : StartConversation.Event)
    (hi : StartConversation.DebounceInv s) :
    StartConversation.DebounceInv (StartConversation.step s ev) := by
  have hc := debounce_clearable s hi
  have hle := hi.1
  cases ev with
  | changeQuery text =>
    simp only [StartConversation.step, StartConversation.setSearchQuery]
    split
    · exact hi
    · exact rerunSearchEffect_inv _ hc (le_refl _) (Or.inl rfl)
  | changeSubject text => exact debounce_of_fields s _ hi rfl rfl rfl rfl rfl
  | changeMessage text => exact debounce_of_fields s _ hi rfl rfl rfl rfl rfl
  | wait ms =>
    refine ⟨Nat.le_trans hle (Nat.le_add_right _ _), hi.2⟩
  | timeoutFires h => exact startConversation_timeoutFires_inv s h hi
  | searchResolved i data =>
    simp only [StartConversation.step]
    split
    · exact debounce_of_fields s _ hi rfl rfl rfl rfl rfl
    · exact hi
  | searchRejected i =>
    simp only [StartConversation.step]
    split
    · exact debounce_of_fields s _ hi rfl rfl rfl rfl rfl
    · exact hi
  | clickResult i =>
    simp only [StartConversation.step]
    split
    · exact rerunSearchEffect_inv _ hc hle (Or.inr (Or.inr jsTrim_empty_short))
    · exact hi
  | clearSelection =>
    exact rerunSearchEffect_inv _ hc hle (Or.inr (Or.inr jsTrim_empty_short))
  | providerResolved data =>
    simp only [StartConversation.step, StartConversation.loadUserProviderResolved]
    split
    · exact hi
    · split
      · refine debounce_of_fields _ _
          (rerunSearchEffect_inv
            { s with pendingProviders := s.pendingProviders - 1,
                     selectedUser := StartConversation.userFrom s.props data } hc hle
            (Or.inr (Or.inl (by simp [StartConversation.userFrom, JSValue.truthy]))))
          rfl rfl rfl rfl rfl
      · exact debounce_of_fields s _ hi rfl rfl rfl rfl rfl
  | providerRejected =>
    simp only [StartConversation.step]
    split
    · exact hi
    · exact debounce_of_fields s _ hi rfl rfl rfl rfl rfl
  | fallbackResolved data =>
    simp only [StartConversation.step, StartConversation.loadUserFallbackResolved]
    split
    · exact hi
    · refine debounce_of_fields _ _
        (rerunSearchEffect_inv
          { s with pendingFallbacks := s.pendingFallbacks - 1,
                   selectedUser := StartConversation.fallbackSelection s.props data } hc hle
          (Or.inr (Or.inl (fallbackSelection_truthy _ _))))
        rfl rfl rfl rfl rfl
  | fallbackRejected =>
    simp only [StartConversation.step, StartConversation.loadUserFallbackRejected]
    split
    · exact hi
    · refine debounce_of_fields _ _
        (rerunSearchEffect_inv
          { s with pendingFallbacks := s.pendingFallbacks - 1,
                   selectedUser := StartConversation.fallbackUser s.props } hc hle
          (Or.inr (Or.inl (by simp [StartConversation.fallbackUser, JSValue.truthy]))))
        rfl rfl rfl rfl rfl
  | submit =>
    simp only [StartConversation.step, StartConversation.handleSubmit]
    repeat' split
    all_goals exact debounce_of_fields s _ hi rfl rfl rfl rfl rfl
  | createResolved i conversation =>
    simp only [StartConversation.step, StartConversation.handleSubmitCreated,
      StartConversation.handleSubmitFailed]
    repeat' split
    all_goals exact hi
  | createRejected i response =>
    simp only [StartConversation.step, StartConversation.handleSubmitFailed]
    split
    · exact debounce_of_fields s _ hi rfl rfl rfl rfl rfl
    · exact hi
  | sendResolved i =>
    simp only [StartConversation.step, StartConversation.handleSubmitSent]
    split
    · refine debounce_of_fields _ _
        (rerunSearchEffect_inv
          { s with pendingSends := s.pendingSends.eraseIdx i,
                   subject := "", initialMessage := "", selectedUser := JSValue.null,
                   searchResults := [], searchQuery := "", project := JSValue.null } hc hle
          (Or.inr (Or.inr jsTrim_empty_short)))
        rfl rfl rfl rfl rfl
    · exact hi
  | sendRejected i response =>
    simp only [StartConversation.step, StartConversation.handleSubmitFailed]
    split
    · exact debounce_of_fields s _ hi rfl rfl rfl rfl rfl
    · exact hi

theorem startConversation_init_inv (pr : StartConversation.Props) :
    StartConversation.DebounceInv (StartConversation.init pr) := by
  unfold StartConversation.init
  simp only []
  split
  · unfold StartConversation.loadUserById
    simp only []
    split
    · refine debounce_of_fields _ _
        (rerunSearchEffect_inv _ (Or.inl rfl) (le_refl _) (Or.inl rfl)) rfl rfl rfl rfl rfl
    · exact ⟨le_refl _, Or.inl rfl⟩
  · exact ⟨le_refl _, Or.inl rfl⟩

theorem startConversation_run_inv (es : List StartConversation.Event)
    (s : StartConversation.State) (h : StartConversation.DebounceInv s) :
    StartConversation.DebounceInv (StartConversation.run s es) := by
  induction es generalizing s with
  | nil => exact h
  | cons e es ih => exact ih (StartConversation.step s e) (startConversation_step_inv s e h)

/-! ## Creating a conversation -/

theorem messages_select_calls (t : Messages.State) (conv : JSValue) :
    (Messages.setSelectedConversation t conv).selectedConversation = conv ∧
    ((Messages.setSelectedConversation t conv).calls = t.calls ∨
      ∃ id, conv.getProp "id" = some id ∧
        (Messages.setSelectedConversation t conv).calls
          = t.calls ++ [ApiCall.getMessages id]) := by
  unfold Messages.setSelectedConversation Messages.selectedConversationEffect
    Messages.effectCleanup
  by_cases ht : conv.truthy = true
  · obtain ⟨x, hx⟩ := getProp_of_truthy conv "id" ht
    cases hc : t.cleanup <;> simp [ht, hx, Messages.loadMessages]
  · cases hc : t.cleanup <;> simp [ht]

/-- Counterexample to C13: on the messages page the modal has created the
conversation and sent the initial message; it then closes and reloads the
page, which fetches everything again. -/
theorem start_conversation_reloads_page :
    createdModal.props.pathname = "/messages" ∧
    createdModal.pendingSends = ["Hello"] ∧
    createdModal.reloads = 0 ∧
    (StartConversation.step createdModal (StartConversation.Event.sendResolved 0)).reloads = 1 ∧
    (StartConversation.step createdModal (StartConversation.Event.sendResolved 0)).hideCalls
      = 1 := by
  refine ⟨rfl, rfl, rfl, rfl, rfl⟩

/-- C13 as amended: when createConversation succeeds in handleStartNewChat of
Messages, the returned conversation is put at index 0 of the conversations
list with the previous list after it, it becomes the selected conversation,
and the only call made is the getMessages of the thread (no getConversations).
When the conversation and its first message succeed in handleSubmit of
StartConversation, nothing is inserted or selected: the form is reset, onHide
is called once, no API call is made, and the page is reloaded exactly when the
path is /messages. -/
theorem created_conversation_shown :
    (∀ (p : Messages.Page) (i : Nat) (newConv : JSValue), i < p.pendingCreates.length →
      (Messages.pageStep p (Messages.PageEvent.createResolved i newConv)).conversations
        = newConv :: p.conversations ∧
      (Messages.pageStep p (Messages.PageEvent.createResolved i newConv)).thread.selectedConversation
        = newConv ∧
      ((Messages.pageStep p (Messages.PageEvent.createResolved i newConv)).thread.calls
          = p.thread.calls ∨
        ∃ id, newConv.getProp "id" = some id ∧
          (Messages.pageStep p (Messages.PageEvent.createResolved i newConv)).thread.calls
            = p.thread.calls ++ [ApiCall.getMessages id])) ∧
    (∀ (s : StartConversation.State) (i : Nat), i < s.pendingSends.length →
      (StartConversation.step s (StartConversation.Event.sendResolved i)).hideCalls
        = s.hideCalls + 1 ∧
      (StartConversation.step s (StartConversation.Event.sendResolved i)).reloads
        = (if s.props.pathname = "/messages" then s.reloads + 1 else s.reloads) ∧
      (StartConversation.step s (StartConversation.Event.sendResolved i)).calls = s.calls ∧
      (StartConversation.step s (StartConversation.Event.sendResolved i)).subject = "" ∧
      (StartConversation.step s (StartConversation.Event.sendResolved i)).selectedUser
        = JSValue.null) := by
  refine ⟨fun p i newConv h => ?_, fun s i h => ?_⟩
  · have hs := messages_select_calls p.thread newConv
    have e : Messages.pageStep p (Messages.PageEvent.createResolved i newConv)
        = Messages.handleStartNewChatResolved
            { p with pendingCreates := p.pendingCreates.eraseIdx i } newConv := by
      simp [Messages.pageStep, List.getElem?_eq_getElem h]
    rw [e]
    exact ⟨rfl, hs.1, hs.2⟩
  · simp only [StartConversation.step, List.getElem?_eq_getElem h,
      StartConversation.handleSubmitSent]
    unfold StartConversation.rerunSearchEffect StartConversation.searchEffect
      StartConversation.searchEffectCleanup
    cases s.cleanup <;> simp <;> (repeat' split) <;> simp

/-- Witness of C13 as amended: alice was clicked on the Messages page and the
conversation comes back; the modal on the messages page finishes its
submit. -/
theorem created_conversation_shown_witness :
    (Messages.pageStep startedPage (Messages.PageEvent.createResolved 0 convB)).conversations
      = convB :: startedPage.conversations ∧
    (StartConversation.step createdModal (StartConversation.Event.sendResolved 0)).hideCalls
      = createdModal.hideCalls + 1 :=
  ⟨(created_conversation_shown.1 startedPage 0 convB (by decide)).1,
   (created_conversation_shown.2 createdModal 0 (by decide)).1⟩

/-- Counterexample to C14: on the Messages page the subject field holds three
spaces and alice is clicked; createConversation is called with that subject,
which is empty after trimming, and there is no initial message at all. -/
theorem new_chat_sends_blank_subject :
    jsNot (jsTrim blankSubjectPage.newChatSubject) = true ∧
    blankSubjectPage.thread.calls = [ApiCall.searchUsers "al" 10] ∧
    (Messages.pageStep blankSubjectPage (Messages.PageEvent.clickResult 0)).thread.calls
      = [ApiCall.searchUsers "al" 10,
         ApiCall.createConversation (JSValue.object
           [("participants", JSValue.array [JSValue.number 2]),
            ("subject", JSValue.string "   ")])] := by
  refine ⟨rfl, rfl, rfl⟩

theorem submitError_truthy (response : JSValue) :
    (StartConversation.submitError response).truthy = true := by
  unfold StartConversation.submitError
  split
  · assumption
  · split
    · assumption
    · rfl

/-- C14 as amended: handleSubmit of StartConversation calls createConversation
exactly when a target user id is known (the id of the selected user or, failing
that, the userId prop), the subject is non-empty after trimming and the initial
message is non-empty after trimming; in every other case it sets an error and
makes no call.  handleStartNewChat of Messages checks nothing: for every
clicked user it calls createConversation with newChatSubject, or with "Chat
with" and the username when newChatSubject is empty, and with no message. -/
theorem submit_validated_in_modal :
    (∀ s : StartConversation.State,
      ((StartConversation.targetUserId s).truthy = true → jsNot (jsTrim s.subject) = false →
        jsNot (jsTrim s.initialMessage) = false →
        (StartConversation.handleSubmit s).calls
          = s.calls ++ [ApiCall.createConversation (StartConversation.conversationData s)]) ∧
      (¬ ((StartConversation.targetUserId s).truthy = true ∧ jsNot (jsTrim s.subject) = false ∧
          jsNot (jsTrim s.initialMessage) = false) →
        (StartConversation.handleSubmit s).calls = s.calls ∧
        (StartConversation.handleSubmit s).pendingCreates = s.pendingCreates ∧
        (StartConversation.handleSubmit s).error.truthy = true)) ∧
    (∀ (p : Messages.Page) (u id username : JSValue),
      u.getProp "id" = some id → u.getProp "username" = some username →
      (Messages.handleStartNewChat p u).thread.calls
        = p.thread.calls ++ [ApiCall.createConversation (JSValue.object
            [("participants", JSValue.array [id]),
             ("subject", JSValue.string
                (if jsNot p.newChatSubject then "Chat with " ++ jsToString username
                 else p.newChatSubject))])]) := by
  refine ⟨fun s => ⟨fun h1 h2 h3 => ?_, fun h => ?_⟩, fun p u id username h1 h2 => ?_⟩
  · simp [StartConversation.handleSubmit, h1, h2, h3]
  · unfold StartConversation.handleSubmit
    split
    · exact ⟨rfl, rfl, rfl⟩
    · split
      · exact ⟨rfl, rfl, rfl⟩
      · split
        · exact ⟨rfl, rfl, rfl⟩
        · rename_i h1 h2 h3
          exact absurd ⟨by simpa using h1, by simpa using h2, by simpa using h3⟩ h
  · simp [Messages.handleStartNewChat, h1, h2, Messages.Page.log]

/-- Witness of C14 as amended: the modal with alice selected, subject "Logo"
and message "Hello" submits; the Messages page with alice found and no subject
typed starts the chat "Chat with alice". -/
theorem submit_validated_in_modal_witness :
    (StartConversation.handleSubmit readyModal).calls
      = readyModal.calls ++ [ApiCall.createConversation (JSValue.object
          [("subject", JSValue.string "Logo"), ("project_id", JSValue.null),
           ("participant_ids", JSValue.array [JSValue.number 2])])] ∧
    (Messages.handleStartNewChat foundPage alice).thread.calls
      = foundPage.thread.calls ++ [ApiCall.createConversation (JSValue.object
          [("participants", JSValue.array [JSValue.number 2]),
           ("subject", JSValue.string "Chat with alice")])] :=
  ⟨(submit_validated_in_modal.1 readyModal).1 rfl rfl rfl,
   submit_validated_in_modal.2 foundPage alice (JSValue.number 2) (JSValue.string "alice")
     rfl rfl⟩

/-- C15: handleSubmit of StartConversation itself never changes subject,
initialMessage, selectedUser or searchQuery and never calls onHide before its
calls have succeeded; and when createConversation or the sendMessage after it
fails, an error that shows (a truthy value) is set, onHide is not called,
loading is false at the end, and subject, initialMessage, selectedUser and
searchQuery are what they were. -/
theorem submit_failure_keeps_form :
    (∀ s : StartConversation.State,
      (StartConversation.handleSubmit s).subject = s.subject ∧
      (StartConversation.handleSubmit s).initialMessage = s.initialMessage ∧
      (StartConversation.handleSubmit s).selectedUser = s.selectedUser ∧
      (StartConversation.handleSubmit s).searchQuery = s.searchQuery ∧
      (StartConversation.handleSubmit s).hideCalls = s.hideCalls) ∧
    (∀ (s : StartConversation.State) (i : Nat) (response : JSValue),
      i < s.pendingCreates.length →
      (StartConversation.step s (StartConversation.Event.createRejected i response)).error.truthy
        = true ∧
      (StartConversation.step s (StartConversation.Event.createRejected i response)).hideCalls
        = s.hideCalls ∧
      (StartConversation.step s (StartConversation.Event.createRejected i response)).loading
        = false ∧
      (StartConversation.step s (StartConversation.Event.createRejected i response)).subject
        = s.subject ∧
      (StartConversation.step s (StartConversation.Event.createRejected i response)).initialMessage
        = s.initialMessage ∧
      (StartConversation.step s (StartConversation.Event.createRejected i response)).selectedUser
        = s.selectedUser ∧
      (StartConversation.step s (StartConversation.Event.createRejected i response)).searchQuery
        = s.searchQuery) ∧
    (∀ (s : StartConversation.State) (i : Nat) (response : JSValue),
      i < s.pendingSends.length →
      (StartConversation.step s (StartConversation.Event.sendRejected i response)).error.truthy
        = true ∧
      (StartConversation.step s (StartConversation.Event.sendRejected i response)).hideCalls
        = s.hideCalls ∧
      (StartConversation.step s (StartConversation.Event.sendRejected i response)).loading
        = false ∧
      (StartConversation.step s (StartConversation.Event.sendRejected i response)).subject
        = s.subject ∧
      (StartConversation.step s (StartConversation.Event.sendRejected i response)).initialMessage
        = s.initialMessage ∧
      (StartConversation.step s (StartConversation.Event.sendRejected i response)).selectedUser
        = s.selectedUser ∧
      (StartConversation.step s (StartConversation.Event.sendRejected i response)).searchQuery
        = s.searchQuery) := by
  refine ⟨fun s => ?_, fun s i response h => ?_, fun s i response h => ?_⟩
  · unfold StartConversation.handleSubmit
    repeat' split
    all_goals simp
  · simp [StartConversation.step, List.getElem?_eq_getElem h,
      StartConversation.handleSubmitFailed, submitError_truthy]
  · simp [StartConversation.step, List.getElem?_eq_getElem h,
      StartConversation.handleSubmitFailed, submitError_truthy]

/-- Witness of C15: the server refuses the conversation with a detail text,
and in another run the first message fails without a response; the form keeps
"Logo" and "Hello". -/
theorem submit_failure_keeps_form_witness :
    (StartConversation.step submittedModal (StartConversation.Event.createRejected 0
        (JSValue.object [("data", JSValue.object
          [("detail", JSValue.string "Conversation already exists")])]))).subject = "Logo" ∧
    (StartConversation.step createdModal
        (StartConversation.Event.sendRejected 0 JSValue.undefined)).initialMessage = "Hello" :=
  ⟨(submit_failure_keeps_form.2.1 submittedModal 0
      (JSValue.object [("data", JSValue.object
        [("detail", JSValue.string "Conversation already exists")])]) (by decide)).2.2.2.1,
   (submit_failure_keeps_form.2.2 createdModal 0 JSValue.undefined (by decide)).2.2.2.2.1⟩

/-! ## The user search -/

theorem startConversation_timeoutFires_calls (s : StartConversation.State) (h : Nat)
    (hi : StartConversation.DebounceInv s) :
    (StartConversation.step s (StartConversation.Event.timeoutFires h)).calls = s.calls ∨
    (s.lastKeystroke + 300 ≤ s.now ∧ 2 ≤ jsLength (jsTrim s.searchQuery) ∧
      (StartConversation.step s (StartConversation.Event.timeoutFires h)).calls
        = s.calls ++ [ApiCall.searchUsers (jsTrim s.searchQuery) 10] ∧
      (StartConversation.step s (StartConversation.Event.timeoutFires h)).timeouts = []) := by
  obtain ⟨_, hto⟩ := hi
  simp only [StartConversation.step, StartConversation.timeoutFires]
  rcases hto with h0 | ⟨t, _, h2, h3⟩
  · left
    simp [h0]
  · by_cases ht : t = h
    · subst ht
      by_cases hd : s.lastKeystroke + 300 ≤ s.now
      · right
        simp [h2, hd, h3, StartConversation.performUserSearch]
      · left
        simp [h2, hd]
    · left
      have hb : (t == h) = false := by simpa using ht
      simp [h2, hb]

theorem startConversation_changeQuery_calls (s : StartConversation.State) (text : String) :
    (StartConversation.step s (StartConversation.Event.changeQuery text)).calls = s.calls := by
  simp only [StartConversation.step, StartConversation.setSearchQuery]
  split
  · rfl
  · exact (rerunSearchEffect_frame _).2.2.2.1

/-- Counterexample to C16: on the Messages page "a" and then "al" are typed
in the user search; each keystroke calls searchUsers at once, so two calls are
made, the first with the unfinished query. -/
theorem messages_search_not_debounced :
    (Messages.runPage openPage
      [Messages.PageEvent.changeUsername "a", Messages.PageEvent.changeUsername "al"]).thread.calls
      = [ApiCall.searchUsers "a" 10, ApiCall.searchUsers "al" 10] := by
  rfl

/-- C16 as amended: in StartConversation, in every reachable state at most
one debounce timeout is pending, a keystroke and the passing of time call
nothing, and a timeout that fires calls searchUsers only when 300 ms have
passed since the last keystroke, once (no timeout is left), with the trimmed
search query.  In Messages there is no debounce: every keystroke whose text is
not blank calls searchUsers at once with the text as typed. -/
theorem search_debounced_in_modal :
    (∀ (pr : StartConversation.Props) (es : List StartConversation.Event),
      let s := StartConversation.run (StartConversation.init pr) es
      s.timeouts.length ≤ 1 ∧
      (∀ text, (StartConversation.step s (StartConversation.Event.changeQuery text)).calls
        = s.calls) ∧
      (∀ ms, (StartConversation.step s (StartConversation.Event.wait ms)).calls = s.calls) ∧
      (∀ h, (StartConversation.step s (StartConversation.Event.timeoutFires h)).calls = s.calls ∨
        (s.lastKeystroke + 300 ≤ s.now ∧
          (StartConversation.step s (StartConversation.Event.timeoutFires h)).calls
            = s.calls ++ [ApiCall.searchUsers (jsTrim s.searchQuery) 10] ∧
          (StartConversation.step s (StartConversation.Event.timeoutFires h)).timeouts = []))) ∧
    (∀ (p : Messages.Page) (text : String), jsNot (jsTrim text) = false →
      (Messages.userSearchChange p text).thread.calls
        = p.thread.calls ++ [ApiCall.searchUsers text 10]) := by
  refine ⟨fun pr es => ?_, fun p text h => ?_⟩
  · intro s
    have hinv : StartConversation.DebounceInv s :=
      startConversation_run_inv es _ (startConversation_init_inv pr)
    refine ⟨?_, startConversation_changeQuery_calls s, fun ms => rfl, fun h => ?_⟩
    · rcases hinv.2 with h0 | ⟨t, _, h2, _⟩
      · simp [h0]
      · simp [h2]
    · rcases startConversation_timeoutFires_calls s h hinv with h1 | ⟨h1, _, h2, h3⟩
      · exact Or.inl h1
      · exact Or.inr ⟨h1, h2, h3⟩
  · simp [Messages.userSearchChange, Messages.handleSearchUsers, h, Messages.Page.log]

/-- Witness of C16 as amended: "al" typed on the Messages page. -/
theorem search_debounced_in_modal_witness :
    (Messages.userSearchChange openPage "al").thread.calls
      = openPage.thread.calls ++ [ApiCall.searchUsers "al" 10] :=
  search_debounced_in_modal.2 openPage "al" rfl

/-- The scenario of the spec in the StartConversation modal: "a" and "al"
are typed 100 ms apart, nothing is called; 300 ms later the timeout fires and
exactly one call is made, searchUsers with q "al". -/
theorem debounce_scenario :
    typedModal.calls = [] ∧
    (StartConversation.step typedModal (StartConversation.Event.timeoutFires 0)).calls = [] ∧
    searchingModal.calls = [ApiCall.searchUsers "al" 10] ∧
    searchingModal.timeouts = [] := by
  refine ⟨rfl, rfl, rfl, rfl⟩

/-- Counterexample to C17: on the Messages page the one-character input "a"
calls searchUsers. -/
theorem one_char_query_searches :
    jsLength (jsTrim "a") = 1 ∧
    (Messages.handleSearchUsers openPage "a").thread.calls = [ApiCall.searchUsers "a" 10] := by
  refine ⟨rfl, rfl⟩

/-- C17 as amended: in the open StartConversation modal, every change of the
search input to a text of fewer than 2 code units after trimming clears the
search results, calls nothing and leaves no timeout pending.  In Messages,
handleSearchUsers clears the results without a call only for an input that is
blank after trimming; every other input, one character included, calls
searchUsers. -/
theorem short_query_clears_in_modal :
    (∀ (pr : StartConversation.Props) (es : List StartConversation.Event) (text : String),
      let s := StartConversation.run (StartConversation.init pr) es
      s.props.showModal = true → text ≠ s.searchQuery → jsLength (jsTrim text) < 2 →
      (StartConversation.step s (StartConversation.Event.changeQuery text)).searchResults = [] ∧
      (StartConversation.step s (StartConversation.Event.changeQuery text)).calls = s.calls ∧
      (StartConversation.step s (StartConversation.Event.changeQuery text)).timeouts = []) ∧
    (∀ (p : Messages.Page) (text : String), jsNot (jsTrim text) = true →
      (Messages.handleSearchUsers p text).searchResults = [] ∧
      (Messages.handleSearchUsers p text).thread.calls = p.thread.calls) ∧
    (∀ (p : Messages.Page) (text : String), jsNot (jsTrim text) = false →
      (Messages.handleSearchUsers p text).thread.calls
        = p.thread.calls ++ [ApiCall.searchUsers text 10]) := by
  refine ⟨fun pr es text => ?_, fun p text h => ?_, fun p text h => ?_⟩
  · intro s hs hne hlen
    have hinv : StartConversation.DebounceInv s :=
      startConversation_run_inv es _ (startConversation_init_inv pr)
    refine ⟨?_, startConversation_changeQuery_calls s text, ?_⟩
    · obtain ⟨c, hcl⟩ := searchEffectCleanup_clears
        { s with searchQuery := text, lastKeystroke := s.now } (debounce_clearable s hinv)
      simp only [StartConversation.step, StartConversation.setSearchQuery, hne, if_false,
        StartConversation.rerunSearchEffect, hcl]
      unfold StartConversation.searchEffect
      by_cases hu : s.selectedUser.truthy = true
      · simp [hs, hu]
      · simp [hs, hu, hlen]
    · obtain ⟨c, hcl⟩ := searchEffectCleanup_clears
        { s with searchQuery := text, lastKeystroke := s.now } (debounce_clearable s hinv)
      simp only [StartConversation.step, StartConversation.setSearchQuery, hne, if_false,
        StartConversation.rerunSearchEffect, hcl]
      unfold StartConversation.searchEffect
      by_cases hu : s.selectedUser.truthy = true
      · simp [hs, hu]
      · simp [hs, hu, hlen]
  · simp [Messages.handleSearchUsers, h]
  · simp [Messages.handleSearchUsers, h, Messages.Page.log]

/-- Witness of C17 as amended: in the modal the query "al" is cut back to
"a"; on the Messages page a space is typed, and then "a". -/
theorem short_query_clears_in_modal_witness :
    (StartConversation.step typedModal (StartConversation.Event.changeQuery "a")).timeouts = [] ∧
    (Messages.handleSearchUsers openPage " ").thread.calls = openPage.thread.calls ∧
    (Messages.handleSearchUsers openPage "a").thread.calls
      = openPage.thread.calls ++ [ApiCall.searchUsers "a" 10] :=
  ⟨(short_query_clears_in_modal.1 modalProps
      [StartConversation.Event.changeQuery "a", StartConversation.Event.wait 100,
       StartConversation.Event.changeQuery "al"] "a" rfl (by decide) (by decide)).2.2,
   (short_query_clears_in_modal.2.1 openPage " " rfl).2,
   short_query_clears_in_modal.2.2 openPage "a" rfl⟩

theorem ne_empty_of_not_blank (q : String) (h : jsNot (jsTrim q) = false) : q ≠ "" := by
  intro hq
  subst hq
  exact absurd h (by decide)

theorem ne_empty_of_length (q : String) (h : 2 ≤ jsLength q) : q ≠ "" := by
  intro hq
  subst hq
  exact absurd h (by decide)

/-- Counterexample to C18: the modal is opened for the user with id 7 and the
provider lookup fails; loadUserById then calls searchUsers with the empty
query and limit 50. -/
theorem user_lookup_searches_empty_query :
    (StartConversation.init profileProps).calls
      = [ApiCall.getProviderProfile (JSValue.string "7")] ∧
    (StartConversation.step (StartConversation.init profileProps)
      StartConversation.Event.providerRejected).calls
      = [ApiCall.getProviderProfile (JSValue.string "7"), ApiCall.searchUsers "" 50] := by
  refine ⟨rfl, rfl⟩

/-- C18 as amended: handleSearchUsers of Messages calls searchUsers only with
a q that is not blank, hence not empty, and the debounced search of
StartConversation only with a trimmed q of at least 2 code units, hence not
empty; but loadUserById, when the provider lookup fails or returns no data,
calls searchUsers with the empty q and limit 50. -/
theorem empty_query_only_in_fallback :
    (∀ (p : Messages.Page) (q : String),
      (Messages.handleSearchUsers p q).thread.calls = p.thread.calls ∨
      (q ≠ "" ∧ jsNot (jsTrim q) = false ∧
        (Messages.handleSearchUsers p q).thread.calls
          = p.thread.calls ++ [ApiCall.searchUsers q 10])) ∧
    (∀ (pr : StartConversation.Props) (es : List StartConversation.Event) (h : Nat),
      let s := StartConversation.run (StartConversation.init pr) es
      (StartConversation.step s (StartConversation.Event.timeoutFires h)).calls = s.calls ∨
      (jsTrim s.searchQuery ≠ "" ∧ 2 ≤ jsLength (jsTrim s.searchQuery) ∧
        (StartConversation.step s (StartConversation.Event.timeoutFires h)).calls
          = s.calls ++ [ApiCall.searchUsers (jsTrim s.searchQuery) 10])) ∧
    (∀ s : StartConversation.State, 0 < s.pendingProviders →
      (StartConversation.step s StartConversation.Event.providerRejected).calls
        = s.calls ++ [ApiCall.searchUsers "" 50]) ∧
    (∀ (s : StartConversation.State) (data : JSValue), 0 < s.pendingProviders →
      data.truthy = false →
      (StartConversation.step s (StartConversation.Event.providerResolved data)).calls
        = s.calls ++ [ApiCall.searchUsers "" 50]) := by
  refine ⟨fun p q => ?_, fun pr es h => ?_, fun s hp => ?_, fun s data hp hd => ?_⟩
  · by_cases hb : jsNot (jsTrim q) = true
    · left
      simp [Messages.handleSearchUsers, hb]
    · right
      have hb1 : jsNot (jsTrim q) = false := by simpa using hb
      exact ⟨ne_empty_of_not_blank q hb1, hb1,
        by simp [Messages.handleSearchUsers, hb1, Messages.Page.log]⟩
  · intro s
    have hinv : StartConversation.DebounceInv s :=
      startConversation_run_inv es _ (startConversation_init_inv pr)
    rcases startConversation_timeoutFires_calls s h hinv with h1 | ⟨_, h2, h3, _⟩
    · exact Or.inl h1
    · exact Or.inr ⟨ne_empty_of_length _ h2, h2, h3⟩
  · have hne : s.pendingProviders ≠ 0 := Nat.pos_iff_ne_zero.mp hp
    simp [StartConversation.step, hne, StartConversation.loadUserFallback]
  · have hne : s.pendingProviders ≠ 0 := Nat.pos_iff_ne_zero.mp hp
    simp [StartConversation.step, hne, StartConversation.loadUserProviderResolved, hd,
      StartConversation.loadUserFallback]

/-- Witness of C18 as amended: the provider lookup for user 7 fails, and in
another run it answers with no data. -/
theorem empty_query_only_in_fallback_witness :
    (StartConversation.step (StartConversation.init profileProps)
      StartConversation.Event.providerRejected).calls
      = (StartConversation.init profileProps).calls ++ [ApiCall.searchUsers "" 50] ∧
    (StartConversation.step (StartConversation.init profileProps)
      (StartConversation.Event.providerResolved JSValue.null)).calls
      = (StartConversation.init profileProps).calls ++ [ApiCall.searchUsers "" 50] :=
  ⟨empty_query_only_in_fallback.2.2.1 (StartConversation.init profileProps) (by decide),
   empty_query_only_in_fallback.2.2.2 (StartConversation.init profileProps) JSValue.null
     (by decide) rfl⟩

/-- Counterexample to C19: in the modal the search for "al" is pending when
the query is changed to "bo", which clears the results; the response for "al"
then resolves and its users become the search results under the query "bo". -/
theorem stale_search_overwrites_results :
    retypedModal.searchQuery = "bo" ∧
    retypedModal.pendingSearches = ["al"] ∧
    retypedModal.searchResults = [] ∧
    (StartConversation.step retypedModal
      (StartConversation.Event.searchResolved 0 (JSValue.array [alice]))).searchResults
      = [alice] ∧
    (StartConversation.step retypedModal
      (StartConversation.Event.searchResolved 0 (JSValue.array [alice]))).searchResults
      ≠ retypedModal.searchResults := by
  refine ⟨rfl, rfl, rfl, rfl, ?_⟩
  show [alice] ≠ ([] : List JSValue)
  simp

/-- C19 as amended: in both components a resolved searchUsers response is
applied whatever the search query is now and whether or not a user has been
selected: searchResults becomes the list the response carries, without the
current user, and the query and the selection stay as they are. -/
theorem search_response_applied_whatever_query :
    (∀ (s : StartConversation.State) (i : Nat) (data : JSValue), i < s.pendingSearches.length →
      (StartConversation.step s (StartConversation.Event.searchResolved i data)).searchResults
        = StartConversation.searchResultsList s.props.user data ∧
      (StartConversation.step s (StartConversation.Event.searchResolved i data)).searchQuery
        = s.searchQuery ∧
      (StartConversation.step s (StartConversation.Event.searchResolved i data)).selectedUser
        = s.selectedUser) ∧
    (∀ (p : Messages.Page) (i : Nat) (data : JSValue), i < p.pendingSearches.length →
      (Messages.pageStep p (Messages.PageEvent.searchResolved i data)).searchResults
        = Messages.searchResultsList p.user data ∧
      (Messages.pageStep p (Messages.PageEvent.searchResolved i data)).newChatUsername
        = p.newChatUsername) := by
  refine ⟨fun s i data h => ?_, fun p i data h => ?_⟩
  · simp [StartConversation.step, List.getElem?_eq_getElem h,
      StartConversation.performUserSearchResolved]
  · simp [Messages.pageStep, List.getElem?_eq_getElem h, Messages.handleSearchUsersResolved]

/-- Witness of C19 as amended: the late response for "al" in the modal, and
the response for "al" on the Messages page. -/
theorem search_response_applied_whatever_query_witness :
    (StartConversation.step retypedModal
      (StartConversation.Event.searchResolved 0 (JSValue.array [alice]))).searchResults
      = StartConversation.searchResultsList retypedModal.props.user (JSValue.array [alice]) ∧
    (Messages.pageStep (Messages.userSearchChange openPage "al")
      (Messages.PageEvent.searchResolved 0 (JSValue.array [me, alice]))).searchResults
      = Messages.searchResultsList openPage.user (JSValue.array [me, alice]) :=
  ⟨(search_response_applied_whatever_query.1 retypedModal 0 (JSValue.array [alice])
      (by decide)).1,
   (search_response_applied_whatever_query.2 (Messages.userSearchChange openPage "al") 0
      (JSValue.array [me, alice]) (by decide)).1⟩

theorem getProp_eq_optProp (v : JSValue) (k : String) (h1 : v ≠ JSValue.null)
    (h2 : v ≠ JSValue.undefined) : v.getProp k = some (optProp v k) := by
  cases v <;> simp_all [JSValue.getProp, optProp]

theorem filterOutUser_eq_filter (user : JSValue) (users : List JSValue)
    (h : ∀ u ∈ users, u ≠ JSValue.null ∧ u ≠ JSValue.undefined) :
    filterOutUser user users
      = some (users.filter (fun u => !strictEq (optProp u "id") (optProp user "id"))) := by
  induction users with
  | nil => rfl
  | cons u us ih =>
    have hu := h u (List.mem_cons_self _ _)
    have ih1 := ih (fun x hx => h x (List.mem_cons_of_mem _ hx))
    simp only [filterOutUser, getProp_eq_optProp u "id" hu.1 hu.2, ih1, List.filter_cons]
    cases strictEq (optProp u "id") (optProp user "id") <;> simp

theorem searchResults_of_array (user data : JSValue) (users : List JSValue)
    (hd : data = JSValue.array users ∨ data.getProp "results" = some (JSValue.array users)) :
    StartConversation.searchResultsList user data = (filterOutUser user users).getD [] ∧
    Messages.searchResultsList user data = (filterOutUser user users).getD [] := by
  rcases hd with hd | hd
  · subst hd
    simp [StartConversation.searchResultsList, Messages.searchResultsList, JSValue.getProp,
      JSValue.or, JSValue.truthy]
  · simp [StartConversation.searchResultsList, Messages.searchResultsList, hd,
      JSValue.or, JSValue.truthy]

/-- C20: in both components, for every logged-in user and every successful
searchUsers response that is an array of users or an object whose results is
an array of users, the stored search results are exactly the returned users
whose id is not (strictly) equal to the id of the current user, in the
returned order; so no stored result has the id of the current user. -/
theorem search_results_exclude_current_user :
    (∀ (s : StartConversation.State) (i : Nat) (data : JSValue) (users : List JSValue),
      i < s.pendingSearches.length →
      (data = JSValue.array users ∨ data.getProp "results" = some (JSValue.array users)) →
      (∀ u ∈ users, u ≠ JSValue.null ∧ u ≠ JSValue.undefined) →
      (StartConversation.step s (StartConversation.Event.searchResolved i data)).searchResults
        = users.filter (fun u => !strictEq (optProp u "id") (optProp s.props.user "id")) ∧
      ∀ u ∈ (StartConversation.step s
          (StartConversation.Event.searchResolved i data)).searchResults,
        strictEq (optProp u "id") (optProp s.props.user "id") = false) ∧
    (∀ (p : Messages.Page) (i : Nat) (data : JSValue) (users : List JSValue),
      i < p.pendingSearches.length →
      (data = JSValue.array users ∨ data.getProp "results" = some (JSValue.array users)) →
      (∀ u ∈ users, u ≠ JSValue.null ∧ u ≠ JSValue.undefined) →
      (Messages.pageStep p (Messages.PageEvent.searchResolved i data)).searchResults
        = users.filter (fun u => !strictEq (optProp u "id") (optProp p.user "id")) ∧
      ∀ u ∈ (Messages.pageStep p (Messages.PageEvent.searchResolved i data)).searchResults,
        strictEq (optProp u "id") (optProp p.user "id") = false) := by
  refine ⟨fun s i data users h hd hu => ?_, fun p i data users h hd hu => ?_⟩
  · have e : (StartConversation.step s
        (StartConversation.Event.searchResolved i data)).searchResults
        = users.filter (fun u => !strictEq (optProp u "id") (optProp s.props.user "id")) := by
      simp [StartConversation.step, List.getElem?_eq_getElem h,
        StartConversation.performUserSearchResolved,
        (searchResults_of_array s.props.user data users hd).1,
        filterOutUser_eq_filter s.props.user users hu]
    rw [e]
    refine ⟨rfl, fun u hmem => ?_⟩
    simpa using (List.mem_filter.mp hmem).2
  · have e : (Messages.pageStep p (Messages.PageEvent.searchResolved i data)).searchResults
        = users.filter (fun u => !strictEq (optProp u "id") (optProp p.user "id")) := by
      simp [Messages.pageStep, List.getElem?_eq_getElem h, Messages.handleSearchUsersResolved,
        (searchResults_of_array p.user data users hd).2,
        filterOutUser_eq_filter p.user users hu]
    rw [e]
    refine ⟨rfl, fun u hmem => ?_⟩
    simpa using (List.mem_filter.mp hmem).2

/-- Witness of C20: the search for "al" returns the current user and alice,
as a bare array in the modal and under results on the Messages page; only
alice is stored. -/
theorem search_results_exclude_current_user_witness :
    (StartConversation.step searchingModal
      (StartConversation.Event.searchResolved 0 (JSValue.array [me, alice]))).searchResults
      = [alice] ∧
    (Messages.pageStep (Messages.userSearchChange openPage "al")
      (Messages.PageEvent.searchResolved 0
        (JSValue.object [("results", JSValue.array [me, alice])]))).searchResults = [alice] :=
  ⟨((search_results_exclude_current_user.1 searchingModal 0 (JSValue.array [me, alice])
      [me, alice] (by decide) (Or.inl rfl) (by simp [me, alice])).1).trans rfl,
   ((search_results_exclude_current_user.2 (Messages.userSearchChange openPage "al") 0
      (JSValue.object [("results", JSValue.array [me, alice])]) [me, alice] (by decide)
      (Or.inr rfl) (by simp [me, alice])).1).trans rfl⟩

/-! ## Submitting a proposal -/

theorem checkTimeline_price (parseInt : JSValue → Option Int) (f : SubmitProposal.FormData)
    (e : SubmitProposal.Errors) :
    (SubmitProposal.checkTimeline parseInt f e).proposed_price = e.proposed_price := by
  unfold SubmitProposal.checkTimeline
  split <;> rfl

theorem checkBudget_price (parseFloat : JSValue → Option Num) (f : SubmitProposal.FormData)
    (project : JSValue) (e : SubmitProposal.Errors) (h : e.proposed_price ≠ none) :
    (SubmitProposal.checkBudget parseFloat f project e).proposed_price ≠ none ∧
    (project.truthy = false →
      (SubmitProposal.checkBudget parseFloat f project e).proposed_price = e.proposed_price) := by
  unfold SubmitProposal.checkBudget
  by_cases hp : project.truthy = true
  · simp only [hp, if_true]
    refine ⟨?_, fun hf => by simp at hf⟩
    split
    · simp
    · split
      · simp
      · exact h
  · simp only [hp]
    exact ⟨h, fun _ => rfl⟩

theorem errors_not_empty (e : SubmitProposal.Errors) (h : e.proposed_price ≠ none) :
    e.isEmpty = false := by
  unfold SubmitProposal.Errors.isEmpty
  cases hp : e.proposed_price with
  | none => exact absurd hp h
  | some m => simp

/-- Counterexample to C21: with a project of budget 100 to 200 loaded, the
price "0" is rejected with the message of the budget check, not with "Please
enter a valid price"; and the price "abc", which parses to NaN, passes every
check, so the form is accepted and createProposal is called with a
proposed_price that is NaN. -/
theorem price_check_gaps :
    (SubmitProposal.newErrors sampleParseFloat sampleParseInt
      (SubmitProposal.sampleForm (JSValue.string "0") SubmitProposal.longLetter)
      SubmitProposal.sampleProject).proposed_price
      = some "Price is below minimum budget ($100)" ∧
    SubmitProposal.validateForm sampleParseFloat sampleParseInt
      (SubmitProposal.sampleState
        (SubmitProposal.sampleForm (JSValue.string "abc") SubmitProposal.longLetter)
        JSValue.null) = true ∧
    (SubmitProposal.handleSubmit sampleParseFloat sampleParseInt
      (SubmitProposal.sampleState
        (SubmitProposal.sampleForm (JSValue.string "abc") SubmitProposal.longLetter)
        JSValue.null)).calls.map (fun d => d.proposed_price) = [none] := by
  refine ⟨rfl, rfl, rfl⟩

/-- C21 as amended: whatever parseFloat and parseInt compute, validateForm of
SubmitProposal rejects every form whose proposed_price is empty (falsy) or
parses to a number that is not greater than 0: it returns false and records
an error for proposed_price, which is "Please enter a valid price" when no
project is loaded (with a project, a budget check may replace the message by
its own); and handleSubmit then makes no createProposal call. -/
theorem invalid_price_rejected (parseFloat : JSValue → Option Num)
    (parseInt : JSValue → Option Int) (s : SubmitProposal.State)
    (h : s.formData.proposed_price.truthy = false ∨
      nanLe (parseFloat s.formData.proposed_price) (some (Num.ofInt 0)) = true) :
    SubmitProposal.validateForm parseFloat parseInt s = false ∧
    (SubmitProposal.newErrors parseFloat parseInt s.formData s.project).proposed_price
      ≠ none ∧
    (s.project.truthy = false →
      (SubmitProposal.newErrors parseFloat parseInt s.formData s.project).proposed_price
        = some "Please enter a valid price") ∧
    (SubmitProposal.handleSubmit parseFloat parseInt s).calls = s.calls := by
  have hprice : ∀ e, (SubmitProposal.checkPrice parseFloat s.formData e).proposed_price
      = some "Please enter a valid price" := by
    intro e
    unfold SubmitProposal.checkPrice
    rcases h with h | h <;> simp [h]
  have hb := checkBudget_price parseFloat s.formData s.project
    (SubmitProposal.checkPrice parseFloat s.formData
      (SubmitProposal.checkCoverLetter s.formData
        (SubmitProposal.checkProject s.formData SubmitProposal.noErrors)))
    (by rw [hprice]; simp)
  have hne : (SubmitProposal.newErrors parseFloat parseInt s.formData s.project).proposed_price
      ≠ none := by
    unfold SubmitProposal.newErrors
    rw [checkTimeline_price]
    exact hb.1
  have hv : SubmitProposal.validateForm parseFloat parseInt s = false :=
    errors_not_empty _ hne
  refine ⟨hv, hne, fun hp => ?_, ?_⟩
  · unfold SubmitProposal.newErrors
    rw [checkTimeline_price, hb.2 hp, hprice]
  · simp [SubmitProposal.handleSubmit, hv]

/-- Witness of C21 as amended: the price "0" without a project. -/
theorem invalid_price_rejected_witness :
    SubmitProposal.validateForm sampleParseFloat sampleParseInt
      (SubmitProposal.sampleState
        (SubmitProposal.sampleForm (JSValue.string "0") SubmitProposal.longLetter)
        JSValue.null) = false :=
  (invalid_price_rejected sampleParseFloat sampleParseInt
    (SubmitProposal.sampleState
      (SubmitProposal.sampleForm (JSValue.string "0") SubmitProposal.longLetter)
      JSValue.null) (Or.inr rfl)).1

/-- C22 at its failing input: the cover letter is 45 characters followed by
5 spaces.  Its length as typed is 50, so validateForm accepts the form, and
handleSubmit sends the trimmed text, which has 45 characters. -/
theorem padded_cover_letter_accepted :
    jsLength SubmitProposal.paddedLetter = 50 ∧
    SubmitProposal.validateForm sampleParseFloat sampleParseInt
      (SubmitProposal.sampleState
        (SubmitProposal.sampleForm (JSValue.string "150") SubmitProposal.paddedLetter)
        JSValue.null) = true ∧
    (SubmitProposal.handleSubmit sampleParseFloat sampleParseInt
      (SubmitProposal.sampleState
        (SubmitProposal.sampleForm (JSValue.string "150") SubmitProposal.paddedLetter)
        JSValue.null)).calls.map (fun d => d.cover_letter)
      = ["I can do this job well and quickly, trust me."] ∧
    jsLength "I can do this job well and quickly, trust me." = 45 := by
  refine ⟨by decide, rfl, by decide, by decide⟩

/-! ## The verification code -/

theorem jsLength_of_digits (l : List Char) (h : ∀ c ∈ l, isDecimalDigit c = true) :
    (l.map (fun c => if c.toNat < 0x10000 then 1 else 2)).sum = l.length := by
  induction l with
  | nil => rfl
  | cons c cs ih =>
    have hc := h c (List.mem_cons_self _ _)
    have hlt : c.toNat < 0x10000 := by
      simp only [isDecimalDigit, Bool.and_eq_true, decide_eq_true_eq] at hc
      omega
    simp only [List.map_cons, List.sum_cons, hlt, if_true, List.length_cons,
      ih (fun x hx => h x (List.mem_cons_of_mem _ hx))]
    omega

theorem cellOk_of_accepted (value : String)
    (h : (jsLength value ≤ 1 && allDigits value) = true) : Verification.cellOk value := by
  simp only [Bool.and_eq_true, decide_eq_true_eq, allDigits, List.all_eq_true] at h
  obtain ⟨hl, hd⟩ := h
  have hlen : value.data.length ≤ 1 := by
    have := jsLength_of_digits value.data hd
    unfold jsLength at hl
    omega
  unfold Verification.cellOk
  match hv : value.data with
  | [] => exact Or.inl rfl
  | [d] => exact Or.inr ⟨d, hd d (by rw [hv]; exact List.mem_singleton.mpr rfl), rfl⟩
  | a :: b :: rest =>
    rw [hv] at hlen
    simp at hlen

theorem verification_step_inv (s : Verification.State) (index : Nat) (value : String)
    (h : s.code.length = 6 ∧ ∀ c ∈ s.code, Verification.cellOk c) :
    (Verification.handleCodeChange s index value).code.length = 6 ∧
    ∀ c ∈ (Verification.handleCodeChange s index value).code, Verification.cellOk c := by
  unfold Verification.handleCodeChange
  by_cases hc : (jsLength value ≤ 1 && allDigits value) = true
  · simp only [hc, if_true, List.length_set]
    refine ⟨h.1, fun c hm => ?_⟩
    rcases List.mem_or_eq_of_mem_set hm with hm1 | hm1
    · exact h.2 c hm1
    · rw [hm1]
      exact cellOk_of_accepted value hc
  · simp only [hc]
    exact h

theorem verification_run_inv (evs : List (Fin 6 × String)) (s : Verification.State)
    (h : s.code.length = 6 ∧ ∀ c ∈ s.code, Verification.cellOk c) :
    (Verification.run s evs).code.length = 6 ∧
    ∀ c ∈ (Verification.run s evs).code, Verification.cellOk c := by
  induction evs generalizing s with
  | nil => exact h
  | cons e es ih => exact ih _ (verification_step_inv s e.1.val e.2 h)

theorem verification_init_inv (email : JSValue) :
    (Verification.init email).code.length = 6 ∧
    ∀ c ∈ (Verification.init email).code, Verification.cellOk c := by
  refine ⟨rfl, fun c hc => ?_⟩
  have : c = "" := by
    simp [Verification.init] at hc
    exact hc
  subst this
  exact Or.inl rfl

theorem joinCells_digits (cells : List String) (h : ∀ c ∈ cells, Verification.cellOk c) :
    ∀ ch ∈ (joinCells cells).data, isDecimalDigit ch = true := by
  induction cells with
  | nil =>
    intro ch hch
    simp [joinCells] at hch
  | cons c cs ih =>
    intro ch hch
    simp only [joinCells, String.data_append, List.mem_append] at hch
    rcases hch with hch | hch
    · rcases h c (List.mem_cons_self _ _) with h0 | ⟨d, hd, h1⟩
      · rw [h0] at hch
        simp at hch
      · rw [h1] at hch
        rw [List.mem_singleton.mp hch]
        exact hd
    · exact ih (fun x hx => h x (List.mem_cons_of_mem _ hx)) ch hch

theorem verification_run_email (evs : List (Fin 6 × String)) (s : Verification.State) :
    (Verification.run s evs).email = s.email := by
  induction evs generalizing s with
  | nil => rfl
  | cons e es ih =>
    show (Verification.run (Verification.handleCodeChange s e.1.val e.2) es).email = _
    rw [ih]
    unfold Verification.handleCodeChange
    split <;> rfl

/-- C23: in every state of the Verification form reached from the six empty
cells by handleCodeChange calls on the cells 0 to 5, there are six cells and
each is empty or exactly one decimal digit; a handleCodeChange call whose
value is neither leaves the state unchanged; and handleVerify either sets the
error and makes no call, or calls verifyCode with a code of exactly six
decimal digits. -/
theorem verification_code_six_digits (email : JSValue) (evs : List (Fin 6 × String)) :
    (Verification.run (Verification.init email) evs).code.length = 6 ∧
    (∀ c ∈ (Verification.run (Verification.init email) evs).code, Verification.cellOk c) ∧
    (∀ (index : Fin 6) (value : String), ¬ Verification.cellOk value →
      Verification.handleCodeChange (Verification.run (Verification.init email) evs)
        index.val value = Verification.run (Verification.init email) evs) ∧
    (((Verification.handleVerify (Verification.run (Verification.init email) evs)).calls
        = (Verification.run (Verification.init email) evs).calls ∧
      (Verification.handleVerify (Verification.run (Verification.init email) evs)).error
        = "Please enter the 6-digit verification code") ∨
     ∃ code : String,
      (Verification.handleVerify (Verification.run (Verification.init email) evs)).calls
        = (Verification.run (Verification.init email) evs).calls ++ [(email, code, "email")] ∧
      code.data.length = 6 ∧ ∀ ch ∈ code.data, isDecimalDigit ch = true) := by
  have hinv := verification_run_inv evs _ (verification_init_inv email)
  have hemail := verification_run_email evs (Verification.init email)
  generalize Verification.run (Verification.init email) evs = s at hinv hemail ⊢
  refine ⟨hinv.1, hinv.2, fun index value hv => ?_, ?_⟩
  · unfold Verification.handleCodeChange
    by_cases hc : (jsLength value ≤ 1 && allDigits value) = true
    · exact absurd (cellOk_of_accepted value hc) hv
    · simp only [hc]
      rfl
  · have hd := joinCells_digits s.code hinv.2
    unfold Verification.handleVerify
    by_cases hl : jsLength (joinCells s.code) = 6
    · right
      refine ⟨joinCells s.code, ?_, ?_, hd⟩
      · simp only [hl, ne_eq, not_true_eq_false, if_false, hemail]
        rfl
      · have := jsLength_of_digits (joinCells s.code).data hd
        unfold jsLength at hl
        omega
    · left
      rw [if_pos hl]
      exact ⟨rfl, rfl⟩

/-- Witness of C23: in the form with the code 1, 2, 3 typed in the first
three cells, the letter "a" typed in the fourth cell changes nothing. -/
theorem verification_code_six_digits_witness :
    Verification.handleCodeChange
      (Verification.run (Verification.init (JSValue.string "a@b.co"))
        [(0, "1"), (1, "2"), (2, "3")]) 3 "a"
      = Verification.run (Verification.init (JSValue.string "a@b.co"))
        [(0, "1"), (1, "2"), (2, "3")] :=
  (verification_code_six_digits (JSValue.string "a@b.co") [(0, "1"), (1, "2"), (2, "3")]).2.2.1
    3 "a" (by simp [Verification.cellOk, isDecimalDigit])

/-- The verification scenario: six digits typed one per cell, with a letter
refused on the way, give one verifyCode call with the code 123456; with a cell
left empty handleVerify sets the error and calls nothing. -/
theorem verification_scenario :
    (Verification.handleVerify
      (Verification.run (Verification.init (JSValue.string "a@b.co"))
        [(0, "1"), (1, "2"), (2, "x"), (2, "3"), (3, "4"), (4, "5"), (5, "6")])).calls
      = [(JSValue.string "a@b.co", "123456", "email")] ∧
    (Verification.handleVerify
      (Verification.run (Verification.init (JSValue.string "a@b.co"))
        [(0, "1"), (1, "2"), (2, "3"), (3, "4"), (4, "5")])).calls = [] ∧
    (Verification.handleVerify
      (Verification.run (Verification.init (JSValue.string "a@b.co"))
        [(0, "1"), (1, "2"), (2, "3"), (3, "4"), (4, "5")])).error
      = "Please enter the 6-digit verification code" := by
  refine ⟨rfl, rfl, rfl⟩

/-! ## The skill assessment -/

/-- C24 at its failing input: the one-question assessment is started, its
question answered and "Submit Assessment" clicked, so submitted is true and
the submitAssessment call is pending.  The [timeLeft] effect tests submitted
and calls nothing when the timer reaches 0; but the button is still on the
page and handleSubmit does not test submitted: a second click makes a second
submitAssessment call. -/
theorem assessment_submitted_twice :
    SkillAssessment.submittingState.submitted = true ∧
    SkillAssessment.submittingState.pendingSubmits = 1 ∧
    SkillAssessment.submittingState.submitCalls = [(JSValue.number 3, [("5", 0)])] ∧
    (SkillAssessment.second
      { SkillAssessment.submittingState with timeLeft := some 1 } true).submitCalls
      = [(JSValue.number 3, [("5", 0)])] ∧
    (SkillAssessment.step SkillAssessment.submittingState
      (SkillAssessment.Event.clickSubmit true)).submitCalls
      = [(JSValue.number 3, [("5", 0)]), (JSValue.number 3, [("5", 0)])] ∧
    (SkillAssessment.step SkillAssessment.submittingState
      (SkillAssessment.Event.clickSubmit true)).pendingSubmits = 2 := by
  refine ⟨rfl, rfl, rfl, rfl, rfl, rfl⟩

theorem lookup_setProp (props : List (String × JSValue)) (k : String) (v : JSValue) :
    (setProp props k v).lookup k = some v := by
  induction props with
  | nil => simp [setProp, List.lookup]
  | cons p rest ih =>
    obtain ⟨k1, v1⟩ := p
    unfold setProp
    by_cases h : (k1 == k) = true
    · simp [h, List.lookup]
    · have h1 : (k == k1) = false := by
        simp only [beq_iff_eq, Bool.not_eq_true, beq_eq_false_iff_ne, ne_eq] at h ⊢
        exact fun e => h e.symm
      simp [h, List.lookup, h1, ih]

theorem lookup_setAnswer (l : List (String × Int)) (k : String) (v : Int) :
    (setAnswer l k v).lookup k = some v ∧
    ∀ k2, k2 ≠ k → (setAnswer l k v).lookup k2 = l.lookup k2 := by
  induction l with
  | nil =>
    refine ⟨by simp [setAnswer, List.lookup], fun k2 h2 => ?_⟩
    have : (k2 == k) = false := by simpa using h2
    simp [setAnswer, List.lookup, this]
  | cons p rest ih =>
    obtain ⟨k1, v1⟩ := p
    unfold setAnswer
    by_cases h : (k1 == k) = true
    · have hk : k1 = k := by simpa using h
      subst hk
      refine ⟨by simp [List.lookup], fun k2 h2 => ?_⟩
      have : (k2 == k1) = false := by simpa using h2
      simp [List.lookup, this]
    · have h1 : (k == k1) = false := by
        simp only [beq_iff_eq, Bool.not_eq_true, beq_eq_false_iff_ne, ne_eq] at h ⊢
        exact fun e => h e.symm
      refine ⟨by simp [h, List.lookup, h1, ih.1], fun k2 h2 => ?_⟩
      simp only [h, Bool.false_eq_true, if_false, List.lookup]
      cases hk : (k2 == k1) with
      | true => rfl
      | false => exact ih.2 k2 h2

theorem getProp_some_eq (v x : JSValue) (k : String) (h : v.getProp k = some x) :
    x = optProp v k := by
  cases v <;> simp_all [JSValue.getProp, optProp]

theorem or_fallback_truthy (own : JSValue) (n : Nat) :
    (own.or (JSValue.number ((n : Int) + 1))).truthy = true := by
  unfold JSValue.or
  by_cases h : own.truthy = true
  · simp [h]
  · simp only [h]
    have hn : (n : Int) + 1 ≠ 0 := by omega
    simpa [JSValue.truthy] using hn

theorem questionsWithIds_spec (qs : List JSValue) :
    ∀ (index : Nat) (result : List JSValue),
      SkillAssessment.questionsWithIds qs index = some result →
      result.length = qs.length ∧
      (∀ i q, qs[i]? = some q → ∃ r, result[i]? = some r ∧
        optProp r "id" = (optProp q "id").or (JSValue.number ((index + i : Nat) + 1))) ∧
      ((∀ q ∈ qs, (optProp q "id").truthy = false) →
        result.map (fun r => optProp r "id")
          = (List.range' index qs.length).map (fun n => JSValue.number ((n : Nat) + 1))) := by
  induction qs with
  | nil =>
    intro index result h
    simp only [SkillAssessment.questionsWithIds, Option.some.injEq] at h
    subst h
    exact ⟨rfl, fun i q hq => by simp at hq, fun _ => rfl⟩
  | cons q qs ih =>
    intro index result h
    unfold SkillAssessment.questionsWithIds at h
    split at h
    · rename_i id rest hid hrest
      simp only [Option.some.injEq] at h
      subst h
      obtain ⟨hlen, hel, hno⟩ := ih (index + 1) rest hrest
      have hidq := getProp_some_eq q id "id" hid
      have hr : optProp (JSValue.object (setProp (spreadProps q) "id"
          (id.or (JSValue.number ((index : Int) + 1))))) "id"
          = id.or (JSValue.number ((index : Int) + 1)) := by
        simp [optProp, lookup_setProp]
      refine ⟨by simp [hlen], fun i x hx => ?_, fun hall => ?_⟩
      · cases i with
        | zero =>
          simp only [List.getElem?_cons_zero, Option.some.injEq] at hx
          subst hx
          refine ⟨_, List.getElem?_cons_zero, ?_⟩
          rw [hr, hidq]
          simp
        | succ j =>
          simp only [List.getElem?_cons_succ] at hx
          obtain ⟨r, hr1, hr2⟩ := hel j x hx
          refine ⟨r, by simpa using hr1, ?_⟩
          rw [hr2]
          congr 2
          push_cast
          omega
      · have hq0 : (optProp q "id").truthy = false := hall q (List.mem_cons_self _ _)
        have hrest1 := hno (fun x hx => hall x (List.mem_cons_of_mem _ hx))
        simp only [List.map_cons, List.length_cons, List.range'_succ, hrest1]
        congr 1
        rw [hr, hidq]
        simp [JSValue.or, hq0]
    · cases h

/-- Counterexample to C25: the first question comes with the id 2 and the
second with none; the second gets its position plus 1, which is 2 again, and
the answer to the second question replaces the answer to the first. -/
theorem fallback_id_collides :
    SkillAssessment.mixedState.assessment.map
      (fun a => a.questions.map (fun q => optProp q "id"))
      = some [JSValue.number 2, JSValue.number 2] ∧
    (SkillAssessment.run SkillAssessment.mixedState
      [SkillAssessment.Event.answer (JSValue.number 2) 0,
       SkillAssessment.Event.answer (JSValue.number 2) 1]).answers = [("2", 1)] := by
  refine ⟨rfl, rfl⟩

/-- C25 as amended: when startAssessment gives the questions their ids, every
question gets a truthy id: its own id when that is truthy, otherwise its
position plus 1.  When no question brings an id of its own the ids are 1 to n
and so pairwise distinct (with ids of their own they need not be).
handleAnswer stores an answer under the key String(id): answers given under
two ids with different strings are both kept. -/
theorem questions_get_ids :
    (∀ (qs result : List JSValue), SkillAssessment.questionsWithIds qs 0 = some result →
      result.length = qs.length ∧
      (∀ i q, qs[i]? = some q → ∃ r, result[i]? = some r ∧
        optProp r "id" = (optProp q "id").or (JSValue.number ((i : Nat) + 1)) ∧
        (optProp r "id").truthy = true) ∧
      ((∀ q ∈ qs, (optProp q "id").truthy = false) →
        result.map (fun r => optProp r "id")
          = (List.range qs.length).map (fun n => JSValue.number ((n : Nat) + 1)) ∧
        (result.map (fun r => optProp r "id")).Nodup)) ∧
    (∀ (s : SkillAssessment.State) (id1 id2 : JSValue) (a1 a2 : Int),
      jsToString id1 ≠ jsToString id2 →
      (SkillAssessment.handleAnswer (SkillAssessment.handleAnswer s id1 a1) id2
        a2).answers.lookup (jsToString id1) = some a1 ∧
      (SkillAssessment.handleAnswer (SkillAssessment.handleAnswer s id1 a1) id2
        a2).answers.lookup (jsToString id2) = some a2) := by
  refine ⟨fun qs result h => ?_, fun s id1 id2 a1 a2 hne => ?_⟩
  · obtain ⟨hlen, hel, hno⟩ := questionsWithIds_spec qs 0 result h
    refine ⟨hlen, fun i q hq => ?_, fun hall => ?_⟩
    · obtain ⟨r, hr1, hr2⟩ := hel i q hq
      refine ⟨r, hr1, ?_, ?_⟩
      · rw [hr2]
        simp
      · rw [hr2]
        exact or_fallback_truthy _ _
    · have he := hno hall
      rw [List.range_eq_range']
      refine ⟨he, ?_⟩
      rw [he]
      refine List.Nodup.map ?_ (List.nodup_range' 0 qs.length)
      intro a b hab
      simp only [JSValue.number.injEq] at hab
      omega
  · simp only [SkillAssessment.handleAnswer]
    have h2 := lookup_setAnswer (setAnswer s.answers (jsToString id1) a1) (jsToString id2) a2
    have h1 := lookup_setAnswer s.answers (jsToString id1) a1
    exact ⟨by rw [h2.2 _ hne, h1.1], h2.1⟩

/-- Witness of C25 as amended: two questions without ids get the ids 1 and 2,
and in the started one-question assessment answers under the ids 5 and 6 are
both kept. -/
theorem questions_get_ids_witness :
    [JSValue.object [("question", JSValue.string "First?"), ("id", JSValue.number 1)],
      JSValue.object [("question", JSValue.string "Second?"), ("id", JSValue.number 2)]].length
      = 2 ∧
    (SkillAssessment.handleAnswer
      (SkillAssessment.handleAnswer SkillAssessment.answeredState (JSValue.number 5) 1)
      (JSValue.number 6) 0).answers.lookup (jsToString (JSValue.number 5)) = some 1 :=
  ⟨(questions_get_ids.1
      [JSValue.object [("question", JSValue.string "First?")],
       JSValue.object [("question", JSValue.string "Second?")]]
      [JSValue.object [("question", JSValue.string "First?"), ("id", JSValue.number 1)],
       JSValue.object [("question", JSValue.string "Second?"), ("id", JSValue.number 2)]]
      rfl).1,
   (questions_get_ids.2 SkillAssessment.answeredState (JSValue.number 5) (JSValue.number 6) 1 0
      (by decide)).1⟩

theorem skillAssessment_handleSubmit_frame (s : SkillAssessment.State) (confirm : Bool) :
    (SkillAssessment.handleSubmit s confirm).assessment = s.assessment ∧
    (SkillAssessment.handleSubmit s confirm).currentQuestion = s.currentQuestion := by
  unfold SkillAssessment.handleSubmit
  repeat' split
  all_goals exact ⟨rfl, rfl⟩

theorem skillAssessment_inv_of_fields (s t : SkillAssessment.State)
    (h : SkillAssessment.NavInv s) (h1 : t.assessment = s.assessment)
    (h2 : t.currentQuestion = s.currentQuestion) : SkillAssessment.NavInv t := by
  unfold SkillAssessment.NavInv at h ⊢
  rw [h1, h2]
  exact h

theorem skillAssessment_start_inv (s : SkillAssessment.State) (assessmentId data : JSValue)
    (seconds : Option Int) (confirm : Bool) (h : SkillAssessment.NavInv s) :
    SkillAssessment.NavInv
      (SkillAssessment.startAssessmentResolved s assessmentId data seconds confirm) := by
  unfold SkillAssessment.startAssessmentResolved
  split
  · rename_i q qs hq
    split
    · rename_i questions hqs
      have hlen := (questionsWithIds_spec (q :: qs) 0 questions hqs).1
      have hbase : SkillAssessment.NavInv
          { s with assessment := some ⟨data, questions⟩, selectedSkill := assessmentId,
                   currentQuestion := 0, answers := [], timeLeft := seconds,
                   submitted := false, score := JSValue.null, loading := false } := by
        intro a ha
        simp only [Option.some.injEq] at ha
        subst ha
        simp only [hlen, List.length_cons]
        constructor
        · exact le_refl _
        · push_cast
          omega
      simp only []
      split
      · exact skillAssessment_inv_of_fields _ _ hbase
          (skillAssessment_handleSubmit_frame _ _).1 (skillAssessment_handleSubmit_frame _ _).2
      · exact hbase
    · exact skillAssessment_inv_of_fields s _ h rfl rfl
  · exact skillAssessment_inv_of_fields s _ h rfl rfl

theorem skillAssessment_step_inv (s : SkillAssessment.State) (ev : SkillAssessment.Event)
    (h : SkillAssessment.NavInv s) : SkillAssessment.NavInv (SkillAssessment.step s ev) := by
  cases ev with
  | startResolved assessmentId data seconds confirm =>
    exact skillAssessment_start_inv s assessmentId data seconds confirm h
  | answer questionId answerIndex => exact skillAssessment_inv_of_fields s _ h rfl rfl
  | next =>
    simp only [SkillAssessment.step, SkillAssessment.handleNext]
    split
    · rename_i a ha
      split
      · rename_i hlt
        intro b hb
        have hab : s.assessment = some b := hb
        have := h b hab
        rw [ha] at hab
        simp only [Option.some.injEq] at hab
        subst hab
        show 0 ≤ s.currentQuestion + 1 ∧ s.currentQuestion + 1 < _
        omega
      · exact h
    · exact h
  | previous =>
    simp only [SkillAssessment.step, SkillAssessment.handlePrevious]
    split
    · rename_i hgt
      intro b hb
      have := h b hb
      show 0 ≤ s.currentQuestion - 1 ∧ s.currentQuestion - 1 < _
      omega
    · exact h
  | second confirm =>
    simp only [SkillAssessment.step, SkillAssessment.second]
    repeat' split
    all_goals first
      | exact h
      | exact skillAssessment_inv_of_fields s _ h rfl rfl
      | exact skillAssessment_inv_of_fields s _ h
          (skillAssessment_handleSubmit_frame _ _).1 (skillAssessment_handleSubmit_frame _ _).2
  | clickSubmit confirm =>
    simp only [SkillAssessment.step]
    split
    · exact skillAssessment_inv_of_fields s _ h
        (skillAssessment_handleSubmit_frame _ _).1 (skillAssessment_handleSubmit_frame _ _).2
    · exact h
  | submitResolved result =>
    simp only [SkillAssessment.step, SkillAssessment.handleSubmitResolved]
    repeat' split
    all_goals exact h
  | submitRejected =>
    simp only [SkillAssessment.step, SkillAssessment.handleSubmitRejected]
    split
    · exact h
    · exact skillAssessment_inv_of_fields s _ h rfl rfl
  | takeAnother =>
    intro a ha
    cases ha

theorem skillAssessment_run_inv (es : List SkillAssessment.Event) (s : SkillAssessment.State)
    (h : SkillAssessment.NavInv s) : SkillAssessment.NavInv (SkillAssessment.run s es) := by
  induction es generalizing s with
  | nil => exact h
  | cons e es ih => exact ih _ (skillAssessment_step_inv s e h)

/-- C27: in every state of the page reached from its first render, with an
assessment started, currentQuestion is at least 0 and at most
questions.length - 1, so the current question exists; handleNext at the last
question and handlePrevious at the first leave the state unchanged. -/
theorem current_question_in_range (es : List SkillAssessment.Event)
    (a : SkillAssessment.Assessment)
    (h : (SkillAssessment.run SkillAssessment.init es).assessment = some a) :
    0 ≤ (SkillAssessment.run SkillAssessment.init es).currentQuestion ∧
    (SkillAssessment.run SkillAssessment.init es).currentQuestion
      ≤ (a.questions.length : Int) - 1 ∧
    (∃ q, a.questions[(SkillAssessment.run SkillAssessment.init es).currentQuestion.toNat]?
      = some q) ∧
    ((SkillAssessment.run SkillAssessment.init es).currentQuestion
        = (a.questions.length : Int) - 1 →
      SkillAssessment.handleNext (SkillAssessment.run SkillAssessment.init es)
        = SkillAssessment.run SkillAssessment.init es) ∧
    ((SkillAssessment.run SkillAssessment.init es).currentQuestion = 0 →
      SkillAssessment.handlePrevious (SkillAssessment.run SkillAssessment.init es)
        = SkillAssessment.run SkillAssessment.init es) := by
  have hinv : SkillAssessment.NavInv (SkillAssessment.run SkillAssessment.init es) :=
    skillAssessment_run_inv es _ (fun b hb => by cases hb)
  generalize SkillAssessment.run SkillAssessment.init es = s at h hinv ⊢
  obtain ⟨h0, h1⟩ := hinv a h
  refine ⟨h0, by omega, ?_, fun hl => ?_, fun hz => ?_⟩
  · have hlt : s.currentQuestion.toNat < a.questions.length := by omega
    exact ⟨a.questions[s.currentQuestion.toNat], List.getElem?_eq_getElem hlt⟩
  · simp [SkillAssessment.handleNext, h, hl]
  · simp [SkillAssessment.handlePrevious, hz]

/-- Witness of C27: the one-question assessment, started and answered; Next
and Previous are both at their end. -/
theorem current_question_in_range_witness :
    0 ≤ SkillAssessment.answeredState.currentQuestion ∧
    SkillAssessment.handleNext SkillAssessment.answeredState = SkillAssessment.answeredState :=
  ⟨(current_question_in_range
      [SkillAssessment.Event.startResolved (JSValue.number 3) SkillAssessment.oneQuestion
        (some 600) false, SkillAssessment.Event.answer (JSValue.number 5) 0] _ rfl).1,
   (current_question_in_range
      [SkillAssessment.Event.startResolved (JSValue.number 3) SkillAssessment.oneQuestion
        (some 600) false, SkillAssessment.Event.answer (JSValue.number 5) 0] _ rfl).2.2.2.1 rfl⟩

/-! ## The assessment builder -/

/-- C26 at its failing input: the admin sets the type to multiple choice,
marks the options 0 and 1 correct, sets the type back to single choice (which
leaves the marks as they are), fills the question and two options and adds the
question: a single choice question with two correct options is appended.
Marking the options 0 and then 1 while the type is single leaves exactly one
correct. -/
theorem single_question_with_two_correct :
    AdminDashboard.correctCounts (AdminDashboard.run AdminDashboard.init
      [AdminDashboard.Event.changeType "multiple", AdminDashboard.Event.markCorrect 0,
       AdminDashboard.Event.markCorrect 1, AdminDashboard.Event.changeType "single",
       AdminDashboard.Event.changeText "Which are fruits?",
       AdminDashboard.Event.changeOption 0 "Apple", AdminDashboard.Event.changeOption 1 "Pear",
       AdminDashboard.Event.addQuestion]) = [("single", 2)] ∧
    AdminDashboard.correctCounts (AdminDashboard.run AdminDashboard.init
      [AdminDashboard.Event.markCorrect 0, AdminDashboard.Event.markCorrect 1,
       AdminDashboard.Event.changeText "Which is a fruit?",
       AdminDashboard.Event.changeOption 0 "Stone", AdminDashboard.Event.changeOption 1 "Pear",
       AdminDashboard.Event.addQuestion]) = [("single", 1)] := by
  refine ⟨by decide, by decide⟩

/-! ## The rating distribution -/

/-- C28 at its failing input: a single review rated 4.5.  The distribution
rounds the rating and shows 1 review for 5 stars and 0 for 4 stars; the filter
takes the floor and lists no review for 5 stars and one for 4 stars. -/
theorem half_star_counted_and_listed_apart :
    ReviewsList.shownCount
      (ReviewsList.getRatingDistribution [ReviewsList.halfStarReview]) 5 = 1 ∧
    (ReviewsList.filteredReviews (ReviewsList.Filter.stars 5) "newest"
      [ReviewsList.halfStarReview]).length = 0 ∧
    ReviewsList.shownCount
      (ReviewsList.getRatingDistribution [ReviewsList.halfStarReview]) 4 = 0 ∧
    (ReviewsList.filteredReviews (ReviewsList.Filter.stars 4) "newest"
      [ReviewsList.halfStarReview]).length = 1 := by
  refine ⟨by decide, by decide, by decide, by decide⟩

end HRSystem
